import Mathlib

/-!
Chippy: window state reconciliation and event fan-out.

A shallow embedding of `window.go` (the `Window` object, its caller-driven
setters, its native-driven `trySet*` updates and the event fan-out `send`), of
the X11 event pump `NativeWindow.handleEvent` and the frame-extents negotiation
of `window_linux.go`, of the process lifecycle and dispatcher of
`chippy.go` (`Init`, `Exit`, `MainLoop`, `dispatch`), of the OpenGL context
and configuration code (`opengl.go`, `opengl_linux.go`, `opengl_windows.go`,
`glconfig.go`) and of the screens (`screen.go`, `screenmode.go`).

Conventions of the embedding:

* Go `int` values are `Int`; the functions embedded here only compare and copy
  them, but for the subtraction of the motion handler, which is on 16-bit
  coordinates, and the sum `width + height` of a screen mode, which wraps
  around (`wrapInt`).
* `sync.RWMutex` sections are run to completion, one call after the other.
* `go w.NativeWindow.setX(..)` is recorded by appending the call to
  `Window.nativeLog`, in the order the goroutines are started. The goroutines
  of the event pump that call `doSetCursorGrabbed` also write a flag the pump
  reads: they are run where they are started.
* A `chan Event` is a record in the heap `Window.chans`; its index is the
  channel's identity and `Chan.registered` says whether the channel is a key of
  the map `Window.events`.
* `time.Now()` is an input: a function reading the clock once takes the value
  read, a function reading it several times takes `now : Nat → Time`, indexed by
  the reading site.
* A `uint8` is a `Fin 256`, with the wrap of its subtraction written out; the
  `float32` sizes and refresh rates of screens, taken not to be NaN or
  infinite, are the rational numbers they denote (the aspect ratio of a window
  is a bit pattern, `F32`); a Go string is the list of its bytes.
* The Go standard library (`sort.Sort`, `strings.Split`, `strings.Count`,
  `strings.Contains`, `strconv.Atoi`) is embedded from its documented
  behaviour.
* A call that can park on a channel returns an `Outcome`; what the backend and
  the callbacks do is recorded as `Effect`s; the two threads of `dispatch` and
  `MainLoop` are interleaved by a schedule.
-/

namespace Chippy

/-! ## Events -/

/-- Timestamps (`time.Time`), as an abstract tick count. -/
abbrev Time := Nat

/-- The type `keyboard.Key`; the zero value is `keyboard.Invalid`. -/
abbrev Key := Nat

/-- The type `keyboard.State`. -/
inductive KeyState where
  | InvalidState
  | Down
  | Up
  | On
  | Off
  deriving DecidableEq, Repr

/-- The type `mouse.Button`; `Invalid` is the zero value. -/
inductive MouseButton where
  | Invalid
  | Left
  | Right
  | Wheel
  | Four
  | Five
  deriving DecidableEq, Repr

/-- The type `mouse.State`. -/
inductive MouseState where
  | InvalidState
  | Down
  | Up
  | ScrollForward
  | ScrollBack
  | ScrollLeft
  | ScrollRight
  deriving DecidableEq, Repr

/-- Identity of an `image.Image` value (interface values are compared by
identity in `SetIcon`). -/
abbrev Image := Nat

/-- Identity of a `*Cursor`. -/
abbrev CursorRef := Nat

/-- Identity of a `*Screen`. -/
abbrev ScreenRef := Nat

/-- The event records of `windowevents.go`, together with `keyboard.StateEvent`,
`keyboard.TypedEvent` and `mouse.Event`, which the window publishes too. The
coordinates of `CursorPositionEvent` are the integers that the `float64`
fields hold. -/
inductive Event where
  | DestroyedEvent (T : Time)
  | CloseEvent (T : Time)
  | CursorPositionEvent (X Y : Int) (T : Time)
  | CursorWithinEvent (Within : Bool) (T : Time)
  | MaximizedEvent (Maximized : Bool) (T : Time)
  | MinimizedEvent (Minimized : Bool) (T : Time)
  | FocusedEvent (Focused : Bool) (T : Time)
  | PositionEvent (X Y : Int) (T : Time)
  | ResizedEvent (Width Height : Int) (T : Time)
  | ScreenChangedEvent (Screen : Option ScreenRef) (T : Time)
  | KeyboardStateEvent (T : Time) (Key : Key) (Raw : Nat) (State : KeyState)
  | KeyboardTypedEvent (T : Time) (Rune : Nat)
  | MouseEvent (T : Time) (Button : MouseButton) (State : MouseState)
  deriving DecidableEq, Repr

/-! ## Subscriber queues -/

/-- A buffered `chan Event`: capacity, the events waiting in the buffer (head
first), and whether the channel is currently a key of `Window.events`. The
consumer reads between two calls; a receiver parked on the channel while `send`
runs (the only way an unbuffered channel accepts a send) is not represented. -/
structure Chan where
  cap : Nat
  buf : List Event
  registered : Bool
  deriving DecidableEq, Repr

/-- The non-blocking send `select { case ch <- ev: ... default: ... }`:
`some` is the channel after the send, `none` means the send would block and the
`default` branch is taken. -/
def Chan.trySend (ch : Chan) (ev : Event) : Option Chan :=
  if ch.buf.length < ch.cap then some { ch with buf := ch.buf ++ [ev] } else none

/-! ## Keyboard and mouse watchers -/

/-- Store `v` under key `k` of a Go map kept as an association list. -/
def mapSet {α β : Type} [DecidableEq α] (m : List (α × β)) (k : α) (v : β) : List (α × β) :=
  if m.any (fun p => decide (p.1 = k)) then
    m.map (fun p => if p.1 = k then (k, v) else p)
  else
    m ++ [(k, v)]

/-- Read key `k` of a Go map kept as an association list, `d` when absent. -/
def mapGet {α β : Type} [DecidableEq α] (m : List (α × β)) (k : α) (d : β) : β :=
  match m.find? (fun p => decide (p.1 = k)) with
  | some p => p.2
  | none => d

/-- Modelled from the spec: `keyboard.Watcher` of the external package
`azul3d.org/keyboard.v1`, which is not part of the sources: "a simple map"
tracking the state per key and per raw key code. A key that was never set
reads as `Up`. -/
structure KeyboardWatcher where
  states : List (Key × KeyState)
  rawStates : List (Nat × KeyState)
  deriving DecidableEq, Repr

def KeyboardWatcher.State (kw : KeyboardWatcher) (k : Key) : KeyState :=
  mapGet kw.states k KeyState.Up

def KeyboardWatcher.RawState (kw : KeyboardWatcher) (raw : Nat) : KeyState :=
  mapGet kw.rawStates raw KeyState.Up

def KeyboardWatcher.SetState (kw : KeyboardWatcher) (k : Key) (s : KeyState) : KeyboardWatcher :=
  { kw with states := mapSet kw.states k s }

def KeyboardWatcher.SetRawState (kw : KeyboardWatcher) (raw : Nat) (s : KeyState) :
    KeyboardWatcher :=
  { kw with rawStates := mapSet kw.rawStates raw s }

/-- Modelled from the spec: `mouse.Watcher` of the external package
`azul3d.org/mouse.v1`, which is not part of the sources: a map from button to
state. -/
structure MouseWatcher where
  states : List (MouseButton × MouseState)
  deriving DecidableEq, Repr

def MouseWatcher.SetState (mw : MouseWatcher) (b : MouseButton) (s : MouseState) : MouseWatcher :=
  { mw with states := mapSet mw.states b s }

/-! ## float32 -/

/-- A `float32`, as its IEEE-754 binary32 bit pattern. -/
abbrev F32 := Nat

def f32IsNaN (a : F32) : Bool :=
  decide ((a / 2 ^ 23) % 256 = 255) && decide (a % 2 ^ 23 ≠ 0)

def f32IsZero (a : F32) : Bool :=
  decide (a % 2 ^ 31 = 0)

/-- Go's `a != b` on `float32`: a NaN differs from everything, the two zeros
are equal, otherwise the bit patterns are compared. -/
def f32ne (a b : F32) : Bool :=
  f32IsNaN a || f32IsNaN b || !(decide (a = b) || (f32IsZero a && f32IsZero b))

/-! ## The window -/

/-- A call started on the native window (`go w.NativeWindow.setX(..)`), or made
by the event pump itself (`warpPointer`, `doSetCursorGrabbed`). -/
inductive NativeCall where
  | destroy
  | notify
  | setIcon (icon : Image)
  | setTitle (title : String)
  | setVisible (visible : Bool)
  | setTransparent (transparent : Bool)
  | setDecorated (decorated : Bool)
  | setAlwaysOnTop (alwaysOnTop : Bool)
  | setAspectRatio (ratio : F32)
  | setSize (width height : Int)
  | setCursorGrabbed (grabbed : Bool)
  | doSetCursorGrabbed (grabbed restorePosition : Bool)
  | setCursor (cursor : Option CursorRef)
  | freeCursor (cursor : CursorRef)
  | prepareCursor (cursor : CursorRef)
  | setFullscreen (fullscreen : Bool)
  | setMinimized (minimized : Bool)
  | setMaximized (maximized : Bool)
  | setCursorPosition (x y : Int)
  | setMinimumSize (width height : Int)
  | setMaximumSize (width height : Int)
  | setPosition (x y : Int)
  | warpPointer (x y : Int)
  deriving DecidableEq, Repr

/-- The fields of the X11 `NativeWindow` that the event pump reads and writes:
`last.cursorX`, `last.cursorY` and the three `can.*` flags. -/
structure NativeWindow where
  lastCursorX : Int
  lastCursorY : Int
  sendPositionEvents : Bool
  sendSizeEvents : Bool
  sendRelativeMoveEvents : Bool
  deriving DecidableEq, Repr

/-- The function `newNativeWindow`: every field has its zero value. -/
def newNativeWindow : NativeWindow :=
  { lastCursorX := 0, lastCursorY := 0, sendPositionEvents := false,
    sendSizeEvents := false, sendRelativeMoveEvents := false }

/-- The struct `Window`. `chans` holds every channel made by `EventsBuffer`
(the registered ones are the keys of `events`), `nativeLog` the native calls
issued so far. -/
structure Window where
  NativeWindow : NativeWindow
  nativeLog : List NativeCall
  Keyboard : KeyboardWatcher
  Mouse : MouseWatcher
  chans : List Chan
  icon : Option Image
  cursor : Option CursorRef
  opened : Bool
  destroyed : Bool
  focused : Bool
  visible : Bool
  decorated : Bool
  minimized : Bool
  maximized : Bool
  fullscreen : Bool
  alwaysOnTop : Bool
  cursorGrabbed : Bool
  cursorWithin : Bool
  transparent : Bool
  extentLeft : Int
  extentRight : Int
  extentBottom : Int
  extentTop : Int
  width : Int
  height : Int
  preFullscreenWidth : Int
  preFullscreenHeight : Int
  minWidth : Int
  minHeight : Int
  maxWidth : Int
  maxHeight : Int
  x : Int
  y : Int
  preFullscreenX : Int
  preFullscreenY : Int
  cursorX : Int
  cursorY : Int
  lastCursorX : Int
  lastCursorY : Int
  preGrabCursorX : Int
  preGrabCursorY : Int
  aspectRatio : F32
  originalScreen : Option ScreenRef
  screen : Option ScreenRef
  title : String

/-- The package variable `defaultIcon`. -/
def defaultIcon : Image := 0

namespace Window

/-- The value `new(Window)` with the watchers and the event map of `NewWindow`
in place: every field zero. -/
def zero : Window :=
  { NativeWindow := newNativeWindow, nativeLog := [],
    Keyboard := { states := [], rawStates := [] }, Mouse := { states := [] },
    chans := [], icon := none, cursor := none,
    opened := false, destroyed := false, focused := false, visible := false,
    decorated := false, minimized := false, maximized := false, fullscreen := false,
    alwaysOnTop := false, cursorGrabbed := false, cursorWithin := false,
    transparent := false,
    extentLeft := 0, extentRight := 0, extentBottom := 0, extentTop := 0,
    width := 0, height := 0, preFullscreenWidth := 0, preFullscreenHeight := 0,
    minWidth := 0, minHeight := 0, maxWidth := 0, maxHeight := 0, x := 0, y := 0,
    preFullscreenX := 0, preFullscreenY := 0, cursorX := 0, cursorY := 0,
    lastCursorX := 0, lastCursorY := 0, preGrabCursorX := 0, preGrabCursorY := 0,
    aspectRatio := 0, originalScreen := none, screen := none, title := "" }

/-! ### Event fan-out -/

/-- The method `Window.send`: for each channel of `w.events`, a non-blocking
send; a channel whose buffer is full is skipped (the `default` branch only
writes a warning to the logger). -/
def send (w : Window) (ev : Event) : Window :=
  { w with chans := w.chans.map fun ch =>
      if ch.registered then
        match ch.trySend ev with
        | some ch' => ch'
        | none => ch
      else ch }

/-- The method `Window.EventsBuffer`: `make(chan Event, bufferSize)` and its
registration in `w.events`; the result holds the new channel's identity.
`none` is the run-time panic of `make` on a negative size. -/
def EventsBuffer (w : Window) (bufferSize : Int) : Option (Window × Nat) :=
  if bufferSize < 0 then none
  else
    some ({ w with chans := w.chans ++ [{ cap := bufferSize.toNat, buf := [], registered := true }] },
      w.chans.length)

/-- The method `Window.Events`. -/
def Events (w : Window) : Option (Window × Nat) :=
  w.EventsBuffer 64

/-- The method `Window.CloseEvents`: `delete(w.events, ch)` when `ch` is a
key of the map. -/
def CloseEvents (w : Window) (c : Nat) : Window :=
  match w.chans.get? c with
  | some ch =>
    if ch.registered then
      { w with chans := w.chans.set c { ch with registered := false } }
    else w
  | none => w

/-- A consumer's receive `<-ch` on channel `c`: the head of the buffer leaves
it. `none` when there is nothing to read (or no such channel). -/
def recv (w : Window) (c : Nat) : Option Event × Window :=
  match w.chans.get? c with
  | some ch =>
    match ch.buf with
    | ev :: rest => (some ev, { w with chans := w.chans.set c { ch with buf := rest } })
    | [] => (none, w)
  | none => (none, w)

/-! ### Lifecycle -/

/-- The method `Window.Open`. `native` is the outcome of
`w.NativeWindow.open(screen)`: `none` when it returns an error, otherwise the
state of the native window's pump fields when it returns. The result is the
window and whether an error is returned. The events that the native open
itself publishes before it returns (on X11 `refreshIndicators` sends the state
of the lock keys and records it in the keyboard watcher) are left out. -/
def Open (w : Window) (screen : Option ScreenRef) (native : Option Chippy.NativeWindow) :
    Window × Bool :=
  if w.opened && !w.destroyed then (w, false)
  else
    let w1 : Window :=
      if w.destroyed then { w with NativeWindow := newNativeWindow, destroyed := false } else w
    let w2 : Window := { w1 with originalScreen := screen, screen := screen }
    match native with
    | some nw => ({ w2 with NativeWindow := nw, focused := true, opened := true }, false)
    | none => (w2, true)

/-- The method `Window.Destroy`; `now` is the reading of the clock. -/
def Destroy (now : Time) (w : Window) : Window :=
  if !w.opened || w.destroyed then w
  else
    let w1 : Window := { w with opened := false, destroyed := true }
    let w2 := w1.send (Event.DestroyedEvent now)
    { w2 with nativeLog := w2.nativeLog ++ [NativeCall.destroy] }

/-! ### Caller-driven setters -/

/-- The method `Window.SetIcon`. -/
def SetIcon (w : Window) (icon : Option Image) : Window :=
  if w.icon ≠ icon then
    let w1 : Window := { w with icon := icon }
    if w1.opened then
      let shown : Image := match icon with
        | none => defaultIcon
        | some i => i
      { w1 with nativeLog := w1.nativeLog ++ [NativeCall.setIcon shown] }
    else w1
  else w

/-- The method `Window.SetTitle`. -/
def SetTitle (w : Window) (title : String) : Window :=
  if w.title ≠ title then
    let w1 : Window := { w with title := title }
    if w1.opened then { w1 with nativeLog := w1.nativeLog ++ [NativeCall.setTitle title] }
    else w1
  else w

/-- The method `Window.SetVisible`. -/
def SetVisible (w : Window) (visible : Bool) : Window :=
  if w.visible ≠ visible then
    let w1 : Window := { w with visible := visible }
    if w1.opened then { w1 with nativeLog := w1.nativeLog ++ [NativeCall.setVisible visible] }
    else w1
  else w

/-- The method `Window.SetTransparent`. -/
def SetTransparent (w : Window) (transparent : Bool) : Window :=
  if w.transparent ≠ transparent then
    let w1 : Window := { w with transparent := transparent }
    if w1.opened then
      { w1 with nativeLog := w1.nativeLog ++ [NativeCall.setTransparent transparent] }
    else w1
  else w

/-- The method `Window.SetDecorated`. -/
def SetDecorated (w : Window) (decorated : Bool) : Window :=
  if w.decorated ≠ decorated then
    let w1 : Window := { w with decorated := decorated }
    if w1.opened then
      { w1 with nativeLog := w1.nativeLog ++ [NativeCall.setDecorated decorated] }
    else w1
  else w

/-- The method `Window.SetAlwaysOnTop`. -/
def SetAlwaysOnTop (w : Window) (alwaysOnTop : Bool) : Window :=
  if w.alwaysOnTop ≠ alwaysOnTop then
    let w1 : Window := { w with alwaysOnTop := alwaysOnTop }
    if w1.opened then
      { w1 with nativeLog := w1.nativeLog ++ [NativeCall.setAlwaysOnTop alwaysOnTop] }
    else w1
  else w

/-- The method `Window.SetAspectRatio`; the comparison is Go's `!=` on
`float32`. -/
def SetAspectRatio (w : Window) (ratio : F32) : Window :=
  if f32ne w.aspectRatio ratio then
    let w1 : Window := { w with aspectRatio := ratio }
    if w1.opened then
      { w1 with nativeLog := w1.nativeLog ++ [NativeCall.setAspectRatio ratio] }
    else w1
  else w

/-- The method `Window.doClampedSize`. -/
def doClampedSize (w : Window) : Int × Int :=
  let width := w.width
  let height := w.height
  let width := if width ≤ 0 then 1 else width
  let height := if height ≤ 0 then 1 else height
  let (width, height) :=
    if w.minWidth ≠ 0 ∧ w.minHeight ≠ 0 then
      (if width < w.minWidth then w.minWidth else width,
       if height < w.minHeight then w.minHeight else height)
    else (width, height)
  let (width, height) :=
    if w.maxWidth ≠ 0 ∧ w.maxHeight ≠ 0 then
      (if width > w.maxWidth then w.maxWidth else width,
       if height > w.maxHeight then w.maxHeight else height)
    else (width, height)
  (width, height)

/-- The method `Window.clampedSize`. -/
def clampedSize (w : Window) : Int × Int :=
  w.doClampedSize

/-- The method `Window.SetSize`. -/
def SetSize (w : Window) (width height : Int) : Window :=
  if w.width ≠ width ∨ w.height ≠ height then
    let w1 : Window := { w with width := width, height := height }
    if w1.opened then
      let c := w1.doClampedSize
      { w1 with nativeLog := w1.nativeLog ++ [NativeCall.setSize c.1 c.2] }
    else w1
  else w

/-- The method `Window.SetCursorGrabbed`. -/
def SetCursorGrabbed (w : Window) (grabbed : Bool) : Window :=
  if w.cursorGrabbed ≠ grabbed then
    let w1 : Window := { w with cursorGrabbed := grabbed }
    let w2 : Window :=
      if w1.cursorGrabbed then
        { w1 with preGrabCursorX := w1.cursorX, preGrabCursorY := w1.cursorY }
      else
        { w1 with cursorX := w1.preGrabCursorX, cursorY := w1.preGrabCursorY,
                  preGrabCursorX := 0, preGrabCursorY := 0 }
    if w2.opened && w2.cursorWithin then
      { w2 with nativeLog := w2.nativeLog ++ [NativeCall.setCursorGrabbed grabbed] }
    else w2
  else w

/-- The method `Window.SetCursor`. -/
def SetCursor (w : Window) (cursor : Option CursorRef) : Window :=
  if w.cursor ≠ cursor then
    let w1 : Window := { w with cursor := cursor }
    if w1.opened then { w1 with nativeLog := w1.nativeLog ++ [NativeCall.setCursor cursor] }
    else w1
  else w

/-- The method `Window.SetFullscreen`. -/
def SetFullscreen (w : Window) (fullscreen : Bool) : Window :=
  if w.fullscreen ≠ fullscreen then
    let w1 : Window := { w with fullscreen := fullscreen }
    let w2 : Window :=
      if fullscreen then
        { w1 with preFullscreenX := w1.x, preFullscreenY := w1.y,
                  preFullscreenWidth := w1.width, preFullscreenHeight := w1.height }
      else
        { w1 with x := w1.preFullscreenX, y := w1.preFullscreenY,
                  width := w1.preFullscreenWidth, height := w1.preFullscreenHeight }
    if w2.opened then
      { w2 with nativeLog := w2.nativeLog ++
          [NativeCall.setFullscreen fullscreen, NativeCall.setSize w2.width w2.height,
           NativeCall.setPosition w2.x w2.y] }
    else w2
  else w

/-- The method `Window.SetMinimized`. -/
def SetMinimized (w : Window) (minimized : Bool) : Window :=
  if w.minimized ≠ minimized then
    let w1 : Window := { w with minimized := minimized }
    if w1.opened && w1.visible then
      { w1 with nativeLog := w1.nativeLog ++ [NativeCall.setMinimized minimized] }
    else w1
  else w

/-- The method `Window.SetMaximized`. -/
def SetMaximized (w : Window) (maximized : Bool) : Window :=
  if w.maximized ≠ maximized then
    let w1 : Window := { w with maximized := maximized }
    if w1.opened && w1.visible then
      { w1 with nativeLog := w1.nativeLog ++ [NativeCall.setMaximized maximized] }
    else w1
  else w

/-- The method `Window.SetCursorPosition`. -/
def SetCursorPosition (w : Window) (x y : Int) : Window :=
  if w.cursorX ≠ x ∨ w.cursorY ≠ y then
    let w1 : Window := { w with cursorX := x, cursorY := y }
    if w1.opened then
      { w1 with nativeLog := w1.nativeLog ++ [NativeCall.setCursorPosition x y] }
    else w1
  else w

/-- The method `Window.SetMinimumSize`. -/
def SetMinimumSize (w : Window) (width height : Int) : Window :=
  if w.minWidth ≠ width ∨ w.minHeight ≠ height then
    let w1 : Window := { w with minWidth := width, minHeight := height }
    if w1.opened then
      { w1 with nativeLog := w1.nativeLog ++ [NativeCall.setMinimumSize width height] }
    else w1
  else w

/-- The method `Window.SetMaximumSize`. -/
def SetMaximumSize (w : Window) (width height : Int) : Window :=
  if w.maxWidth ≠ width ∨ w.maxHeight ≠ height then
    let w1 : Window := { w with maxWidth := width, maxHeight := height }
    if w1.opened then
      { w1 with nativeLog := w1.nativeLog ++ [NativeCall.setMaximumSize width height] }
    else w1
  else w

/-- The method `Window.SetPosition`. -/
def SetPosition (w : Window) (x y : Int) : Window :=
  if w.x ≠ x ∨ w.y ≠ y then
    let w1 : Window := { w with x := x, y := y }
    if w1.opened then { w1 with nativeLog := w1.nativeLog ++ [NativeCall.setPosition x y] }
    else w1
  else w

/-! ### Getters -/

def Opened (w : Window) : Bool := w.opened
def Destroyed (w : Window) : Bool := w.destroyed
def Position (w : Window) : Int × Int := (w.x, w.y)
def Size (w : Window) : Int × Int := (w.width, w.height)
def MinimumSize (w : Window) : Int × Int := (w.minWidth, w.minHeight)
def MaximumSize (w : Window) : Int × Int := (w.maxWidth, w.maxHeight)
def AspectRatio (w : Window) : F32 := w.aspectRatio
def Minimized (w : Window) : Bool := w.minimized
def Maximized (w : Window) : Bool := w.maximized
def Fullscreen (w : Window) : Bool := w.fullscreen
def AlwaysOnTop (w : Window) : Bool := w.alwaysOnTop
def Icon (w : Window) : Option Image := w.icon
def Cursor (w : Window) : Option CursorRef := w.cursor
def CursorPosition (w : Window) : Int × Int := (w.cursorX, w.cursorY)
def CursorWithin (w : Window) : Bool := w.cursorWithin
def CursorGrabbed (w : Window) : Bool := w.cursorGrabbed
def Focused (w : Window) : Bool := w.focused
def Transparent (w : Window) : Bool := w.transparent
def Title (w : Window) : String := w.title
def Visible (w : Window) : Bool := w.visible
def Decorated (w : Window) : Bool := w.decorated

/-! ### Native-driven updates -/

/-- The method `Window.trySetSize`; `now` is the reading of the clock. -/
def trySetSize (now : Time) (w : Window) (width height : Int) : Bool × Window :=
  if w.width ≠ width ∨ w.height ≠ height then
    let w1 : Window := { w with width := width, height := height }
    (true, w1.send (Event.ResizedEvent width height now))
  else (false, w)

/-- The method `Window.trySetMinimized`. -/
def trySetMinimized (now : Time) (w : Window) (minimized : Bool) : Bool × Window :=
  if w.minimized ≠ minimized then
    let w1 : Window := { w with minimized := minimized }
    (true, w1.send (Event.MinimizedEvent minimized now))
  else (false, w)

/-- The method `Window.trySetMaximized`. -/
def trySetMaximized (now : Time) (w : Window) (maximized : Bool) : Bool × Window :=
  if w.maximized ≠ maximized then
    let w1 : Window := { w with maximized := maximized }
    (true, w1.send (Event.MaximizedEvent maximized now))
  else (false, w)

/-- The method `Window.trySetCursorPosition`. -/
def trySetCursorPosition (now : Time) (w : Window) (x y : Int) : Bool × Window :=
  if w.cursorX ≠ x ∨ w.cursorY ≠ y then
    let w1 : Window := { w with cursorX := x, cursorY := y }
    if !w1.CursorGrabbed then (true, w1.send (Event.CursorPositionEvent x y now))
    else (true, w1)
  else (false, w)

/-- The method `Window.trySetPosition`. -/
def trySetPosition (now : Time) (w : Window) (x y : Int) : Bool × Window :=
  if w.x ≠ x ∨ w.y ≠ y then
    let w1 : Window := { w with x := x, y := y }
    (true, w1.send (Event.PositionEvent x y now))
  else (false, w)

/-- The method `Window.trySetCursorWithin`. -/
def trySetCursorWithin (now : Time) (w : Window) (within : Bool) : Bool × Window :=
  if w.cursorWithin ≠ within then
    let w1 : Window := { w with cursorWithin := within }
    (true, w1.send (Event.CursorWithinEvent within now))
  else (false, w)

/-- The method `Window.trySetExtents`. -/
def trySetExtents (w : Window) (left right bottom top : Int) : Window :=
  { w with extentLeft := left, extentRight := right, extentBottom := bottom, extentTop := top }

/-- The method `Window.trySetFocused`. -/
def trySetFocused (now : Time) (w : Window) (focused : Bool) : Bool × Window :=
  if w.focused ≠ focused then
    let w1 : Window := { w with focused := focused }
    (true, w1.send (Event.FocusedEvent focused now))
  else (false, w)

/-- The method `Window.tryAddKeyboardStateEvent`. -/
def tryAddKeyboardStateEvent (now : Time) (w : Window) (k : Key) (raw : Nat) (s : KeyState) :
    Window :=
  if w.Keyboard.State k = s ∧ w.Keyboard.RawState raw = s then w
  else
    let w1 : Window := { w with Keyboard := (w.Keyboard.SetState k s).SetRawState raw s }
    w1.send (Event.KeyboardStateEvent now k raw s)

/-- The body of the first loop of `releaseDownedButtons`, for one entry of
`w.Keyboard.States()`; the counter is the number of clock readings so far. -/
def releaseKey (now : Nat → Time) (acc : Window × Nat) (entry : Key × KeyState) : Window × Nat :=
  if entry.2 = KeyState.Down then
    let w1 : Window := { acc.1 with Keyboard := acc.1.Keyboard.SetState entry.1 KeyState.Up }
    (w1.send (Event.KeyboardStateEvent (now acc.2) entry.1 0 KeyState.Up), acc.2 + 1)
  else acc

/-- The body of the second loop of `releaseDownedButtons`, for one entry of
`w.Keyboard.RawStates()`. -/
def releaseRaw (now : Nat → Time) (acc : Window × Nat) (entry : Nat × KeyState) : Window × Nat :=
  if entry.2 = KeyState.Down then
    let w1 : Window := { acc.1 with Keyboard := acc.1.Keyboard.SetRawState entry.1 KeyState.Up }
    (w1.send (Event.KeyboardStateEvent (now acc.2) 0 entry.1 KeyState.Up), acc.2 + 1)
  else acc

/-- The body of the third loop of `releaseDownedButtons`, for one entry of
`w.Mouse.States()`. -/
def releaseButton (now : Nat → Time) (acc : Window × Nat) (entry : MouseButton × MouseState) :
    Window × Nat :=
  if entry.2 = MouseState.Down then
    let w1 : Window := { acc.1 with Mouse := acc.1.Mouse.SetState entry.1 MouseState.Up }
    (w1.send (Event.MouseEvent (now acc.2) entry.1 MouseState.Up), acc.2 + 1)
  else acc

/-- The method `Window.releaseDownedButtons`. Each loop ranges over the copy of
the map that `States()`, `RawStates()` and `Mouse.States()` return, here in the
order of the association list (Go leaves the order of a map range open). -/
def releaseDownedButtons (now : Nat → Time) (w : Window) : Window :=
  let a1 := w.Keyboard.states.foldl (releaseKey now) (w, 0)
  let a2 := a1.1.Keyboard.rawStates.foldl (releaseRaw now) a1
  let a3 := a2.1.Mouse.states.foldl (releaseButton now) a2
  a3.1

/-- The function `NewWindow`. -/
def NewWindow : Window :=
  let w := Window.zero
  let w := w.SetIcon (some defaultIcon)
  let w := w.SetTitle "Chippy Window"
  let w := w.SetVisible true
  let w := w.SetDecorated true
  let w := w.SetPosition 100 100
  let w := w.SetSize 640 480
  let w := w.SetMinimumSize 150 150
  let w := w.SetAspectRatio 0
  w

end Window

/-! ## The X11 event pump -/

/-- The X11 events that `NativeWindow.handleEvent` turns into window updates
without consulting the keyboard mapping. -/
inductive XEvent where
  | ButtonPress (detail : Nat)
  | ButtonRelease (detail : Nat)
  | MotionNotify (eventX eventY : Int)
  | EnterNotify
  | LeaveNotify
  | FocusIn
  | FocusOut
  | ConfigureNotify (width height x y : Int)
  deriving DecidableEq, Repr

/-- The `switch ev.Detail` of the button handlers; `none` is the `default`
branch, which logs and returns. `pressed` is the state of buttons 1 to 3. -/
def buttonOfDetail (detail : Nat) (pressed : MouseState) : Option (MouseButton × MouseState) :=
  match detail with
  | 1 => some (MouseButton.Left, pressed)
  | 2 => some (MouseButton.Wheel, pressed)
  | 3 => some (MouseButton.Right, pressed)
  | 4 => some (MouseButton.Wheel, MouseState.ScrollForward)
  | 5 => some (MouseButton.Wheel, MouseState.ScrollBack)
  | 6 => some (MouseButton.Wheel, MouseState.ScrollLeft)
  | 7 => some (MouseButton.Wheel, MouseState.ScrollRight)
  | _ => none

namespace Window

/-- The method `NativeWindow.clearLastCursorPosition`. -/
def clearLastCursorPosition (w : Window) : Window :=
  { w with NativeWindow := { w.NativeWindow with lastCursorX := -1, lastCursorY := -1 } }

/-- The method `NativeWindow.warpPointer`. -/
def warpPointer (w : Window) (x y : Int) : Window :=
  { w with NativeWindow := { w.NativeWindow with lastCursorX := x, lastCursorY := y },
           nativeLog := w.nativeLog ++ [NativeCall.warpPointer x y] }

/-- The method `NativeWindow.doSetCursorGrabbed`. Its X requests (grabbing or
releasing the pointer, setting the cursor) are one entry of `nativeLog`; a grab
switches `can.sendRelativeMoveEvents` off, a release with `restorePosition`
warps the pointer back to the cursor position unless a coordinate is 0. -/
def doSetCursorGrabbed (w : Window) (grabbed restorePosition : Bool) : Window :=
  let w1 : Window :=
    { w with nativeLog := w.nativeLog ++ [NativeCall.doSetCursorGrabbed grabbed restorePosition] }
  if grabbed then
    { w1 with NativeWindow := { w1.NativeWindow with sendRelativeMoveEvents := false } }
  else if restorePosition then
    let p := w1.CursorPosition
    if p.1 ≠ 0 ∧ p.2 ≠ 0 then w1.warpPointer p.1 p.2 else w1
  else w1

/-- The method `NativeWindow.handleEvent` of `window_linux.go`, on the events of
`XEvent`. A goroutine that the handler starts to call `doSetCursorGrabbed` is
run to completion where it is started, before the next event is handled. -/
def handleEvent (now : Nat → Time) (w : Window) (e : XEvent) : Window :=
  match e with
  | XEvent.ButtonPress detail =>
    match buttonOfDetail detail MouseState.Down with
    | some (button, state) => w.send (Event.MouseEvent (now 0) button state)
    | none => w
  | XEvent.ButtonRelease detail =>
    match buttonOfDetail detail MouseState.Up with
    | some (button, state) => w.send (Event.MouseEvent (now 0) button state)
    | none => w
  | XEvent.MotionNotify x y =>
    if w.CursorGrabbed && w.Focused then
      let diffX := x - w.NativeWindow.lastCursorX
      let diffY := y - w.NativeWindow.lastCursorY
      let unknown : Bool :=
        decide (w.NativeWindow.lastCursorX = -1) || decide (w.NativeWindow.lastCursorY = -1)
      let diffX := if unknown then 0 else diffX
      let diffY := if unknown then 0 else diffY
      let w1 : Window :=
        if unknown then
          { w with NativeWindow := { w.NativeWindow with lastCursorX := x, lastCursorY := y } }
        else w
      if diffX ≠ 0 ∨ diffY ≠ 0 then
        let w2 : Window :=
          if w1.NativeWindow.sendRelativeMoveEvents then
            w1.send (Event.CursorPositionEvent diffX diffY (now 0))
          else w1
        let w3 : Window :=
          { w2 with NativeWindow := { w2.NativeWindow with sendRelativeMoveEvents := true } }
        let sz := w3.Size
        w3.warpPointer (Int.tdiv sz.1 2) (Int.tdiv sz.2 2)
      else w1
    else
      let w1 : Window :=
        { w with NativeWindow := { w.NativeWindow with lastCursorX := x, lastCursorY := y } }
      (w1.trySetCursorPosition (now 0) x y).2
  | XEvent.EnterNotify =>
    let w1 := (w.trySetCursorWithin (now 0) true).2
    let w2 := w1.clearLastCursorPosition
    if w2.CursorGrabbed && w2.Focused then w2.doSetCursorGrabbed true false
    else w2
  | XEvent.LeaveNotify => (w.trySetCursorWithin (now 0) false).2
  | XEvent.FocusIn =>
    let w1 := (w.trySetFocused (now 0) true).2
    if w1.CursorGrabbed then
      if w1.CursorWithin then w1.doSetCursorGrabbed true false
      else w1.doSetCursorGrabbed false false
    else w1
  | XEvent.FocusOut =>
    let w1 := (w.trySetFocused (now 0) false).2
    let w2 := w1.releaseDownedButtons (fun i => now (i + 1))
    if w2.CursorGrabbed then
      let restorePosition := w2.CursorWithin
      w2.doSetCursorGrabbed false restorePosition
    else w2
  | XEvent.ConfigureNotify width height x y =>
    let w1 : Window :=
      if width ≠ 0 ∧ height ≠ 0 then
        if w.NativeWindow.sendSizeEvents then (w.trySetSize (now 0) width height).2 else w
      else w
    if x ≠ 0 ∨ y ≠ 0 then
      if w1.NativeWindow.sendPositionEvents then (w1.trySetPosition (now 1) x y).2 else w1
    else w1

end Window

/-! ## Sample states -/

/-- The pump fields of an X11 native window after `open` has mapped a visible
window: the last cursor position cleared, position and size events enabled. -/
def sampleNative : NativeWindow :=
  { lastCursorX := -1, lastCursorY := -1, sendPositionEvents := true,
    sendSizeEvents := true, sendRelativeMoveEvents := false }

/-- A window made by `NewWindow` with one subscriber queue of capacity 4 that
has not been opened. -/
def sampleClosed : Window :=
  match Window.NewWindow.EventsBuffer 4 with
  | some (w, _) => w
  | none => Window.NewWindow

/-- The window `sampleClosed` after a successful `Open`. -/
def sampleOpen : Window :=
  (sampleClosed.Open (some 0) (some sampleNative)).1

/-! ## Observing what a call publishes -/

/-- The window `w2` is `w1` after one event `ev` was offered to every
subscriber queue: a registered queue with room has `ev` appended at its tail,
every other queue is as before, and no queue appears or disappears. -/
def PublishedOnce (w1 w2 : Window) (ev : Event) : Prop :=
  w2.chans.length = w1.chans.length ∧
  ∀ (c : Nat) (ch : Chan), w1.chans.get? c = some ch →
    w2.chans.get? c =
      some (if ch.registered = true ∧ ch.buf.length < ch.cap then
              { ch with buf := ch.buf ++ [ev] }
            else ch)

/-! ## Runs of publishes and reads -/

/-- What can happen to the subscriber queues of a window: the pump publishes an
event, a consumer reads from a queue, a queue is made, a queue is removed. -/
inductive Op where
  | send (ev : Event)
  | recv (c : Nat)
  | EventsBuffer (bufferSize : Nat)
  | CloseEvents (c : Nat)
  deriving DecidableEq, Repr

/-- One operation: the window afterwards and what a consumer read, as
(queue, event) pairs. -/
def step (w : Window) (op : Op) : Window × List (Nat × Event) :=
  match op with
  | Op.send ev => (w.send ev, [])
  | Op.recv c =>
    match w.recv c with
    | (some ev, w1) => (w1, [(c, ev)])
    | (none, w1) => (w1, [])
  | Op.EventsBuffer n =>
    match w.EventsBuffer n with
    | some (w1, _) => (w1, [])
    | none => (w, [])
  | Op.CloseEvents c => (w.CloseEvents c, [])

/-- A sequence of operations: the final window and everything the consumers
read, in order. -/
def run (w : Window) (ops : List Op) : Window × List (Nat × Event) :=
  match ops with
  | [] => (w, [])
  | op :: rest => ((run (step w op).1 rest).1, (step w op).2 ++ (run (step w op).1 rest).2)

/-- The events passed to `send`, in call order. -/
def published (ops : List Op) : List Event :=
  ops.filterMap fun op =>
    match op with
    | Op.send ev => some ev
    | _ => none

/-- The events read from queue `c`, in order. -/
def readFrom (c : Nat) (reads : List (Nat × Event)) : List Event :=
  (reads.filter fun r => decide (r.1 = c)).map Prod.snd

/-- The events waiting in queue `c` (none when there is no such queue). -/
def bufOf (w : Window) (c : Nat) : List Event :=
  match w.chans.get? c with
  | some ch => ch.buf
  | none => []

/-- Everything queue `c` holds or has handed to its consumer after the
operations `ops`: the events read from it followed by those still waiting. -/
def receivedBy (w : Window) (ops : List Op) (c : Nat) : List Event :=
  readFrom c (run w ops).2 ++ bufOf (run w ops).1 c

/-! ## Cursor updates in sequence -/

/-- A sequence of native cursor-position updates, each with the clock reading
and the position reported. -/
def cursorMoves (w : Window) (moves : List (Time × Int × Int)) : Window :=
  moves.foldl (fun acc m => (acc.trySetCursorPosition m.1 m.2.1 m.2.2).2) w

/-! ## Reachable window states -/

/-- A call on a window: one of the caller-driven setters, one of the
native-driven updates, or a lifecycle call. -/
inductive Action where
  | SetIcon (icon : Option Image)
  | SetTitle (title : String)
  | SetVisible (visible : Bool)
  | SetTransparent (transparent : Bool)
  | SetDecorated (decorated : Bool)
  | SetAlwaysOnTop (alwaysOnTop : Bool)
  | SetAspectRatio (ratio : F32)
  | SetSize (width height : Int)
  | SetCursorGrabbed (grabbed : Bool)
  | SetCursor (cursor : Option CursorRef)
  | SetFullscreen (fullscreen : Bool)
  | SetMinimized (minimized : Bool)
  | SetMaximized (maximized : Bool)
  | SetCursorPosition (x y : Int)
  | SetMinimumSize (width height : Int)
  | SetMaximumSize (width height : Int)
  | SetPosition (x y : Int)
  | trySetSize (now : Time) (width height : Int)
  | trySetPosition (now : Time) (x y : Int)
  | trySetFocused (now : Time) (focused : Bool)
  | trySetCursorWithin (now : Time) (within : Bool)
  | trySetCursorPosition (now : Time) (x y : Int)
  | trySetMinimized (now : Time) (minimized : Bool)
  | trySetMaximized (now : Time) (maximized : Bool)
  | trySetExtents (left right bottom top : Int)
  | tryAddKeyboardStateEvent (now : Time) (k : Key) (raw : Nat) (s : KeyState)
  | Open (screen : Option ScreenRef) (native : Option NativeWindow)
  | Destroy (now : Time)

/-- The window after one call. -/
def Action.apply (w : Window) (a : Action) : Window :=
  match a with
  | Action.SetIcon icon => w.SetIcon icon
  | Action.SetTitle title => w.SetTitle title
  | Action.SetVisible visible => w.SetVisible visible
  | Action.SetTransparent transparent => w.SetTransparent transparent
  | Action.SetDecorated decorated => w.SetDecorated decorated
  | Action.SetAlwaysOnTop alwaysOnTop => w.SetAlwaysOnTop alwaysOnTop
  | Action.SetAspectRatio ratio => w.SetAspectRatio ratio
  | Action.SetSize width height => w.SetSize width height
  | Action.SetCursorGrabbed grabbed => w.SetCursorGrabbed grabbed
  | Action.SetCursor cursor => w.SetCursor cursor
  | Action.SetFullscreen fullscreen => w.SetFullscreen fullscreen
  | Action.SetMinimized minimized => w.SetMinimized minimized
  | Action.SetMaximized maximized => w.SetMaximized maximized
  | Action.SetCursorPosition x y => w.SetCursorPosition x y
  | Action.SetMinimumSize width height => w.SetMinimumSize width height
  | Action.SetMaximumSize width height => w.SetMaximumSize width height
  | Action.SetPosition x y => w.SetPosition x y
  | Action.trySetSize now width height => (w.trySetSize now width height).2
  | Action.trySetPosition now x y => (w.trySetPosition now x y).2
  | Action.trySetFocused now focused => (w.trySetFocused now focused).2
  | Action.trySetCursorWithin now within => (w.trySetCursorWithin now within).2
  | Action.trySetCursorPosition now x y => (w.trySetCursorPosition now x y).2
  | Action.trySetMinimized now minimized => (w.trySetMinimized now minimized).2
  | Action.trySetMaximized now maximized => (w.trySetMaximized now maximized).2
  | Action.trySetExtents left right bottom top => w.trySetExtents left right bottom top
  | Action.tryAddKeyboardStateEvent now k raw s => w.tryAddKeyboardStateEvent now k raw s
  | Action.Open screen native => (w.Open screen native).1
  | Action.Destroy now => w.Destroy now

/-- The size an action stores in the cache is at least 1 x 1; true of every
action that is not `SetSize` or `trySetSize`. -/
def Action.sizeAtLeastOne (a : Action) : Prop :=
  match a with
  | Action.SetSize width height => 1 ≤ width ∧ 1 ≤ height
  | Action.trySetSize _ width height => 1 ≤ width ∧ 1 ≤ height
  | _ => True

/-- The window reached from `w` by a sequence of calls. -/
def reach (w : Window) (actions : List Action) : Window :=
  actions.foldl Action.apply w

/-- The cached size, and the size saved while the window is fullscreen, are at
least 1 x 1. -/
def SizeAtLeastOne (w : Window) : Prop :=
  1 ≤ w.width ∧ 1 ≤ w.height ∧
  (w.fullscreen = true → 1 ≤ w.preFullscreenWidth ∧ 1 ≤ w.preFullscreenHeight)

/-- A lifecycle call: `Open` with the outcome of the native open, or
`Destroy`. -/
inductive LifecycleOp where
  | Open (screen : Option ScreenRef) (native : Option NativeWindow)
  | Destroy (now : Time)

/-- The window after one lifecycle call. -/
def LifecycleOp.apply (w : Window) (op : LifecycleOp) : Window :=
  match op with
  | LifecycleOp.Open screen native => (w.Open screen native).1
  | LifecycleOp.Destroy now => w.Destroy now

/-- The window reached from `w` by a sequence of lifecycle calls. -/
def lifecycle (w : Window) (ops : List LifecycleOp) : Window :=
  ops.foldl LifecycleOp.apply w

/-! ## Process-wide state and the dispatcher (`chippy.go`) -/

/-- Identity of a destroy callback (a `*func()`). -/
abbrev CallbackRef := Nat

/-- Identity of an `error` value. -/
abbrev ErrorRef := Nat

/-- An entry of the dispatcher queue, a `func() bool`: `stop` is the closure
`func() bool { return false }` that `Exit` sends; `call f result` is any other
closure, with identity `f`, that returns `result` when it is run. -/
inductive Frame where
  | stop
  | call (f : Nat) (result : Bool)
  deriving DecidableEq, Repr

/-- What running the entry returns: whether the main loop goes on. -/
def Frame.result (fr : Frame) : Bool :=
  match fr with
  | Frame.stop => false
  | Frame.call _ r => r

/-- What the process-wide functions do besides changing the package variables,
in the order it happens. -/
inductive Effect where
  | callback (c : CallbackRef)
  | backendInit
  | backendDestroy
  | frame (fr : Frame)
  deriving DecidableEq, Repr

/-- The package variables of `chippy.go`. `mainLoopFrames` is `none` for the
nil channel and otherwise holds the entries waiting in the channel, head first;
`effects` records the callbacks, backend calls and queue entries run so far. -/
structure Global where
  destroyCallbacks : List CallbackRef
  isInit : Bool
  initError : Option ErrorRef
  mainLoopFrames : Option (List Frame)
  effects : List Effect
  deriving DecidableEq, Repr

/-- The package variables when the program starts. -/
def Global.start : Global :=
  { destroyCallbacks := [], isInit := false, initError := none, mainLoopFrames := none,
    effects := [] }

/-- The capacity of the dispatcher queue, `make(chan func() bool, 32)`. -/
def mainLoopFramesCap : Nat := 32

/-- The result of a call that may park on a channel or panic. -/
inductive Outcome where
  | returned (g : Global)
  | blocked (g : Global)
  | panicked (g : Global)
  deriving DecidableEq, Repr

namespace Global

/-- The function `removeDestroyCallback`: the first entry identical to `c` is
removed. -/
def removeDestroyCallback (g : Global) (c : CallbackRef) : Global :=
  { g with destroyCallbacks := g.destroyCallbacks.erase c }

/-- The function `addDestroyCallback`. -/
def addDestroyCallback (g : Global) (c : CallbackRef) : Global :=
  let g1 := g.removeDestroyCallback c
  { g1 with destroyCallbacks := g1.destroyCallbacks ++ [c] }

/-- The function `IsInit`. -/
def IsInit (g : Global) : Bool := g.isInit

/-- The function `Init`. `backend` is what `backend_Init()` returns (`none` for
nil). The result is the state and the error returned. -/
def Init (g : Global) (backend : Option ErrorRef) : Global × Option ErrorRef :=
  if g.isInit = false then
    let g1 : Global := { g with mainLoopFrames := some [] }
    let g2 : Global := { g1 with effects := g1.effects ++ [Effect.backendInit] }
    match backend with
    | some err => ({ g2 with initError := some err }, some err)
    | none => ({ g2 with isInit := true }, none)
  else (g, none)

/-- The channel send `mainLoopFrames <- fr`: `none` when the send parks (nil
channel, or the buffer is full). -/
def sendFrame (g : Global) (fr : Frame) : Option Global :=
  match g.mainLoopFrames with
  | some q =>
    if q.length < mainLoopFramesCap then some { g with mainLoopFrames := some (q ++ [fr]) }
    else none
  | none => none

/-- The function `Exit`. The destroy callbacks and `backend_Destroy` are
recorded in `effects`; the call is `blocked` when the final send parks. -/
def Exit (g : Global) : Outcome :=
  let g1 : Global :=
    if g.isInit = true then
      { g with effects := g.effects ++ g.destroyCallbacks.map Effect.callback ++
                 [Effect.backendDestroy],
               isInit := false, initError := none, destroyCallbacks := [] }
    else g
  match g1.sendFrame Frame.stop with
  | some g2 => Outcome.returned g2
  | none => Outcome.blocked g1

/-- The loop of `MainLoop` over the entries waiting in the queue: each entry is
taken from the head and run; the loop returns after an entry that returns
false, and parks on the receive when the queue is empty. -/
def runFrames (g : Global) (q : List Frame) : Outcome :=
  match q with
  | [] => Outcome.blocked { g with mainLoopFrames := some [] }
  | fr :: rest =>
    let g1 : Global := { g with effects := g.effects ++ [Effect.frame fr] }
    if fr.result then runFrames g1 rest
    else Outcome.returned { g1 with mainLoopFrames := some rest }

/-- The function `MainLoop`: `MainLoopFrames()` panics unless the library is
initialized; then the loop runs over the queue. -/
def MainLoop (g : Global) : Outcome :=
  if !g.IsInit then Outcome.panicked g
  else
    match g.mainLoopFrames with
    | some q => runFrames g q
    | none => Outcome.blocked g

end Global

/-- A registration call: `addDestroyCallback(c)` or `removeDestroyCallback(c)`. -/
inductive CallbackOp where
  | add (c : CallbackRef)
  | remove (c : CallbackRef)
  deriving DecidableEq, Repr

/-- The state after one registration call. -/
def CallbackOp.apply (g : Global) (op : CallbackOp) : Global :=
  match op with
  | CallbackOp.add c => g.addDestroyCallback c
  | CallbackOp.remove c => g.removeDestroyCallback c

/-- The state after a sequence of registration calls. -/
def registerAll (g : Global) (ops : List CallbackOp) : Global :=
  ops.foldl CallbackOp.apply g

/-- The state after `Init()` succeeded on program start. -/
def sampleInit : Global :=
  (Global.start.Init none).1

/-- An initialized library whose dispatcher queue holds two entries returning
true, the stop entry, and one entry behind it. -/
def sampleLoop : Global :=
  { destroyCallbacks := [], isInit := true, initError := none,
    mainLoopFrames := some [Frame.call 1 true, Frame.call 2 true, Frame.stop, Frame.call 3 true],
    effects := [Effect.backendInit] }

/-! ## `dispatch` against the main loop -/

/-- Where the calling goroutine stands inside `dispatch`: at the send
`mainLoopFrames <- wrapper` (the `done` channel just made), or at the receive
`<-done`. -/
inductive CallerAt where
  | send
  | receive
  deriving DecidableEq, Repr

/-- Where the main-loop thread stands: at the receive `frame := <-frames`,
inside `f()` of the wrapper of call `k`, or at `done <- true` of that wrapper. -/
inductive LoopAt where
  | take
  | body (k : Nat)
  | signal (k : Nat)
  deriving DecidableEq, Repr

/-- One goroutine calling `dispatch` `total` times in a row, and the main loop.
`next` is the index of the call in progress, `frames` the wrappers waiting in
`mainLoopFrames`, `done` the calls whose `done` channel holds a value;
`started`, `finished` and `returned` record, in order, the closures the main
loop started and finished and the `dispatch` calls that returned. -/
structure Dispatcher where
  total : Nat
  next : Nat
  caller : CallerAt
  frames : List Nat
  done : List Nat
  loop : LoopAt
  started : List Nat
  finished : List Nat
  returned : List Nat
  deriving DecidableEq, Repr

/-- The two threads. -/
inductive Thread where
  | caller
  | mainLoop
  deriving DecidableEq, Repr

namespace Dispatcher

/-- The state before the first `dispatch` call, the main loop waiting on the
empty queue. -/
def init (total : Nat) : Dispatcher :=
  { total := total, next := 0, caller := CallerAt.send, frames := [], done := [],
    loop := LoopAt.take, started := [], finished := [], returned := [] }

/-- One step of a thread, `none` when the thread is parked on its channel
operation (or the caller has no call left). Caller: the send of the wrapper
parks while the queue is full, the receive on `done` parks until the wrapper has
signalled. Main loop: the receive parks on an empty queue; a taken wrapper runs
`f()`, then sends on `done` (capacity 1) and returns true, so the loop goes
on. -/
def step (s : Dispatcher) (t : Thread) : Option Dispatcher :=
  match t with
  | Thread.caller =>
    if s.next < s.total then
      match s.caller with
      | CallerAt.send =>
        if s.frames.length < mainLoopFramesCap then
          some { s with frames := s.frames ++ [s.next], caller := CallerAt.receive }
        else none
      | CallerAt.receive =>
        if s.next ∈ s.done then
          some { s with done := s.done.erase s.next, returned := s.returned ++ [s.next],
                        next := s.next + 1, caller := CallerAt.send }
        else none
    else none
  | Thread.mainLoop =>
    match s.loop with
    | LoopAt.take =>
      match s.frames with
      | k :: rest => some { s with frames := rest, loop := LoopAt.body k,
                                   started := s.started ++ [k] }
      | [] => none
    | LoopAt.body k => some { s with loop := LoopAt.signal k, finished := s.finished ++ [k] }
    | LoopAt.signal k =>
      if k ∈ s.done then none
      else some { s with done := s.done ++ [k], loop := LoopAt.take }

/-- A schedule: the thread whose turn it is, step after step; a parked thread's
turn changes nothing. -/
def run (s : Dispatcher) (schedule : List Thread) : Dispatcher :=
  schedule.foldl (fun acc t => (acc.step t).getD acc) s

end Dispatcher

/-- The stages one `dispatch` call goes through. -/
inductive Stage where
  | idle
  | queued
  | running
  | signalling
  | signalled
  deriving DecidableEq, Repr

/-- The state in which the calls before `k` have returned and call `k` is at
the given stage. -/
def Dispatcher.atStage (total k : Nat) (stage : Stage) : Dispatcher :=
  match stage with
  | Stage.idle =>
    { total := total, next := k, caller := CallerAt.send, frames := [], done := [],
      loop := LoopAt.take, started := List.range k, finished := List.range k,
      returned := List.range k }
  | Stage.queued =>
    { total := total, next := k, caller := CallerAt.receive, frames := [k], done := [],
      loop := LoopAt.take, started := List.range k, finished := List.range k,
      returned := List.range k }
  | Stage.running =>
    { total := total, next := k, caller := CallerAt.receive, frames := [], done := [],
      loop := LoopAt.body k, started := List.range (k + 1), finished := List.range k,
      returned := List.range k }
  | Stage.signalling =>
    { total := total, next := k, caller := CallerAt.receive, frames := [], done := [],
      loop := LoopAt.signal k, started := List.range (k + 1), finished := List.range (k + 1),
      returned := List.range k }
  | Stage.signalled =>
    { total := total, next := k, caller := CallerAt.receive, frames := [], done := [k],
      loop := LoopAt.take, started := List.range (k + 1), finished := List.range (k + 1),
      returned := List.range k }

/-- The schedule that lets one `dispatch` call go through: the caller sends,
the main loop takes, runs and signals, the caller receives. -/
def oneDispatch : List Thread :=
  [Thread.caller, Thread.mainLoop, Thread.mainLoop, Thread.mainLoop, Thread.caller]

/-- The schedule `oneDispatch`, `n` times. -/
def dispatches : Nat → List Thread
  | 0 => []
  | n + 1 => dispatches n ++ oneDispatch

/-- Call `k` of `total` can be at the given stage: past the idle stage only
while a call is left. -/
def Dispatcher.validStage (total k : Nat) (stage : Stage) : Prop :=
  k ≤ total ∧ (stage ≠ Stage.idle → k < total)

/-! ## Frame extents on X11 (`window_linux.go`) -/

/-- The built-in `copy(dst, src)` of Go on slices: the first
`min(len(dst), len(src))` elements of `dst` are overwritten, the length of `dst`
stays. A nil slice is the empty list. -/
def goCopy (dst src : List Int) : List Int :=
  src.take (min dst.length src.length) ++ dst.drop (min dst.length src.length)

/-- The package variable `cachedExtents` and the field `extents` of the native
window being built, with a record of what the build did: the number of
`select` statements it waited in, whether a wait timed out, and whether
`doSetVisible(true)` was called to provoke the extents. -/
structure X11Extents where
  cachedExtents : List Int
  extents : List Int
  selects : Nat
  timeouts : Nat
  shown : Bool
  deriving DecidableEq, Repr

/-- The package variable `cachedExtents` when the program starts (nil), and a
new native window (`extents` nil). -/
def X11Extents.start : X11Extents :=
  { cachedExtents := [], extents := [], selects := 0, timeouts := 0, shown := false }

/-- How a `select` on `waitForFrameExtents` ends: the property-change handler
has run `fetchExtents` (whose `GetProperty` gave `reply`) and signalled, or the
timer fired first. -/
inductive WaitResult where
  | notified (reply : Option (List Int))
  | timeout
  deriving DecidableEq, Repr

/-- Whether a slice has four elements that are all zero. -/
def allZero4 (l : List Int) : Bool :=
  decide (l.length = 4) && decide (l.getD 0 0 = 0) && decide (l.getD 1 0 = 0) &&
    decide (l.getD 2 0 = 0) && decide (l.getD 3 0 = 0)

namespace X11Extents

/-- The method `NativeWindow.fetchExtents`. `reply` is the outcome of
`GetProperty(_NET_FRAME_EXTENTS)`: `none` for an error, otherwise the 32-bit
values read, so that `ptrLen == 16` means four values. -/
def fetchExtents (st : X11Extents) (reply : Option (List Int)) : X11Extents :=
  match reply with
  | some values =>
    if values.length = 4 then
      let cpy := goCopy (List.replicate values.length 0) values
      let st1 : X11Extents := { st with extents := cpy }
      if st1.extents.length = 4 then
        { st1 with cachedExtents := goCopy st1.cachedExtents st1.extents }
      else st1
    else st
  | none => st

/-- The extents negotiation of `NativeWindow.doRebuildWindow` (from the extents
request to the call of `trySetExtents`). `first` and `second` are how the two
waits end if they are entered, `onTimeout` is what `GetProperty` gives to the
`fetchExtents` call made when the first wait times out. The result is the
extents state and the window. -/
def doRebuildWindow (st : X11Extents) (w : Window) (first : WaitResult)
    (onTimeout : Option (List Int)) (second : WaitResult) : X11Extents × Window :=
  let cExtents := goCopy [] st.cachedExtents
  let haveCExtents : Bool := decide (cExtents.length = 4)
  let haveCExtentsButZero : Bool := haveCExtents && allZero4 cExtents
  let st1 : X11Extents :=
    if haveCExtents && !haveCExtentsButZero then { st with extents := cExtents }
    else
      match first with
      | WaitResult.timeout =>
        ({ st with selects := st.selects + 1, timeouts := st.timeouts + 1 } :
          X11Extents).fetchExtents onTimeout
      | WaitResult.notified reply =>
        ({ st with selects := st.selects + 1 } : X11Extents).fetchExtents reply
  let haveExtents : Bool := decide (st1.extents.length = 4)
  let haveExtentsButZero : Bool := haveExtents && allZero4 st1.extents
  let st2 : X11Extents :=
    if !haveExtents || haveExtentsButZero then
      let st1s : X11Extents := { st1 with shown := true, selects := st1.selects + 1 }
      match second with
      | WaitResult.notified reply => st1s.fetchExtents reply
      | WaitResult.timeout => { st1s with timeouts := st1s.timeouts + 1 }
    else st1
  let w1 : Window :=
    if haveExtents then
      w.trySetExtents (st2.extents.getD 0 0) (st2.extents.getD 1 0) (st2.extents.getD 3 0)
        (st2.extents.getD 2 0)
    else w
  (st2, w1)

/-- The extents state when the next native window is made by
`newNativeWindow`: the package variable stays, the window's `extents` is nil. -/
def newWindow (st : X11Extents) : X11Extents :=
  { cachedExtents := st.cachedExtents, extents := [], selects := 0, timeouts := 0,
    shown := false }

end X11Extents

/-- The method `Window.Extents`: left, right, bottom, top. -/
def Window.Extents (w : Window) : Int × Int × Int × Int :=
  if w.opened && !w.destroyed then (w.extentLeft, w.extentRight, w.extentBottom, w.extentTop)
  else (0, 0, 0, 0)

/-- The result of a call that may panic: the value returned, or the panic
message. -/
inductive Panics (α : Type) where
  | ok (value : α)
  | panic (message : String)
  deriving DecidableEq, Repr

/-- The struct `X11GLContext`; `glxContext` is the native handle. -/
structure X11GLContext where
  valid : Bool
  destroyed : Bool
  glxContext : Nat
  deriving DecidableEq, Repr

/-- The struct `W32GLContext`; `hglrc` is the native handle. -/
structure W32GLContext where
  valid : Bool
  destroyed : Bool
  hglrc : Nat
  deriving DecidableEq, Repr

/-- A native call that destroys a context. -/
inductive GLNativeCall where
  | GLXDestroyContext (glxContext : Nat)
  | WglDeleteContext (hglrc : Nat)
  deriving DecidableEq, Repr

/-- The method `X11GLContext.panicUnlessValid`. -/
def X11GLContext.panicUnlessValid (c : X11GLContext) : Panics Unit :=
  if !c.valid then Panics.panic "Invalid GLContext; did you attempt to create it yourself?"
  else Panics.ok ()

/-- The method `X11GLContext.panicIfDestroyed`. -/
def X11GLContext.panicIfDestroyed (c : X11GLContext) : Panics Unit :=
  if c.destroyed then Panics.panic "GL Context is already destroyed!"
  else Panics.ok ()

/-- The method `NativeWindow.GLDestroyContext` of `opengl_linux.go`: the
context afterwards and the native calls made so far. -/
def X11GLContext.GLDestroyContext (c : X11GLContext) (calls : List GLNativeCall) :
    Panics (X11GLContext × List GLNativeCall) :=
  match c.panicUnlessValid with
  | Panics.panic message => Panics.panic message
  | Panics.ok _ =>
    if !c.destroyed then
      Panics.ok ({ c with destroyed := true },
        calls ++ [GLNativeCall.GLXDestroyContext c.glxContext])
    else Panics.ok (c, calls)

/-- The method `NativeWindow.GLDestroyContext` of `opengl_windows.go`. -/
def W32GLContext.GLDestroyContext (c : W32GLContext) (calls : List GLNativeCall) :
    Panics (W32GLContext × List GLNativeCall) :=
  if !c.destroyed then
    Panics.ok ({ c with destroyed := true }, calls ++ [GLNativeCall.WglDeleteContext c.hglrc])
  else Panics.ok (c, calls)

/-- The type `GLContextFlags` (a `uint8`) and its constants, numbered by
`iota`. -/
abbrev GLContextFlags := Nat

def GLDebug : GLContextFlags := 0
def GLForwardCompatible : GLContextFlags := 1
def GLCoreProfile : GLContextFlags := 2
def GLCompatibilityProfile : GLContextFlags := 3

/-- The two values of the profile mask, `..._CONTEXT_CORE_PROFILE_BIT_ARB` and
`..._CONTEXT_COMPATIBILITY_PROFILE_BIT_ARB`. -/
inductive GLProfile where
  | core
  | compatibility
  deriving DecidableEq, Repr

/-- An entry of the attribute list handed to `glXCreateContextAttribsARB` or
`wglCreateContextAttribsARB` (attribute and value). -/
inductive GLAttrib where
  | majorVersion (v : Nat)
  | minorVersion (v : Nat)
  | contextFlags (forwardCompatible debug : Bool)
  | profileMask (p : GLProfile)
  deriving DecidableEq, Repr

/-- The attribute list that `GLCreateContext` builds for a new-style context
(both backends build the same list), without the terminating zero. -/
def contextAttribs (glVersionMajor glVersionMinor : Nat) (flags : GLContextFlags) :
    List GLAttrib :=
  let attribs := [GLAttrib.majorVersion glVersionMajor, GLAttrib.minorVersion glVersionMinor]
  let forwardCompatible : Bool := decide ((flags &&& GLForwardCompatible) > 0)
  let debug : Bool := decide ((flags &&& GLDebug) > 0)
  let attribs :=
    if forwardCompatible || debug then
      attribs ++ [GLAttrib.contextFlags forwardCompatible debug]
    else attribs
  if glVersionMajor ≥ 3 ∧ glVersionMinor ≥ 2 then
    let wantCoreProfile : Bool := decide ((flags &&& GLCoreProfile) > 0)
    let wantCompatProfile : Bool := decide ((flags &&& GLCompatibilityProfile) > 0)
    let profileMask :=
      if wantCoreProfile && !wantCompatProfile then GLProfile.core else GLProfile.compatibility
    attribs ++ [GLAttrib.profileMask profileMask]
  else attribs

/-! ## Screens and screen modes (`screen.go`, `screenmode.go`) -/

/-- The call `sort.Sort(data)` of the Go standard library, on the slice and the
`Less` of `data`: it reorders the slice so that no element is `Less` than an
element before it. The library does not fix the order of elements that tie;
embedded as an insertion sort, and the theorems on it use only that the result
is a sorted permutation. `less a b` is the `Less` of the two elements. -/
def goSort {α : Type} (less : α → α → Bool) (l : List α) : List α :=
  l.insertionSort (fun a b => less b a = false)

/-- The value of a Go `int` expression whose exact result is `x`: the result
wrapped to the 64 bits of an `int`, in two's complement. -/
def wrapInt (x : Int) : Int := (x + 2 ^ 63) % 2 ^ 64 - 2 ^ 63

/-- The struct `ScreenMode`. `native` is the identity of the
`*NativeScreenMode`; the refresh rate, a `float32` that is not NaN or infinite,
is the rational number it denotes. -/
structure ScreenMode where
  native : Nat
  width : Int
  height : Int
  bytesPerPixel : Int
  refreshRate : ℚ
  deriving DecidableEq, Repr

namespace ScreenMode

/-- The method `ScreenMode.Resolution`. -/
def Resolution (m : ScreenMode) : Int × Int := (m.width, m.height)

/-- The method `ScreenMode.RefreshRate`. -/
def RefreshRate (m : ScreenMode) : ℚ := m.refreshRate

/-- The method `ScreenMode.BytesPerPixel`. -/
def BytesPerPixel (m : ScreenMode) : Int := m.bytesPerPixel

/-- The method `ScreenMode.Equals`. -/
def Equals (m other : ScreenMode) : Bool :=
  decide (m.Resolution.1 = other.Resolution.1) && decide (m.Resolution.2 = other.Resolution.2) &&
    decide (m.RefreshRate = other.RefreshRate) && decide (m.BytesPerPixel = other.BytesPerPixel)

/-- The method `sortedScreenModes.Less`, on the two elements compared. The sum
`iWidth + iHeight` is a Go `int` and wraps around. -/
def Less (mi mj : ScreenMode) : Bool :=
  let iResolution := wrapInt (mi.Resolution.1 + mi.Resolution.2)
  let iRefreshRate := mi.RefreshRate
  let iBytesPerPixel := mi.BytesPerPixel
  let jResolution := wrapInt (mj.Resolution.1 + mj.Resolution.2)
  let jRefreshRate := mj.RefreshRate
  let jBytesPerPixel := mj.BytesPerPixel
  if iResolution = jResolution ∧ iBytesPerPixel = jBytesPerPixel then
    decide (iRefreshRate > jRefreshRate)
  else if iResolution = jResolution then
    decide (iBytesPerPixel > jBytesPerPixel)
  else
    decide (iResolution > jResolution)

end ScreenMode

/-- Go's `%.0f` on a number, as the two things it prints: the minus sign,
printed for every negative number (also one that rounds to zero), and the
magnitude rounded to the nearest integer, ties to even. -/
def fmtFloat0 (q : ℚ) : Bool × Int :=
  let a := |q|
  let f := Int.floor a
  let rounded :=
    if a - f < 1 / 2 then f
    else if a - f > 1 / 2 then f + 1
    else if f % 2 = 0 then f else f + 1
  (decide (q < 0), rounded)

/-- The struct `Screen`. The physical sizes, `float32` values that are not NaN,
infinite or the negative zero, are the rational numbers they denote. -/
structure Screen where
  name : String
  physicalWidth : ℚ
  physicalHeight : ℚ
  modes : List ScreenMode
  mode : Option ScreenMode
  originalMode : Option ScreenMode
  deriving DecidableEq, Repr

/-- The function `newScreen`. -/
def newScreen (name : String) (physicalWidth physicalHeight : ℚ) (modes : List ScreenMode)
    (currentMode : Option ScreenMode) : Screen :=
  { name := name, physicalWidth := physicalWidth, physicalHeight := physicalHeight,
    modes := goSort ScreenMode.Less modes, mode := currentMode, originalMode := currentMode }

/-- The method `Screen.Name`. -/
def Screen.Name (s : Screen) : String := s.name

/-- The method `Screen.PhysicalSize`. -/
def Screen.PhysicalSize (s : Screen) : ℚ × ℚ := (s.physicalWidth, s.physicalHeight)

/-- The method `Screen.String`, `Sprintf("Screen(\"%s\", %.0f by %.0fmm)", ..)`,
as the three values the format renders: the name and the two rounded sizes. -/
def Screen.String (s : Screen) : String × (Bool × Int) × (Bool × Int) :=
  (s.Name, fmtFloat0 s.PhysicalSize.1, fmtFloat0 s.PhysicalSize.2)

/-- The method `Screen.Modes`: a copy of the mode list. -/
def Screen.Modes (s : Screen) : List ScreenMode := s.modes

/-- The loop of `Screen.Equals` over `s.Modes()`, indexing `otherModes` at the
same position: the index expression panics when `otherModes` is shorter. -/
def Screen.equalsLoop (modes otherModes : List ScreenMode) : Panics Bool :=
  match modes, otherModes with
  | [], _ => Panics.ok true
  | _ :: _, [] => Panics.panic "runtime error: index out of range"
  | mode :: rest, other :: otherRest =>
    if !mode.Equals other then Panics.ok false else Screen.equalsLoop rest otherRest

/-- The method `Screen.Equals`. -/
def Screen.Equals (s other : Screen) : Panics Bool :=
  if s.String = other.String then Screen.equalsLoop s.Modes other.Modes
  else Panics.ok false

/-- A screen with two modes and a screen with the same name and physical size
that has only the first of them. -/
def sampleScreenTwo : Screen :=
  newScreen "A" 300 200
    [{ native := 1, width := 1000, height := 1000, bytesPerPixel := 4, refreshRate := 60 },
     { native := 2, width := 800, height := 600, bytesPerPixel := 4, refreshRate := 60 }] none

def sampleScreenOne : Screen :=
  newScreen "A" 300 200
    [{ native := 1, width := 1000, height := 1000, bytesPerPixel := 4, refreshRate := 60 }] none

/-- A Go `uint8`. -/
abbrev Uint8 := Fin 256

/-- The `uint8` subtraction `a - target`, which wraps around below zero. -/
def subUint8 (a target : Uint8) : Nat := (a.val + 256 - target.val) % 256

/-- The struct `GLConfig`. `native` is the identity of the embedded
`backend_GLConfig`. -/
structure GLConfig where
  native : Nat
  valid : Bool
  Accelerated : Bool
  Transparent : Bool
  RedBits : Uint8
  GreenBits : Uint8
  BlueBits : Uint8
  AlphaBits : Uint8
  AccumRedBits : Uint8
  AccumGreenBits : Uint8
  AccumBlueBits : Uint8
  AccumAlphaBits : Uint8
  Samples : Uint8
  AuxBuffers : Uint8
  DepthBits : Uint8
  StencilBits : Uint8
  DoubleBuffered : Bool
  StereoScopic : Bool
  deriving DecidableEq, Repr

namespace sortedConfigs

/-- The closure `distCmp` of `sortedConfigs.Less`:
`math.Abs(float64(a-target)) > math.Abs(float64(b-target))`. The subtraction is
the `uint8` one; the conversion of a `uint8` to `float64` is exact and never
negative, so `math.Abs` leaves it as it is. -/
def distCmp (a b target : Uint8) : Bool :=
  decide (subUint8 a target > subUint8 b target)

/-- The closure `boolCmp` of `sortedConfigs.Less`. -/
def boolCmp (a _b target : Bool) : Bool := a == target

/-- The method `sortedConfigs.Less`, on the two elements `a := s.c[i]`,
`b := s.c[j]` and `max := s.max`. -/
def Less (max a b : GLConfig) : Bool :=
  if a.Accelerated != b.Accelerated then boolCmp a.Accelerated b.Accelerated max.Accelerated
  else if a.RedBits != b.RedBits then distCmp a.RedBits b.RedBits max.RedBits
  else if a.GreenBits != b.GreenBits then distCmp a.GreenBits b.GreenBits max.GreenBits
  else if a.BlueBits != b.BlueBits then distCmp a.BlueBits b.BlueBits max.BlueBits
  else if a.AlphaBits != b.AlphaBits then distCmp a.AlphaBits b.AlphaBits max.AlphaBits
  else if a.DoubleBuffered != b.DoubleBuffered then
    boolCmp a.DoubleBuffered b.DoubleBuffered max.DoubleBuffered
  else if a.Samples != b.Samples then distCmp a.Samples b.Samples max.Samples
  else if a.DepthBits != b.DepthBits then distCmp a.DepthBits b.DepthBits max.DepthBits
  else if a.StencilBits != b.StencilBits then
    distCmp a.StencilBits b.StencilBits max.StencilBits
  else if a.StereoScopic != b.StereoScopic then
    boolCmp a.StereoScopic b.StereoScopic max.StereoScopic
  else if a.Transparent != b.Transparent then
    boolCmp a.Transparent b.Transparent max.Transparent
  else if a.AccumRedBits != b.AccumRedBits then
    distCmp a.AccumRedBits b.AccumRedBits max.AccumRedBits
  else if a.AccumGreenBits != b.AccumGreenBits then
    distCmp a.AccumGreenBits b.AccumGreenBits max.AccumGreenBits
  else if a.AccumBlueBits != b.AccumBlueBits then
    distCmp a.AccumBlueBits b.AccumBlueBits max.AccumBlueBits
  else if a.AccumAlphaBits != b.AccumAlphaBits then
    distCmp a.AccumAlphaBits b.AccumAlphaBits max.AccumAlphaBits
  else distCmp a.AuxBuffers b.AuxBuffers max.AuxBuffers

end sortedConfigs

namespace GLConfig

/-- The method `GLConfig.Equals`. -/
def Equals (c o : GLConfig) : Bool :=
  if c.Accelerated != o.Accelerated || c.Transparent != o.Transparent ||
      c.RedBits != o.RedBits || c.GreenBits != o.GreenBits || c.BlueBits != o.BlueBits ||
      c.AlphaBits != o.AlphaBits || c.AccumRedBits != o.AccumRedBits ||
      c.AccumGreenBits != o.AccumGreenBits || c.AccumBlueBits != o.AccumBlueBits ||
      c.AccumAlphaBits != o.AccumAlphaBits || c.Samples != o.Samples ||
      c.AuxBuffers != o.AuxBuffers || c.DepthBits != o.DepthBits ||
      c.StencilBits != o.StencilBits || c.DoubleBuffered != o.DoubleBuffered ||
      c.StereoScopic != o.StereoScopic then false
  else true

/-- The body of the first loop of `GLChooseConfig`: false when the loop
reaches a `continue`, true when it appends `c` to `removed`. -/
def notBelow (c min : GLConfig) : Bool :=
  if c.RedBits < min.RedBits then false
  else if c.GreenBits < min.GreenBits then false
  else if c.BlueBits < min.BlueBits then false
  else if c.AlphaBits < min.AlphaBits then false
  else if c.AccumRedBits < min.AccumRedBits then false
  else if c.AccumGreenBits < min.AccumGreenBits then false
  else if c.AccumBlueBits < min.AccumBlueBits then false
  else if c.AccumAlphaBits < min.AccumAlphaBits then false
  else if c.Samples < min.Samples then false
  else if c.AuxBuffers < min.AuxBuffers then false
  else if c.DepthBits < min.DepthBits then false
  else if c.StencilBits < min.StencilBits then false
  else if min.Accelerated && !c.Accelerated then false
  else if min.Transparent && !c.Transparent then false
  else if min.DoubleBuffered && !c.DoubleBuffered then false
  else if min.StereoScopic && !c.StereoScopic then false
  else true

/-- The body of the second loop of `GLChooseConfig`. -/
def notAbove (c max : GLConfig) : Bool :=
  if c.RedBits > max.RedBits then false
  else if c.GreenBits > max.GreenBits then false
  else if c.BlueBits > max.BlueBits then false
  else if c.AlphaBits > max.AlphaBits then false
  else if c.AccumRedBits > max.AccumRedBits then false
  else if c.AccumGreenBits > max.AccumGreenBits then false
  else if c.AccumBlueBits > max.AccumBlueBits then false
  else if c.AccumAlphaBits > max.AccumAlphaBits then false
  else if c.Samples > max.Samples then false
  else if c.AuxBuffers > max.AuxBuffers then false
  else if c.DepthBits > max.DepthBits then false
  else if c.StencilBits > max.StencilBits then false
  else if c.Accelerated && !max.Accelerated then false
  else if c.Transparent && !max.Transparent then false
  else if c.DoubleBuffered && !max.DoubleBuffered then false
  else if c.StereoScopic && !max.StereoScopic then false
  else true

/-- A configuration lies within the bounds: every numeric attribute is at least
`min`'s and at most `max`'s, every boolean attribute is true when `min`'s is
true and false when `max`'s is false. -/
def withinBounds (c min max : GLConfig) : Prop :=
  (min.RedBits ≤ c.RedBits ∧ c.RedBits ≤ max.RedBits) ∧
  (min.GreenBits ≤ c.GreenBits ∧ c.GreenBits ≤ max.GreenBits) ∧
  (min.BlueBits ≤ c.BlueBits ∧ c.BlueBits ≤ max.BlueBits) ∧
  (min.AlphaBits ≤ c.AlphaBits ∧ c.AlphaBits ≤ max.AlphaBits) ∧
  (min.AccumRedBits ≤ c.AccumRedBits ∧ c.AccumRedBits ≤ max.AccumRedBits) ∧
  (min.AccumGreenBits ≤ c.AccumGreenBits ∧ c.AccumGreenBits ≤ max.AccumGreenBits) ∧
  (min.AccumBlueBits ≤ c.AccumBlueBits ∧ c.AccumBlueBits ≤ max.AccumBlueBits) ∧
  (min.AccumAlphaBits ≤ c.AccumAlphaBits ∧ c.AccumAlphaBits ≤ max.AccumAlphaBits) ∧
  (min.Samples ≤ c.Samples ∧ c.Samples ≤ max.Samples) ∧
  (min.AuxBuffers ≤ c.AuxBuffers ∧ c.AuxBuffers ≤ max.AuxBuffers) ∧
  (min.DepthBits ≤ c.DepthBits ∧ c.DepthBits ≤ max.DepthBits) ∧
  (min.StencilBits ≤ c.StencilBits ∧ c.StencilBits ≤ max.StencilBits) ∧
  ((min.Accelerated = true → c.Accelerated = true) ∧
    (max.Accelerated = false → c.Accelerated = false)) ∧
  ((min.Transparent = true → c.Transparent = true) ∧
    (max.Transparent = false → c.Transparent = false)) ∧
  ((min.DoubleBuffered = true → c.DoubleBuffered = true) ∧
    (max.DoubleBuffered = false → c.DoubleBuffered = false)) ∧
  ((min.StereoScopic = true → c.StereoScopic = true) ∧
    (max.StereoScopic = false → c.StereoScopic = false))

end GLConfig

/-- The variable `GLWorstConfig`. -/
def GLWorstConfig : GLConfig :=
  { native := 0, valid := false, Accelerated := false, Transparent := false,
    RedBits := 0, GreenBits := 0, BlueBits := 0, AlphaBits := 0,
    AccumRedBits := 0, AccumGreenBits := 0, AccumBlueBits := 0, AccumAlphaBits := 0,
    Samples := 0, AuxBuffers := 0, DepthBits := 0, StencilBits := 0,
    DoubleBuffered := false, StereoScopic := false }

/-- The variable `GLWorstHWConfig`. -/
def GLWorstHWConfig : GLConfig :=
  { native := 0, valid := false, Accelerated := true, Transparent := false,
    RedBits := 0, GreenBits := 0, BlueBits := 0, AlphaBits := 0,
    AccumRedBits := 0, AccumGreenBits := 0, AccumBlueBits := 0, AccumAlphaBits := 0,
    Samples := 0, AuxBuffers := 0, DepthBits := 0, StencilBits := 0,
    DoubleBuffered := false, StereoScopic := false }

/-- The variable `GLBestConfig`. -/
def GLBestConfig : GLConfig :=
  { native := 0, valid := false, Accelerated := true, Transparent := true,
    RedBits := 255, GreenBits := 255, BlueBits := 255, AlphaBits := 255,
    AccumRedBits := 255, AccumGreenBits := 255, AccumBlueBits := 255, AccumAlphaBits := 255,
    Samples := 255, AuxBuffers := 255, DepthBits := 255, StencilBits := 255,
    DoubleBuffered := true, StereoScopic := false }

/-- The function `GLChooseConfig`; `none` is the nil result. The elements of
`possible` and the two bounds are taken to be non-nil pointers. -/
def GLChooseConfig (possible : List GLConfig) (minConfig maxConfig : GLConfig) :
    Option GLConfig :=
  let min := minConfig
  let max := maxConfig
  let removed := possible.filter (fun c => c.notBelow min)
  let possible := removed
  let removed := possible.filter (fun c => c.notAbove max)
  let possible := removed
  if possible.length = 0 then none
  else (goSort (sortedConfigs.Less maxConfig) possible).head?

/-- The place of a boolean attribute in the order of `Less`: 0 when it equals
the target, 1 otherwise. -/
def rankBool (a target : Bool) : Nat := if a = target then 0 else 1

/-- The place of a numeric attribute in the order of `Less`: the larger the
wrapped difference to the target, the earlier. -/
def rankDist (a target : Uint8) : Nat := 255 - subUint8 a target

/-- The places of the sixteen attributes of a configuration, in the order in
which `Less` compares them. -/
def ranks (max c : GLConfig) : List Nat :=
  [rankBool c.Accelerated max.Accelerated,
   rankDist c.RedBits max.RedBits, rankDist c.GreenBits max.GreenBits,
   rankDist c.BlueBits max.BlueBits, rankDist c.AlphaBits max.AlphaBits,
   rankBool c.DoubleBuffered max.DoubleBuffered,
   rankDist c.Samples max.Samples, rankDist c.DepthBits max.DepthBits,
   rankDist c.StencilBits max.StencilBits,
   rankBool c.StereoScopic max.StereoScopic, rankBool c.Transparent max.Transparent,
   rankDist c.AccumRedBits max.AccumRedBits, rankDist c.AccumGreenBits max.AccumGreenBits,
   rankDist c.AccumBlueBits max.AccumBlueBits, rankDist c.AccumAlphaBits max.AccumAlphaBits,
   rankDist c.AuxBuffers max.AuxBuffers]

/-- Lexicographic comparison of two lists of places. -/
def lexLt : List Nat → List Nat → Bool
  | x :: xs, y :: ys => if x = y then lexLt xs ys else decide (x < y)
  | _, _ => false

/-- Two candidates for the red-bits example: both accelerated, one with 5 red
bits and one with 8. -/
def sampleRed5 : GLConfig := { GLWorstHWConfig with native := 1, valid := true, RedBits := 5 }

def sampleRed8 : GLConfig := { GLWorstHWConfig with native := 2, valid := true, RedBits := 8 }

/-- An upper bound asking for 8 red bits and hardware acceleration. -/
def sampleMaxRed8 : GLConfig := { GLWorstHWConfig with RedBits := 8 }

/-! ## OpenGL version strings (`opengl.go`, `chippy_linux.go`) -/

/-- A Go string, as the list of its bytes. -/
abbrev GoString := List Char

/-- The call `strings.Contains(s, sep)` of the Go standard library for a
separator of one byte. -/
def stringsContains (s : GoString) (sep : Char) : Bool := s.contains sep

/-- The call `strings.Count(s, sep)` of the Go standard library for a
separator of one byte. -/
def stringsCount (s : GoString) (sep : Char) : Nat := s.count sep

/-- The call `strings.Split(s, sep)` of the Go standard library for a
separator of one byte: the pieces of `s` between the separators, at least
one. -/
def stringsSplit : GoString → Char → List GoString
  | [], _ => [[]]
  | c :: cs, sep =>
    if c = sep then [] :: stringsSplit cs sep
    else
      match stringsSplit cs sep with
      | [] => [[c]]
      | piece :: pieces => (c :: piece) :: pieces

/-- The number of bits of a Go `int`. -/
def intSize : Nat := 64

/-- The value of a decimal digit, `none` for any other byte. -/
def digitValue (c : Char) : Option Nat :=
  if 48 ≤ c.toNat ∧ c.toNat ≤ 57 then some (c.toNat - 48) else none

/-- The digits loop of `strconv.Atoi`. -/
def parseDigits : GoString → Nat → Option Nat
  | [], acc => some acc
  | c :: cs, acc =>
    match digitValue c with
    | none => none
    | some d => parseDigits cs (acc * 10 + d)

/-- The call `strconv.Atoi(s)` of the Go standard library; `none` is a non-nil
error (a syntax error or a value out of the range of `int`). -/
def Atoi (s : GoString) : Option Int :=
  match s with
  | [] => none
  | c :: rest =>
    if c = '-' then
      if rest = [] then none
      else
        match parseDigits rest 0 with
        | none => none
        | some n => if n ≤ 2 ^ (intSize - 1) then some (-(n : Int)) else none
    else if c = '+' then
      if rest = [] then none
      else
        match parseDigits rest 0 with
        | none => none
        | some n => if n < 2 ^ (intSize - 1) then some (n : Int) else none
    else
      match parseDigits s 0 with
      | none => none
      | some n => if n < 2 ^ (intSize - 1) then some (n : Int) else none

/-- The last statement of `versionSupported`, the comparison of the parsed
version with the wanted one. -/
def versionSupported_compare (major minor wantedMajor wantedMinor : Int) : Panics Bool :=
  if major > wantedMajor then Panics.ok true
  else if major = wantedMajor ∧ minor ≥ wantedMinor then Panics.ok true
  else Panics.ok false

/-- The two `strconv.Atoi` calls of `versionSupported` on `versions[0]` and
`versions[1]`, followed by the comparison. -/
def versionSupported_atoi (versions : List GoString) (wantedMajor wantedMinor : Int) :
    Panics Bool :=
  match versions with
  | v0 :: v1 :: _ =>
    match Atoi v0 with
    | none => Panics.ok false
    | some major =>
      match Atoi v1 with
      | none => Panics.ok false
      | some minor => versionSupported_compare major minor wantedMajor wantedMinor
  | _ => Panics.panic "runtime error: index out of range"

/-- The part of `versionSupported` after `versionString` is known. `major` and
`minor` stay 0 when the string has neither one nor two dots. -/
def versionSupported_parse (versionString : GoString) (wantedMajor wantedMinor : Int) :
    Panics Bool :=
  let dots := stringsCount versionString '.'
  if dots = 1 then
    let versions := stringsSplit versionString '.'
    if versions.length = 2 then versionSupported_atoi versions wantedMajor wantedMinor
    else Panics.ok false
  else if dots = 2 then
    let versions := stringsSplit versionString '.'
    if versions.length = 3 then versionSupported_atoi versions wantedMajor wantedMinor
    else Panics.ok false
  else versionSupported_compare 0 0 wantedMajor wantedMinor

/-- The function `versionSupported`. -/
def versionSupported (ver : GoString) (wantedMajor wantedMinor : Int) : Panics Bool :=
  if ver.length > 0 then
    if stringsContains ver ' ' then
      let split := stringsSplit ver ' '
      match split with
      | [] => Panics.panic "runtime error: index out of range"
      | split0 :: _ => versionSupported_parse split0 wantedMajor wantedMinor
    else versionSupported_parse ver wantedMajor wantedMinor
  else Panics.ok false

/-- The function `atLeastVersion`. -/
def atLeastVersion (realMajor realMinor wantedMajor wantedMinor : Int) : Bool :=
  if realMajor ≠ wantedMajor then decide (realMajor > wantedMajor)
  else if realMinor ≠ wantedMinor then decide (realMinor > wantedMinor)
  else true

/-- The byte of a decimal digit. -/
def digitChar (d : Nat) : Char := Char.ofNat (48 + d)

/-- The decimal text of a natural number, as in `"M.m"`: its digits, most
significant first, and `"0"` for zero. -/
def decimal (n : Nat) : GoString :=
  if n = 0 then ['0'] else ((Nat.digits 10 n).reverse).map digitChar

/-- The version string `"M.m"`. -/
def versionText (major minor : Nat) : GoString := decimal major ++ '.' :: decimal minor

/-- The version string `"M.m.r"`. -/
def versionTextRelease (major minor release : Nat) : GoString :=
  decimal major ++ '.' :: (decimal minor ++ '.' :: decimal release)

/-! # Theorems -/

/-! ## Facts about `send` -/

theorem send_chans_length (w : Window) (ev : Event) :
    (w.send ev).chans.length = w.chans.length := by
  simp [Window.send]

theorem send_get? (w : Window) (ev : Event) (c : Nat) (ch : Chan)
    (h : w.chans.get? c = some ch) :
    (w.send ev).chans.get? c =
      some (if ch.registered = true ∧ ch.buf.length < ch.cap then
              { ch with buf := ch.buf ++ [ev] }
            else ch) := by
  simp only [Window.send, List.get?_eq_getElem?, List.getElem?_map] at h ⊢
  rw [h]
  simp only [Option.map_some', Chan.trySend]
  by_cases hr : ch.registered = true
  · by_cases hl : ch.buf.length < ch.cap
    · simp [hr, hl]
    · simp [hr, hl]
  · simp [hr]

theorem send_publishedOnce (w : Window) (ev : Event) : PublishedOnce w (w.send ev) ev :=
  ⟨send_chans_length w ev, fun c ch h => send_get? w ev c ch h⟩

/-! ## Caller-driven setters -/

/-- C1. On an open window, `SetSize(width, height)` with a size that differs
from the cached one, called twice in a row, issues exactly one native `setSize`
call (with the clamped size) and publishes nothing; the second call leaves the
whole window state, the native-call log included, as the first call left it. -/
theorem C1_SetSize_twice_one_native_call (w : Window) (width height : Int)
    (hopen : w.opened = true) (hne : w.width ≠ width ∨ w.height ≠ height) :
    (w.SetSize width height).SetSize width height = w.SetSize width height ∧
    ((w.SetSize width height).SetSize width height).nativeLog =
      w.nativeLog ++ [NativeCall.setSize (w.SetSize width height).doClampedSize.1
        (w.SetSize width height).doClampedSize.2] ∧
    (w.SetSize width height).nativeLog =
      w.nativeLog ++ [NativeCall.setSize (w.SetSize width height).doClampedSize.1
        (w.SetSize width height).doClampedSize.2] ∧
    ((w.SetSize width height).SetSize width height).chans = w.chans ∧
    (w.SetSize width height).Size = (width, height) := by
  have h1 : w.SetSize width height =
      { w with width := width, height := height,
               nativeLog := w.nativeLog ++
                 [NativeCall.setSize
                   ({ w with width := width, height := height } : Window).doClampedSize.1
                   ({ w with width := width, height := height } : Window).doClampedSize.2] } := by
    simp only [Window.SetSize, if_pos hne, hopen, if_true]
  have h2 : (w.SetSize width height).SetSize width height = w.SetSize width height := by
    rw [h1]
    simp [Window.SetSize]
  refine ⟨h2, ?_, ?_, ?_, ?_⟩
  · rw [h2, h1]; simp [Window.doClampedSize]
  · rw [h1]; simp [Window.doClampedSize]
  · rw [h2, h1]
  · rw [h1]; rfl

/-- C1 at `sampleOpen` (640 x 480) with `SetSize(800, 600)`. -/
theorem C1_SetSize_twice_witness :
    sampleOpen.opened = true ∧ (sampleOpen.width ≠ 800 ∨ sampleOpen.height ≠ 600) ∧
    ((sampleOpen.SetSize 800 600).SetSize 800 600).nativeLog =
      sampleOpen.nativeLog ++ [NativeCall.setSize 800 600] :=
  ⟨by decide, by decide,
    (C1_SetSize_twice_one_native_call sampleOpen 800 600 (by decide) (by decide)).2.1⟩

/-- C2 as stated fails: on `sampleOpen` (open, 640 x 480, one registered queue
with room, minimum size 150 x 150, no maximum), `SetSize(800, 600)` followed by
the acknowledgement `trySetSize(800, 600)` leaves the subscriber's queue without
any `ResizedEvent`: the acknowledgement returns false and the queue is empty,
where the claim expects it to hold one `ResizedEvent`. -/
theorem C2_SetSize_ack_counterexample :
    sampleOpen.opened = true ∧
    sampleOpen.chans.get? 0 = some { cap := 4, buf := [], registered := true } ∧
    (sampleOpen.width ≠ 800 ∨ sampleOpen.height ≠ 600) ∧
    (sampleOpen.SetSize 800 600).doClampedSize = (800, 600) ∧
    ((sampleOpen.SetSize 800 600).trySetSize 7 800 600).1 = false ∧
    ((sampleOpen.SetSize 800 600).trySetSize 7 800 600).2.chans.get? 0 =
      some { cap := 4, buf := [], registered := true } ∧
    ¬ PublishedOnce sampleOpen ((sampleOpen.SetSize 800 600).trySetSize 7 800 600).2
        (Event.ResizedEvent 800 600 7) := by
  refine ⟨by decide, by decide, by decide, by decide, by decide, by decide, ?_⟩
  intro h
  have h0 := h.2 0 { cap := 4, buf := [], registered := true } (by decide)
  revert h0
  decide

/-- C2, amended. On an open window with a subscriber queue that has room,
`SetSize(width, height)` with a size that differs from the cached one and lies
inside the minimum/maximum bounds, followed by the native acknowledgement
`trySetSize(width, height)`, publishes no `ResizedEvent`: the acknowledgement
finds the cache already holding the size, returns false, and leaves the window
as `SetSize` left it, every subscriber queue being as it was before `SetSize`. -/
theorem C2_SetSize_ack_publishes_nothing (w : Window) (width height : Int) (now : Time)
    (c : Nat) (ch : Chan)
    (hopen : w.opened = true)
    (hc : w.chans.get? c = some ch) (hreg : ch.registered = true)
    (hroom : ch.buf.length < ch.cap)
    (hne : w.width ≠ width ∨ w.height ≠ height)
    (hbounds : (w.SetSize width height).doClampedSize = (width, height)) :
    ((w.SetSize width height).trySetSize now width height).1 = false ∧
    ((w.SetSize width height).trySetSize now width height).2 = w.SetSize width height ∧
    ((w.SetSize width height).trySetSize now width height).2.chans = w.chans ∧
    (∃ ch2 : Chan, ((w.SetSize width height).trySetSize now width height).2.chans.get? c =
        some ch2 ∧ ch2.buf = ch.buf ∧ ch2.registered = true ∧ ch2.buf.length < ch2.cap) ∧
    (w.SetSize width height).nativeLog = w.nativeLog ++ [NativeCall.setSize width height] := by
  have h1 : w.SetSize width height =
      { w with width := width, height := height,
               nativeLog := w.nativeLog ++
                 [NativeCall.setSize
                   ({ w with width := width, height := height } : Window).doClampedSize.1
                   ({ w with width := width, height := height } : Window).doClampedSize.2] } := by
    simp only [Window.SetSize, if_pos hne, hopen, if_true]
  have h2 : (w.SetSize width height).trySetSize now width height =
      (false, w.SetSize width height) := by
    rw [h1]
    simp [Window.trySetSize]
  have h3 : (w.SetSize width height).chans = w.chans := by rw [h1]
  refine ⟨by rw [h2], by rw [h2], by rw [h2]; exact h3, ?_, ?_⟩
  · refine ⟨ch, ?_, rfl, hreg, hroom⟩
    rw [h2]; simp only []; rw [h3]; exact hc
  · have hb : ({ w with width := width, height := height } : Window).doClampedSize =
      (width, height) := by
      have hb1 := hbounds
      rw [h1] at hb1
      exact hb1
    rw [h1]
    show w.nativeLog ++ [NativeCall.setSize
        ({ w with width := width, height := height } : Window).doClampedSize.1
        ({ w with width := width, height := height } : Window).doClampedSize.2] = _
    rw [hb]

/-- C2 amended, at `sampleOpen` with `SetSize(800, 600)`. -/
theorem C2_SetSize_ack_witness :
    sampleOpen.opened = true ∧ (sampleOpen.width ≠ 800 ∨ sampleOpen.height ≠ 600) ∧
    ((sampleOpen.SetSize 800 600).trySetSize 7 800 600).1 = false :=
  ⟨by decide, by decide,
    (C2_SetSize_ack_publishes_nothing sampleOpen 800 600 7 0
      { cap := 4, buf := [], registered := true }
      (by decide) (by decide) (by decide) (by decide) (by decide) (by decide)).1⟩

/-- C3. On a window that is not open, every caller-driven setter leaves the
native-call log as it was and the cache holds the argument afterwards (for the
`float32` aspect ratio: the same bits, or a value equal to the argument under
Go's `==`). -/
theorem C3_setters_closed_no_native_call (w : Window) (hclosed : w.opened = false) :
    (∀ icon, (w.SetIcon icon).nativeLog = w.nativeLog ∧ (w.SetIcon icon).Icon = icon) ∧
    (∀ title, (w.SetTitle title).nativeLog = w.nativeLog ∧ (w.SetTitle title).Title = title) ∧
    (∀ v, (w.SetVisible v).nativeLog = w.nativeLog ∧ (w.SetVisible v).Visible = v) ∧
    (∀ t, (w.SetTransparent t).nativeLog = w.nativeLog ∧ (w.SetTransparent t).Transparent = t) ∧
    (∀ d, (w.SetDecorated d).nativeLog = w.nativeLog ∧ (w.SetDecorated d).Decorated = d) ∧
    (∀ a, (w.SetAlwaysOnTop a).nativeLog = w.nativeLog ∧ (w.SetAlwaysOnTop a).AlwaysOnTop = a) ∧
    (∀ r, (w.SetAspectRatio r).nativeLog = w.nativeLog ∧
      ((w.SetAspectRatio r).AspectRatio = r ∨ f32ne (w.SetAspectRatio r).AspectRatio r = false)) ∧
    (∀ width height, (w.SetSize width height).nativeLog = w.nativeLog ∧
      (w.SetSize width height).Size = (width, height)) ∧
    (∀ g, (w.SetCursorGrabbed g).nativeLog = w.nativeLog ∧
      (w.SetCursorGrabbed g).CursorGrabbed = g) ∧
    (∀ cur, (w.SetCursor cur).nativeLog = w.nativeLog ∧ (w.SetCursor cur).Cursor = cur) ∧
    (∀ f, (w.SetFullscreen f).nativeLog = w.nativeLog ∧ (w.SetFullscreen f).Fullscreen = f) ∧
    (∀ m, (w.SetMinimized m).nativeLog = w.nativeLog ∧ (w.SetMinimized m).Minimized = m) ∧
    (∀ m, (w.SetMaximized m).nativeLog = w.nativeLog ∧ (w.SetMaximized m).Maximized = m) ∧
    (∀ x y, (w.SetCursorPosition x y).nativeLog = w.nativeLog ∧
      (w.SetCursorPosition x y).CursorPosition = (x, y)) ∧
    (∀ width height, (w.SetMinimumSize width height).nativeLog = w.nativeLog ∧
      (w.SetMinimumSize width height).MinimumSize = (width, height)) ∧
    (∀ width height, (w.SetMaximumSize width height).nativeLog = w.nativeLog ∧
      (w.SetMaximumSize width height).MaximumSize = (width, height)) ∧
    (∀ x y, (w.SetPosition x y).nativeLog = w.nativeLog ∧
      (w.SetPosition x y).Position = (x, y)) := by
  refine ⟨?_, ?_, ?_, ?_, ?_, ?_, ?_, ?_, ?_, ?_, ?_, ?_, ?_, ?_, ?_, ?_, ?_⟩
  · intro icon
    by_cases h : w.icon = icon <;> simp [Window.SetIcon, Window.Icon, h, hclosed]
  · intro title
    by_cases h : w.title = title <;> simp [Window.SetTitle, Window.Title, h, hclosed]
  · intro v
    by_cases h : w.visible = v <;> simp [Window.SetVisible, Window.Visible, h, hclosed]
  · intro t
    by_cases h : w.transparent = t <;> simp [Window.SetTransparent, Window.Transparent, h, hclosed]
  · intro d
    by_cases h : w.decorated = d <;> simp [Window.SetDecorated, Window.Decorated, h, hclosed]
  · intro a
    by_cases h : w.alwaysOnTop = a <;> simp [Window.SetAlwaysOnTop, Window.AlwaysOnTop, h, hclosed]
  · intro r
    cases h : f32ne w.aspectRatio r <;> simp [Window.SetAspectRatio, Window.AspectRatio, h, hclosed]
  · intro width height
    by_cases h : w.width ≠ width ∨ w.height ≠ height
    · simp [Window.SetSize, Window.Size, h, hclosed]
    · have h2 : w.width = width ∧ w.height = height := by
        constructor <;> (by_contra hh; exact h (by simp [hh]))
      simp [Window.SetSize, Window.Size, h2.1, h2.2, hclosed]
  · intro g
    by_cases h : w.cursorGrabbed = g
    · simp [Window.SetCursorGrabbed, Window.CursorGrabbed, h, hclosed]
    · cases g <;> simp [Window.SetCursorGrabbed, Window.CursorGrabbed, h, hclosed]
  · intro cur
    by_cases h : w.cursor = cur <;> simp [Window.SetCursor, Window.Cursor, h, hclosed]
  · intro f
    by_cases h : w.fullscreen = f
    · simp [Window.SetFullscreen, Window.Fullscreen, h, hclosed]
    · cases f <;> simp [Window.SetFullscreen, Window.Fullscreen, h, hclosed]
  · intro m
    by_cases h : w.minimized = m <;> simp [Window.SetMinimized, Window.Minimized, h, hclosed]
  · intro m
    by_cases h : w.maximized = m <;> simp [Window.SetMaximized, Window.Maximized, h, hclosed]
  · intro x y
    by_cases h : w.cursorX ≠ x ∨ w.cursorY ≠ y
    · simp [Window.SetCursorPosition, Window.CursorPosition, h, hclosed]
    · have h2 : w.cursorX = x ∧ w.cursorY = y := by
        constructor <;> (by_contra hh; exact h (by simp [hh]))
      simp [Window.SetCursorPosition, Window.CursorPosition, h2.1, h2.2, hclosed]
  · intro width height
    by_cases h : w.minWidth ≠ width ∨ w.minHeight ≠ height
    · simp [Window.SetMinimumSize, Window.MinimumSize, h, hclosed]
    · have h2 : w.minWidth = width ∧ w.minHeight = height := by
        constructor <;> (by_contra hh; exact h (by simp [hh]))
      simp [Window.SetMinimumSize, Window.MinimumSize, h2.1, h2.2, hclosed]
  · intro width height
    by_cases h : w.maxWidth ≠ width ∨ w.maxHeight ≠ height
    · simp [Window.SetMaximumSize, Window.MaximumSize, h, hclosed]
    · have h2 : w.maxWidth = width ∧ w.maxHeight = height := by
        constructor <;> (by_contra hh; exact h (by simp [hh]))
      simp [Window.SetMaximumSize, Window.MaximumSize, h2.1, h2.2, hclosed]
  · intro x y
    by_cases h : w.x ≠ x ∨ w.y ≠ y
    · simp [Window.SetPosition, Window.Position, h, hclosed]
    · have h2 : w.x = x ∧ w.y = y := by
        constructor <;> (by_contra hh; exact h (by simp [hh]))
      simp [Window.SetPosition, Window.Position, h2.1, h2.2, hclosed]

/-- C3 at the never-opened window `sampleClosed`, for `SetSize(800, 600)`. -/
theorem C3_setters_closed_witness :
    sampleClosed.opened = false ∧
    (sampleClosed.SetSize 800 600).nativeLog = sampleClosed.nativeLog ∧
    (sampleClosed.SetSize 800 600).Size = (800, 600) :=
  ⟨by decide,
    (C3_setters_closed_no_native_call sampleClosed (by decide)).2.2.2.2.2.2.2.1 800 600⟩

/-! ## Native-driven updates -/

/-- C4. Each of `trySetSize`, `trySetPosition`, `trySetFocused`,
`trySetCursorWithin`, `trySetMinimized` and `trySetMaximized`: when the
incoming value equals the cached one the call returns false and the window
(subscriber queues included) is unchanged; otherwise it returns true, the cache
holds the incoming value and exactly one event of the matching kind, carrying
the incoming value, is published (each registered queue with room gets it at
its tail, the other queues are untouched). -/
theorem C4_trySet_noop_or_one_event (w : Window) (now : Time) :
    (∀ width height : Int,
      (w.width = width ∧ w.height = height → w.trySetSize now width height = (false, w)) ∧
      (w.width ≠ width ∨ w.height ≠ height →
        (w.trySetSize now width height).1 = true ∧
        (w.trySetSize now width height).2.Size = (width, height) ∧
        PublishedOnce w (w.trySetSize now width height).2
          (Event.ResizedEvent width height now))) ∧
    (∀ x y : Int,
      (w.x = x ∧ w.y = y → w.trySetPosition now x y = (false, w)) ∧
      (w.x ≠ x ∨ w.y ≠ y →
        (w.trySetPosition now x y).1 = true ∧
        (w.trySetPosition now x y).2.Position = (x, y) ∧
        PublishedOnce w (w.trySetPosition now x y).2 (Event.PositionEvent x y now))) ∧
    (∀ focused : Bool,
      (w.focused = focused → w.trySetFocused now focused = (false, w)) ∧
      (w.focused ≠ focused →
        (w.trySetFocused now focused).1 = true ∧
        (w.trySetFocused now focused).2.Focused = focused ∧
        PublishedOnce w (w.trySetFocused now focused).2 (Event.FocusedEvent focused now))) ∧
    (∀ within : Bool,
      (w.cursorWithin = within → w.trySetCursorWithin now within = (false, w)) ∧
      (w.cursorWithin ≠ within →
        (w.trySetCursorWithin now within).1 = true ∧
        (w.trySetCursorWithin now within).2.CursorWithin = within ∧
        PublishedOnce w (w.trySetCursorWithin now within).2
          (Event.CursorWithinEvent within now))) ∧
    (∀ minimized : Bool,
      (w.minimized = minimized → w.trySetMinimized now minimized = (false, w)) ∧
      (w.minimized ≠ minimized →
        (w.trySetMinimized now minimized).1 = true ∧
        (w.trySetMinimized now minimized).2.Minimized = minimized ∧
        PublishedOnce w (w.trySetMinimized now minimized).2
          (Event.MinimizedEvent minimized now))) ∧
    (∀ maximized : Bool,
      (w.maximized = maximized → w.trySetMaximized now maximized = (false, w)) ∧
      (w.maximized ≠ maximized →
        (w.trySetMaximized now maximized).1 = true ∧
        (w.trySetMaximized now maximized).2.Maximized = maximized ∧
        PublishedOnce w (w.trySetMaximized now maximized).2
          (Event.MaximizedEvent maximized now))) := by
  refine ⟨?_, ?_, ?_, ?_, ?_, ?_⟩
  · intro width height
    refine ⟨fun h => by simp [Window.trySetSize, h.1, h.2], fun h => ?_⟩
    refine ⟨?_, ?_, ?_⟩
    · simp only [Window.trySetSize, if_pos h]
    · simp only [Window.trySetSize, if_pos h]; rfl
    · simp only [Window.trySetSize, if_pos h]; exact send_publishedOnce _ _
  · intro x y
    refine ⟨fun h => by simp [Window.trySetPosition, h.1, h.2], fun h => ?_⟩
    refine ⟨?_, ?_, ?_⟩
    · simp only [Window.trySetPosition, if_pos h]
    · simp only [Window.trySetPosition, if_pos h]; rfl
    · simp only [Window.trySetPosition, if_pos h]; exact send_publishedOnce _ _
  · intro focused
    refine ⟨fun h => by simp [Window.trySetFocused, h], fun h => ?_⟩
    refine ⟨?_, ?_, ?_⟩
    · simp only [Window.trySetFocused, if_pos h]
    · simp only [Window.trySetFocused, if_pos h]; rfl
    · simp only [Window.trySetFocused, if_pos h]; exact send_publishedOnce _ _
  · intro within
    refine ⟨fun h => by simp [Window.trySetCursorWithin, h], fun h => ?_⟩
    refine ⟨?_, ?_, ?_⟩
    · simp only [Window.trySetCursorWithin, if_pos h]
    · simp only [Window.trySetCursorWithin, if_pos h]; rfl
    · simp only [Window.trySetCursorWithin, if_pos h]; exact send_publishedOnce _ _
  · intro minimized
    refine ⟨fun h => by simp [Window.trySetMinimized, h], fun h => ?_⟩
    refine ⟨?_, ?_, ?_⟩
    · simp only [Window.trySetMinimized, if_pos h]
    · simp only [Window.trySetMinimized, if_pos h]; rfl
    · simp only [Window.trySetMinimized, if_pos h]; exact send_publishedOnce _ _
  · intro maximized
    refine ⟨fun h => by simp [Window.trySetMaximized, h], fun h => ?_⟩
    refine ⟨?_, ?_, ?_⟩
    · simp only [Window.trySetMaximized, if_pos h]
    · simp only [Window.trySetMaximized, if_pos h]; rfl
    · simp only [Window.trySetMaximized, if_pos h]; exact send_publishedOnce _ _

/-- C4 at `sampleOpen`: a native resize to 800 x 600 reaches the subscriber as
one `ResizedEvent`, a native report of the cached 640 x 480 changes nothing. -/
theorem C4_trySet_witness :
    (sampleOpen.width ≠ 800 ∨ sampleOpen.height ≠ 600) ∧
    (sampleOpen.trySetSize 7 800 600).1 = true ∧
    (sampleOpen.trySetSize 7 800 600).2.chans =
      [{ cap := 4, buf := [Event.ResizedEvent 800 600 7], registered := true }] ∧
    (sampleOpen.width = 640 ∧ sampleOpen.height = 480) ∧
    sampleOpen.trySetSize 7 640 480 = (false, sampleOpen) :=
  ⟨by decide,
    (((C4_trySet_noop_or_one_event sampleOpen 7).1 800 600).2 (by decide)).1,
    by decide, by decide,
    ((C4_trySet_noop_or_one_event sampleOpen 7).1 640 480).1 (by decide)⟩

/-- C5. None of the native-driven updates issues a native call: after
`trySetPosition`, `trySetSize`, `trySetFocused`, `trySetCursorWithin`,
`trySetCursorPosition`, `trySetMinimized`, `trySetMaximized` and
`tryAddKeyboardStateEvent` the native-call log is the one from before, whatever
the window state (open or not) and the arguments. -/
theorem C5_trySet_no_native_call (w : Window) (now : Time) :
    (∀ x y, (w.trySetPosition now x y).2.nativeLog = w.nativeLog) ∧
    (∀ width height, (w.trySetSize now width height).2.nativeLog = w.nativeLog) ∧
    (∀ focused, (w.trySetFocused now focused).2.nativeLog = w.nativeLog) ∧
    (∀ within, (w.trySetCursorWithin now within).2.nativeLog = w.nativeLog) ∧
    (∀ x y, (w.trySetCursorPosition now x y).2.nativeLog = w.nativeLog) ∧
    (∀ minimized, (w.trySetMinimized now minimized).2.nativeLog = w.nativeLog) ∧
    (∀ maximized, (w.trySetMaximized now maximized).2.nativeLog = w.nativeLog) ∧
    (∀ k raw s, (w.tryAddKeyboardStateEvent now k raw s).nativeLog = w.nativeLog) := by
  refine ⟨?_, ?_, ?_, ?_, ?_, ?_, ?_, ?_⟩
  · intro x y
    unfold Window.trySetPosition
    split <;> rfl
  · intro width height
    unfold Window.trySetSize
    split <;> rfl
  · intro focused
    unfold Window.trySetFocused
    split <;> rfl
  · intro within
    unfold Window.trySetCursorWithin
    split <;> rfl
  · intro x y
    unfold Window.trySetCursorPosition
    split
    · dsimp only
      split <;> rfl
    · rfl
  · intro minimized
    unfold Window.trySetMinimized
    split <;> rfl
  · intro maximized
    unfold Window.trySetMaximized
    split <;> rfl
  · intro k raw s
    unfold Window.tryAddKeyboardStateEvent
    split <;> rfl

/-! ## Event fan-out -/

/-- C6. `send(ev)` is a total function (the per-queue send is the non-blocking
`Chan.trySend`), it appends `ev` at the tail of exactly the registered queues
that have room and leaves every full or unregistered queue, and every other
field of the window, as it was. A queue made by `EventsBuffer` is registered
and a queue removed by `CloseEvents` is not: the first receives the event when
its capacity is positive, the second is left as it was. -/
theorem C6_send_fanout (w : Window) (ev : Event) :
    PublishedOnce w (w.send ev) ev ∧
    (w.send ev).nativeLog = w.nativeLog ∧
    (w.send ev).Keyboard = w.Keyboard ∧ (w.send ev).Mouse = w.Mouse ∧
    (w.send ev).Size = w.Size ∧ (w.send ev).Position = w.Position ∧
    (∀ (n : Int) (w1 : Window) (c : Nat), w.EventsBuffer n = some (w1, c) →
      w1.chans.get? c = some { cap := n.toNat, buf := [], registered := true } ∧
      (0 < n → (w1.send ev).chans.get? c =
        some { cap := n.toNat, buf := [ev], registered := true })) ∧
    (∀ (c : Nat) (ch : Chan), w.chans.get? c = some ch →
      ((w.CloseEvents c).send ev).chans.get? c = some { ch with registered := false }) := by
  refine ⟨send_publishedOnce w ev, rfl, rfl, rfl, rfl, rfl, ?_, ?_⟩
  · intro n w1 c h
    unfold Window.EventsBuffer at h
    split at h
    · exact absurd h (by simp)
    · rename_i hn
      simp only [Option.some.injEq, Prod.mk.injEq] at h
      obtain ⟨h1, h2⟩ := h
      have hget : w1.chans.get? c =
          some { cap := n.toNat, buf := [], registered := true } := by
        rw [← h1, ← h2]
        simp
      refine ⟨hget, fun hpos => ?_⟩
      rw [send_get? w1 ev c _ hget]
      have : 0 < n.toNat := by omega
      simp [this]
  · intro c ch h
    have hlt : c < w.chans.length := by
      rw [List.get?_eq_getElem?] at h
      exact (List.getElem?_eq_some_iff.mp h).1
    have hclosed : (w.CloseEvents c).chans.get? c = some { ch with registered := false } := by
      unfold Window.CloseEvents
      rw [h]
      by_cases hr : ch.registered = true
      · simp [hr, hlt]
      · have hf : ch.registered = false := by simpa using hr
        simp only [hf, Bool.false_eq_true, if_false]
        rw [h]
        cases ch
        simp_all
    rw [send_get? _ ev c _ hclosed]
    simp

/-- C6 on `sampleClosed`: a queue of capacity 1 made by `EventsBuffer(1)` gets
channel identity 1 and holds the event after one `send`. -/
theorem C6_send_witness :
    sampleClosed.EventsBuffer 1 =
      some ({ sampleClosed with chans := sampleClosed.chans ++
        [{ cap := 1, buf := [], registered := true }] }, 1) ∧
    (({ sampleClosed with chans := sampleClosed.chans ++
        [{ cap := 1, buf := [], registered := true }] } : Window).send
          (Event.CloseEvent 3)).chans.get? 1 =
      some { cap := (1 : Int).toNat, buf := [Event.CloseEvent 3], registered := true } :=
  ⟨rfl,
    (((C6_send_fanout sampleClosed (Event.CloseEvent 3)).2.2.2.2.2.2.1 1 _ 1 rfl).2
      (by decide))⟩

/-! ## Delivery order -/

theorem bufOf_send (w : Window) (ev : Event) (c : Nat) :
    ∃ e : List Event, bufOf (w.send ev) c = bufOf w c ++ e ∧ e.Sublist [ev] := by
  unfold bufOf
  cases h : w.chans.get? c with
  | none =>
    have hlen : w.chans.length ≤ c := by
      rw [List.get?_eq_getElem?] at h
      exact List.getElem?_eq_none_iff.mp h
    have h2 : (w.send ev).chans.get? c = none := by
      rw [List.get?_eq_getElem?]
      apply List.getElem?_eq_none_iff.mpr
      rw [send_chans_length]
      exact hlen
    rw [h2]
    exact ⟨[], by simp, by simp⟩
  | some ch =>
    rw [send_get? w ev c ch h]
    by_cases hc : ch.registered = true ∧ ch.buf.length < ch.cap
    · exact ⟨[ev], by simp [hc], List.Sublist.refl _⟩
    · exact ⟨[], by simp [hc], by simp⟩

theorem step_received (w : Window) (op : Op) (c : Nat) :
    ∃ e : List Event,
      readFrom c (step w op).2 ++ bufOf (step w op).1 c = bufOf w c ++ e ∧
      e.Sublist (published [op]) := by
  cases op with
  | send ev =>
    obtain ⟨e, he, hs⟩ := bufOf_send w ev c
    exact ⟨e, by simpa [step, readFrom] using he, by simpa [published] using hs⟩
  | recv c2 =>
    refine ⟨[], ?_, by simp [published]⟩
    simp only [step, Window.recv, List.append_nil]
    cases h : w.chans.get? c2 with
    | none => simp [readFrom]
    | some ch =>
      cases hb : ch.buf with
      | nil => simp [readFrom, hb]
      | cons ev rest =>
        have h2 := h
        rw [List.get?_eq_getElem?] at h2
        obtain ⟨hlt, hget⟩ := List.getElem?_eq_some_iff.mp h2
        by_cases hc : c2 = c
        · subst hc
          simp [readFrom, bufOf, h, hb, hlt, hget]
        · simp [readFrom, bufOf, hb, hc, List.getElem?_set_ne hc]
  | EventsBuffer n =>
    refine ⟨[], ?_, by simp [published]⟩
    simp only [step, Window.EventsBuffer, List.append_nil]
    have hn : ¬ ((n : Int) < 0) := by omega
    simp only [hn, if_false, readFrom, List.filter_nil, List.map_nil, List.nil_append, bufOf,
      List.get?_eq_getElem?]
    by_cases hlt : c < w.chans.length
    · rw [List.getElem?_append_left hlt]
    · have hge : w.chans.length ≤ c := Nat.le_of_not_lt hlt
      rw [List.getElem?_eq_none_iff.mpr hge]
      by_cases heq : c = w.chans.length
      · subst heq
        simp
      · rw [List.getElem?_eq_none_iff.mpr (by simp; omega)]
  | CloseEvents c2 =>
    refine ⟨[], ?_, by simp [published]⟩
    simp only [step, Window.CloseEvents, List.append_nil, readFrom, List.filter_nil,
      List.map_nil, List.nil_append]
    cases h : w.chans.get? c2 with
    | none => rfl
    | some ch =>
      by_cases hr : ch.registered = true
      · simp only [hr, if_true, bufOf, List.get?_eq_getElem?]
        have hlt : c2 < w.chans.length := by
          rw [List.get?_eq_getElem?] at h
          exact (List.getElem?_eq_some_iff.mp h).1
        by_cases hc : c2 = c
        · subst hc
          rw [List.get?_eq_getElem?] at h
          simp [h, hlt]
        · simp [List.getElem?_set_ne hc]
      · simp [hr]

theorem published_cons (op : Op) (ops : List Op) :
    published (op :: ops) = published [op] ++ published ops := by
  cases op <;> simp [published]

theorem run_received (ops : List Op) :
    ∀ (w : Window) (c : Nat),
      ∃ l : List Event, l.Sublist (published ops) ∧ receivedBy w ops c = bufOf w c ++ l := by
  induction ops with
  | nil =>
    intro w c
    exact ⟨[], by simp [published], by simp [receivedBy, run, readFrom]⟩
  | cons op rest ih =>
    intro w c
    obtain ⟨l, hl, hrec⟩ := ih (step w op).1 c
    obtain ⟨e, he, hes⟩ := step_received w op c
    refine ⟨e ++ l, ?_, ?_⟩
    · rw [published_cons]
      exact List.Sublist.append hes hl
    · have hsplit : receivedBy w (op :: rest) c =
          readFrom c (step w op).2 ++ receivedBy (step w op).1 rest c := by
        simp [receivedBy, run, readFrom]
      rw [hsplit, hrec, ← List.append_assoc, he, List.append_assoc]

/-- C7. For every sequence of publishes, consumer reads, subscriptions and
removals, and every subscriber queue: what the queue has received (the events
read from it followed by those still waiting in it) is what it held at the
start followed by a subsequence of the published sequence. No published event
is delivered to the same queue twice and delivered events keep the publish
order, whatever was dropped in between; a queue that starts empty (or does not
exist yet) receives a subsequence of the published events. -/
theorem C7_delivery_is_subsequence (w : Window) (ops : List Op) (c : Nat) :
    (∃ l : List Event, l.Sublist (published ops) ∧ receivedBy w ops c = bufOf w c ++ l) ∧
    (bufOf w c = [] → (receivedBy w ops c).Sublist (published ops)) := by
  refine ⟨run_received ops w c, fun h0 => ?_⟩
  obtain ⟨l, hl, hrec⟩ := run_received ops w c
  rw [hrec, h0]
  simpa using hl

/-- C7 on `sampleClosed`, whose queue of capacity 4 is empty: six publishes
with one read after the second, so that the last publish is dropped. -/
theorem C7_delivery_witness :
    bufOf sampleClosed 0 = [] ∧
    (receivedBy sampleClosed
      [Op.send (Event.CloseEvent 1), Op.send (Event.CloseEvent 2), Op.recv 0,
       Op.send (Event.CloseEvent 3), Op.send (Event.CloseEvent 4),
       Op.send (Event.CloseEvent 5), Op.send (Event.CloseEvent 6)] 0).Sublist
      (published
        [Op.send (Event.CloseEvent 1), Op.send (Event.CloseEvent 2), Op.recv 0,
         Op.send (Event.CloseEvent 3), Op.send (Event.CloseEvent 4),
         Op.send (Event.CloseEvent 5), Op.send (Event.CloseEvent 6)]) :=
  ⟨by decide, (C7_delivery_is_subsequence sampleClosed _ 0).2 (by decide)⟩

/-! ## Focus loss -/

/-- C8, the code at the failing input. On `sampleOpen` (nothing pressed, one
queue of capacity 4) the key press `tryAddKeyboardStateEvent(5, 77, Down)`
marks both key 5 and raw code 77 as Down, and `releaseDownedButtons` then
publishes two synthetic Up events for that one key: one from the loop over
`States()` (key 5, raw 0) and one from the loop over `RawStates()` (key 0 =
`Invalid`, raw 77). The same holds for every key and raw code pressed on a
window whose watcher is empty. -/
theorem C8_release_publishes_two_ups_per_key :
    ((sampleOpen.tryAddKeyboardStateEvent 1 5 77 KeyState.Down).releaseDownedButtons
        (fun i => i + 10)).chans =
      [{ cap := 4,
         buf := [Event.KeyboardStateEvent 1 5 77 KeyState.Down,
                 Event.KeyboardStateEvent 10 5 0 KeyState.Up,
                 Event.KeyboardStateEvent 11 0 77 KeyState.Up],
         registered := true }] ∧
    (sampleOpen.tryAddKeyboardStateEvent 1 5 77 KeyState.Down).Keyboard =
      { states := [(5, KeyState.Down)], rawStates := [(77, KeyState.Down)] } ∧
    (∀ (k : Key) (raw : Nat) (t : Time) (now : Nat → Time),
      ((sampleOpen.tryAddKeyboardStateEvent t k raw KeyState.Down).releaseDownedButtons
          now).chans =
        [{ cap := 4,
           buf := [Event.KeyboardStateEvent t k raw KeyState.Down,
                   Event.KeyboardStateEvent (now 0) k 0 KeyState.Up,
                   Event.KeyboardStateEvent (now 1) 0 raw KeyState.Up],
           registered := true }]) := by
  refine ⟨by decide, by decide, ?_⟩
  intro k raw t now
  have hk : sampleOpen.Keyboard = { states := [], rawStates := [] } := by decide
  have hch : sampleOpen.chans = [{ cap := 4, buf := [], registered := true }] := by decide
  have hm : sampleOpen.Mouse = { states := [] } := by decide
  simp [Window.tryAddKeyboardStateEvent, Window.releaseDownedButtons, Window.releaseKey,
    Window.releaseRaw, Window.releaseButton, Window.send, Chan.trySend,
    KeyboardWatcher.State, KeyboardWatcher.RawState, KeyboardWatcher.SetState,
    KeyboardWatcher.SetRawState, MouseWatcher.SetState, mapGet, mapSet, hk, hch, hm]

/-- C9, the code at the failing input. The X11 handler of a button press only
publishes the Down event: it leaves `w.Mouse` as it was, for every window and
every button. On `sampleOpen`, a press of button 1, 2 or 3 followed by a
focus-out therefore publishes the Down event and the `FocusedEvent`, and no
mouse event with state Up. -/
theorem C9_focus_out_publishes_no_button_up :
    (∀ (w : Window) (now : Nat → Time) (detail : Nat),
      (w.handleEvent now (XEvent.ButtonPress detail)).Mouse = w.Mouse) ∧
    ((sampleOpen.handleEvent (fun i => i) (XEvent.ButtonPress 1)).handleEvent
        (fun i => i + 10) XEvent.FocusOut).chans =
      [{ cap := 4,
         buf := [Event.MouseEvent 0 MouseButton.Left MouseState.Down,
                 Event.FocusedEvent false 10],
         registered := true }] ∧
    ((sampleOpen.handleEvent (fun i => i) (XEvent.ButtonPress 2)).handleEvent
        (fun i => i + 10) XEvent.FocusOut).chans =
      [{ cap := 4,
         buf := [Event.MouseEvent 0 MouseButton.Wheel MouseState.Down,
                 Event.FocusedEvent false 10],
         registered := true }] ∧
    ((sampleOpen.handleEvent (fun i => i) (XEvent.ButtonPress 3)).handleEvent
        (fun i => i + 10) XEvent.FocusOut).chans =
      [{ cap := 4,
         buf := [Event.MouseEvent 0 MouseButton.Right MouseState.Down,
                 Event.FocusedEvent false 10],
         registered := true }] := by
  refine ⟨?_, by decide, by decide, by decide⟩
  intro w now detail
  simp only [Window.handleEvent]
  split <;> rfl

/-! ## Cursor grab -/

theorem trySetCursorPosition_keeps_grab (w : Window) (now : Time) (x y : Int) :
    (w.trySetCursorPosition now x y).2.cursorGrabbed = w.cursorGrabbed ∧
    (w.trySetCursorPosition now x y).2.preGrabCursorX = w.preGrabCursorX ∧
    (w.trySetCursorPosition now x y).2.preGrabCursorY = w.preGrabCursorY := by
  unfold Window.trySetCursorPosition
  split
  · dsimp only
    split <;> exact ⟨rfl, rfl, rfl⟩
  · exact ⟨rfl, rfl, rfl⟩

theorem cursorMoves_keeps_grab (moves : List (Time × Int × Int)) :
    ∀ w : Window,
      (cursorMoves w moves).cursorGrabbed = w.cursorGrabbed ∧
      (cursorMoves w moves).preGrabCursorX = w.preGrabCursorX ∧
      (cursorMoves w moves).preGrabCursorY = w.preGrabCursorY := by
  induction moves with
  | nil => intro w; exact ⟨rfl, rfl, rfl⟩
  | cons m rest ih =>
    intro w
    have h1 := trySetCursorPosition_keeps_grab w m.1 m.2.1 m.2.2
    have h2 := ih (w.trySetCursorPosition m.1 m.2.1 m.2.2).2
    simp only [cursorMoves, List.foldl_cons] at h2 ⊢
    exact ⟨h2.1.trans h1.1, h2.2.1.trans h1.2.1, h2.2.2.trans h1.2.2⟩

/-- C10. On a window whose cursor is not grabbed, `SetCursorGrabbed(true)`,
then any sequence of native cursor-position updates, then
`SetCursorGrabbed(false)`: `CursorPosition()` returns the position the cursor
had when the grab was requested. -/
theorem C10_grab_release_restores_cursor (w : Window) (moves : List (Time × Int × Int))
    (hfree : w.cursorGrabbed = false) :
    ((cursorMoves (w.SetCursorGrabbed true) moves).SetCursorGrabbed false).CursorPosition =
      w.CursorPosition ∧
    ((cursorMoves (w.SetCursorGrabbed true) moves).SetCursorGrabbed false).CursorGrabbed =
      false := by
  have hinv := cursorMoves_keeps_grab moves (w.SetCursorGrabbed true)
  have hg : (w.SetCursorGrabbed true).cursorGrabbed = true ∧
      (w.SetCursorGrabbed true).preGrabCursorX = w.cursorX ∧
      (w.SetCursorGrabbed true).preGrabCursorY = w.cursorY := by
    cases ho : w.opened <;> cases hw : w.cursorWithin <;>
      simp [Window.SetCursorGrabbed, hfree, ho, hw]
  have h1 : (cursorMoves (w.SetCursorGrabbed true) moves).cursorGrabbed = true :=
    hinv.1.trans hg.1
  have h2 : (cursorMoves (w.SetCursorGrabbed true) moves).preGrabCursorX = w.cursorX :=
    hinv.2.1.trans hg.2.1
  have h3 : (cursorMoves (w.SetCursorGrabbed true) moves).preGrabCursorY = w.cursorY :=
    hinv.2.2.trans hg.2.2
  generalize cursorMoves (w.SetCursorGrabbed true) moves = v at h1 h2 h3
  cases ho : v.opened <;> cases hw : v.cursorWithin <;>
    simp [Window.SetCursorGrabbed, Window.CursorPosition, Window.CursorGrabbed, h1, h2, h3,
      ho, hw]

/-- C10 at `sampleOpen` (cursor at (0, 0), not grabbed), with two reported
positions during the grab. -/
theorem C10_grab_release_witness :
    sampleOpen.cursorGrabbed = false ∧
    ((cursorMoves (sampleOpen.SetCursorGrabbed true)
        [(1, 30, 40), (2, 55, 65)]).SetCursorGrabbed false).CursorPosition =
      sampleOpen.CursorPosition :=
  ⟨by decide, (C10_grab_release_restores_cursor sampleOpen _ (by decide)).1⟩

/-! ## Clamped size -/

/-- C11. On an open window with a minimum size (both dimensions positive) and
no maximum size, `SetSize(width, height)` with a size that differs from the
cached one passes to the native `setSize` a width of at least the minimum width
and a height of at least the minimum height, and `Size()` afterwards returns
exactly `(width, height)`. On `sampleOpen` (minimum 150 x 150), `SetSize(50, 50)`
applies 150 x 150 and `Size()` returns `(50, 50)`. -/
theorem C11_SetSize_applies_clamped_keeps_requested (w : Window) (width height : Int)
    (hopen : w.opened = true)
    (hminW : 0 < w.minWidth) (hminH : 0 < w.minHeight)
    (hnomax : ¬ (w.maxWidth ≠ 0 ∧ w.maxHeight ≠ 0))
    (hne : w.width ≠ width ∨ w.height ≠ height) :
    (∃ cw ch : Int,
      (w.SetSize width height).nativeLog = w.nativeLog ++ [NativeCall.setSize cw ch] ∧
      w.minWidth ≤ cw ∧ w.minHeight ≤ ch) ∧
    (w.SetSize width height).Size = (width, height) ∧
    (sampleOpen.SetSize 50 50).nativeLog = sampleOpen.nativeLog ++ [NativeCall.setSize 150 150] ∧
    (sampleOpen.SetSize 50 50).Size = (50, 50) := by
  have h1 : w.SetSize width height =
      { w with width := width, height := height,
               nativeLog := w.nativeLog ++
                 [NativeCall.setSize
                   ({ w with width := width, height := height } : Window).doClampedSize.1
                   ({ w with width := width, height := height } : Window).doClampedSize.2] } := by
    simp only [Window.SetSize, if_pos hne, hopen, if_true]
  have hmin : w.minWidth ≠ 0 ∧ w.minHeight ≠ 0 := ⟨by omega, by omega⟩
  refine ⟨⟨_, _, by rw [h1], ?_, ?_⟩, by rw [h1]; rfl, by decide, by decide⟩
  · simp only [Window.doClampedSize, hmin, hnomax, and_self, ne_eq, not_false_eq_true, if_true,
      if_false]
    split <;> split <;> omega
  · simp only [Window.doClampedSize, hmin, hnomax, and_self, ne_eq, not_false_eq_true, if_true,
      if_false]
    split <;> split <;> omega

/-- C11 at `sampleOpen` (minimum 150 x 150, maximum unset) with
`SetSize(50, 50)`. -/
theorem C11_SetSize_min_witness :
    sampleOpen.opened = true ∧ 0 < sampleOpen.minWidth ∧ 0 < sampleOpen.minHeight ∧
    ¬ (sampleOpen.maxWidth ≠ 0 ∧ sampleOpen.maxHeight ≠ 0) ∧
    (sampleOpen.width ≠ 50 ∨ sampleOpen.height ≠ 50) ∧
    (sampleOpen.SetSize 50 50).Size = (50, 50) :=
  ⟨by decide, by decide, by decide, by decide, by decide,
    (C11_SetSize_applies_clamped_keeps_requested sampleOpen 50 50 (by decide) (by decide)
      (by decide) (by decide) (by decide)).2.1⟩

/-- C13 as stated fails. With the default minimum 150 x 150 and
`SetMaximumSize(100, 100)`, the clamped size of the 640 x 480 window is
100 x 100, below the specified minimum; with `SetMaximumSize(-5, -5)` it is
-5 x -5, below 1. -/
theorem C13_doClampedSize_counterexample :
    ((Window.NewWindow.SetMaximumSize 100 100).minWidth ≠ 0 ∧
      (Window.NewWindow.SetMaximumSize 100 100).minHeight ≠ 0) ∧
    (Window.NewWindow.SetMaximumSize 100 100).doClampedSize = (100, 100) ∧
    ¬ ((Window.NewWindow.SetMaximumSize 100 100).minWidth ≤
        (Window.NewWindow.SetMaximumSize 100 100).doClampedSize.1) ∧
    (Window.NewWindow.SetMaximumSize (-5) (-5)).doClampedSize = (-5, -5) ∧
    ¬ (1 ≤ (Window.NewWindow.SetMaximumSize (-5) (-5)).doClampedSize.1) := by
  decide

/-- C13, amended. For every requested size and every minimum/maximum setting,
the clamped size computed by `doClampedSize` is not above the maximum size when
one is specified; it is at least 1 in each dimension when no maximum is
specified or the maximum is at least 1 x 1; and it is not below the minimum
size when one is specified and either no maximum is specified or the maximum is
not smaller than the minimum. -/
theorem C13_doClampedSize_bounds (w : Window) :
    (w.maxWidth ≠ 0 ∧ w.maxHeight ≠ 0 →
      w.doClampedSize.1 ≤ w.maxWidth ∧ w.doClampedSize.2 ≤ w.maxHeight) ∧
    (¬ (w.maxWidth ≠ 0 ∧ w.maxHeight ≠ 0) ∨ (1 ≤ w.maxWidth ∧ 1 ≤ w.maxHeight) →
      1 ≤ w.doClampedSize.1 ∧ 1 ≤ w.doClampedSize.2) ∧
    (w.minWidth ≠ 0 ∧ w.minHeight ≠ 0 →
      ¬ (w.maxWidth ≠ 0 ∧ w.maxHeight ≠ 0) ∨
        (w.minWidth ≤ w.maxWidth ∧ w.minHeight ≤ w.maxHeight) →
      w.minWidth ≤ w.doClampedSize.1 ∧ w.minHeight ≤ w.doClampedSize.2) := by
  refine ⟨?_, ?_, ?_⟩
  · intro hmax
    by_cases hmin : w.minWidth ≠ 0 ∧ w.minHeight ≠ 0
    · simp only [Window.doClampedSize, hmin, hmax, and_self, ne_eq, not_false_eq_true, if_true]
      constructor <;> (repeat' split) <;> omega
    · simp only [Window.doClampedSize, hmin, hmax, and_self, ne_eq, not_false_eq_true, if_true,
        if_false]
      constructor <;> (repeat' split) <;> omega
  · intro h
    by_cases hmin : w.minWidth ≠ 0 ∧ w.minHeight ≠ 0 <;>
      by_cases hmax : w.maxWidth ≠ 0 ∧ w.maxHeight ≠ 0 <;>
      simp only [Window.doClampedSize, hmin, hmax, and_self, ne_eq, not_false_eq_true, if_true,
        if_false] <;>
      constructor <;> (repeat' split) <;> omega
  · intro hmin h
    by_cases hmax : w.maxWidth ≠ 0 ∧ w.maxHeight ≠ 0 <;>
      simp only [Window.doClampedSize, hmin, hmax, and_self, ne_eq, not_false_eq_true, if_true,
        if_false] <;>
      constructor <;> (repeat' split) <;> omega

/-- C13 amended, at `NewWindow` with `SetMaximumSize(800, 600)` and
`SetSize(50, 2000)`: the clamped size is 150 x 600. -/
theorem C13_doClampedSize_witness :
    (((Window.NewWindow.SetMaximumSize 800 600).SetSize 50 2000).maxWidth ≠ 0 ∧
      ((Window.NewWindow.SetMaximumSize 800 600).SetSize 50 2000).maxHeight ≠ 0) ∧
    ((Window.NewWindow.SetMaximumSize 800 600).SetSize 50 2000).doClampedSize = (150, 600) ∧
    ((Window.NewWindow.SetMaximumSize 800 600).SetSize 50 2000).doClampedSize.1 ≤
      ((Window.NewWindow.SetMaximumSize 800 600).SetSize 50 2000).maxWidth :=
  ⟨by decide, by decide,
    ((C13_doClampedSize_bounds ((Window.NewWindow.SetMaximumSize 800 600).SetSize 50 2000)).1
      (by decide)).1⟩

/-! ## Size over reachable states -/

/-- C12 as stated fails: `SetSize(0, 0)` on the window made by `NewWindow` is
stored unclamped, and `Size()` then returns `(0, 0)`. -/
theorem C12_Size_counterexample :
    (reach Window.NewWindow [Action.SetSize 0 0]).Size = (0, 0) ∧
    ¬ (1 ≤ (reach Window.NewWindow [Action.SetSize 0 0]).Size.1) ∧
    ¬ (1 ≤ (reach Window.NewWindow [Action.SetSize 0 0]).Size.2) := by
  decide

theorem apply_keeps_sizeAtLeastOne (w : Window) (a : Action) (h : SizeAtLeastOne w)
    (ha : a.sizeAtLeastOne) : SizeAtLeastOne (a.apply w) := by
  obtain ⟨hw, hh, hf⟩ := h
  cases a with
  | SetIcon icon =>
    simp only [Action.apply, Window.SetIcon]
    split
    · try dsimp only
      split <;> exact ⟨hw, hh, hf⟩
    · exact ⟨hw, hh, hf⟩
  | SetTitle title =>
    simp only [Action.apply, Window.SetTitle]
    split
    · try dsimp only
      split <;> exact ⟨hw, hh, hf⟩
    · exact ⟨hw, hh, hf⟩
  | SetVisible visible =>
    simp only [Action.apply, Window.SetVisible]
    split
    · try dsimp only
      split <;> exact ⟨hw, hh, hf⟩
    · exact ⟨hw, hh, hf⟩
  | SetTransparent transparent =>
    simp only [Action.apply, Window.SetTransparent]
    split
    · try dsimp only
      split <;> exact ⟨hw, hh, hf⟩
    · exact ⟨hw, hh, hf⟩
  | SetDecorated decorated =>
    simp only [Action.apply, Window.SetDecorated]
    split
    · try dsimp only
      split <;> exact ⟨hw, hh, hf⟩
    · exact ⟨hw, hh, hf⟩
  | SetAlwaysOnTop alwaysOnTop =>
    simp only [Action.apply, Window.SetAlwaysOnTop]
    split
    · try dsimp only
      split <;> exact ⟨hw, hh, hf⟩
    · exact ⟨hw, hh, hf⟩
  | SetAspectRatio ratio =>
    simp only [Action.apply, Window.SetAspectRatio]
    split
    · try dsimp only
      split <;> exact ⟨hw, hh, hf⟩
    · exact ⟨hw, hh, hf⟩
  | SetSize width height =>
    simp only [Action.sizeAtLeastOne] at ha
    simp only [Action.apply, Window.SetSize]
    split
    · try dsimp only
      split <;> exact ⟨ha.1, ha.2, hf⟩
    · exact ⟨hw, hh, hf⟩
  | SetCursorGrabbed grabbed =>
    simp only [Action.apply, Window.SetCursorGrabbed]
    split
    · try dsimp only
      split <;> split <;> exact ⟨hw, hh, hf⟩
    · exact ⟨hw, hh, hf⟩
  | SetCursor cursor =>
    simp only [Action.apply, Window.SetCursor]
    split
    · try dsimp only
      split <;> exact ⟨hw, hh, hf⟩
    · exact ⟨hw, hh, hf⟩
  | SetFullscreen fullscreen =>
    simp only [Action.apply, Window.SetFullscreen]
    split
    · rename_i hne
      cases fullscreen with
      | true =>
        simp only [if_true]
        split <;> exact ⟨hw, hh, fun _ => ⟨hw, hh⟩⟩
      | false =>
        have hfs : w.fullscreen = true := by
          cases hb : w.fullscreen
          · exact absurd hb hne
          · rfl
        have hp := hf hfs
        simp only [Bool.false_eq_true, if_false]
        split <;> exact ⟨hp.1, hp.2, fun hc => absurd hc (by simp)⟩
    · exact ⟨hw, hh, hf⟩
  | SetMinimized minimized =>
    simp only [Action.apply, Window.SetMinimized]
    split
    · try dsimp only
      split <;> exact ⟨hw, hh, hf⟩
    · exact ⟨hw, hh, hf⟩
  | SetMaximized maximized =>
    simp only [Action.apply, Window.SetMaximized]
    split
    · try dsimp only
      split <;> exact ⟨hw, hh, hf⟩
    · exact ⟨hw, hh, hf⟩
  | SetCursorPosition x y =>
    simp only [Action.apply, Window.SetCursorPosition]
    split
    · try dsimp only
      split <;> exact ⟨hw, hh, hf⟩
    · exact ⟨hw, hh, hf⟩
  | SetMinimumSize width height =>
    simp only [Action.apply, Window.SetMinimumSize]
    split
    · try dsimp only
      split <;> exact ⟨hw, hh, hf⟩
    · exact ⟨hw, hh, hf⟩
  | SetMaximumSize width height =>
    simp only [Action.apply, Window.SetMaximumSize]
    split
    · try dsimp only
      split <;> exact ⟨hw, hh, hf⟩
    · exact ⟨hw, hh, hf⟩
  | SetPosition x y =>
    simp only [Action.apply, Window.SetPosition]
    split
    · try dsimp only
      split <;> exact ⟨hw, hh, hf⟩
    · exact ⟨hw, hh, hf⟩
  | trySetSize now width height =>
    simp only [Action.sizeAtLeastOne] at ha
    simp only [Action.apply, Window.trySetSize]
    split
    · exact ⟨ha.1, ha.2, hf⟩
    · exact ⟨hw, hh, hf⟩
  | trySetPosition now x y =>
    simp only [Action.apply, Window.trySetPosition]
    split <;> exact ⟨hw, hh, hf⟩
  | trySetFocused now focused =>
    simp only [Action.apply, Window.trySetFocused]
    split <;> exact ⟨hw, hh, hf⟩
  | trySetCursorWithin now within =>
    simp only [Action.apply, Window.trySetCursorWithin]
    split <;> exact ⟨hw, hh, hf⟩
  | trySetCursorPosition now x y =>
    simp only [Action.apply, Window.trySetCursorPosition]
    split
    · try dsimp only
      split <;> exact ⟨hw, hh, hf⟩
    · exact ⟨hw, hh, hf⟩
  | trySetMinimized now minimized =>
    simp only [Action.apply, Window.trySetMinimized]
    split <;> exact ⟨hw, hh, hf⟩
  | trySetMaximized now maximized =>
    simp only [Action.apply, Window.trySetMaximized]
    split <;> exact ⟨hw, hh, hf⟩
  | trySetExtents left right bottom top =>
    exact ⟨hw, hh, hf⟩
  | tryAddKeyboardStateEvent now k raw s =>
    simp only [Action.apply, Window.tryAddKeyboardStateEvent]
    split <;> exact ⟨hw, hh, hf⟩
  | Open screen native =>
    simp only [Action.apply, Window.Open]
    split
    · exact ⟨hw, hh, hf⟩
    · try dsimp only
      cases native <;> (try dsimp only) <;> split <;> exact ⟨hw, hh, hf⟩
  | Destroy now =>
    simp only [Action.apply, Window.Destroy]
    split <;> exact ⟨hw, hh, hf⟩

theorem reach_keeps_sizeAtLeastOne (actions : List Action) :
    ∀ w : Window, SizeAtLeastOne w → (∀ a ∈ actions, a.sizeAtLeastOne) →
      SizeAtLeastOne (reach w actions) := by
  induction actions with
  | nil => intro w h _; exact h
  | cons a rest ih =>
    intro w h hall
    have h1 := apply_keeps_sizeAtLeastOne w a h (hall a (List.mem_cons_self _ _))
    exact ih (a.apply w) h1 (fun b hb => hall b (List.mem_cons_of_mem _ hb))

/-- C12, amended. `Size()` returns the cached size unclamped. In every window
state reached from `NewWindow` through the public setters, the native-driven
updates, `Open` and `Destroy`, `Size()` returns a width and a height of at least
1 provided that every `SetSize` and `trySetSize` call on the way was given a
width and a height of at least 1. -/
theorem C12_Size_at_least_one_when_requested (actions : List Action)
    (hall : ∀ a ∈ actions, a.sizeAtLeastOne) :
    1 ≤ (reach Window.NewWindow actions).Size.1 ∧
    1 ≤ (reach Window.NewWindow actions).Size.2 := by
  have h0 : SizeAtLeastOne Window.NewWindow :=
    ⟨by decide, by decide, fun h => absurd h (by decide)⟩
  have h := reach_keeps_sizeAtLeastOne actions Window.NewWindow h0 hall
  exact ⟨h.1, h.2.1⟩

/-- C12 amended, on a run that resizes, enters and leaves fullscreen. -/
theorem C12_Size_witness :
    (∀ a ∈ [Action.SetSize 800 600, Action.SetFullscreen true, Action.trySetSize 3 1920 1080,
        Action.SetFullscreen false], a.sizeAtLeastOne) ∧
    1 ≤ (reach Window.NewWindow
      [Action.SetSize 800 600, Action.SetFullscreen true, Action.trySetSize 3 1920 1080,
        Action.SetFullscreen false]).Size.1 ∧
    (reach Window.NewWindow
      [Action.SetSize 800 600, Action.SetFullscreen true, Action.trySetSize 3 1920 1080,
        Action.SetFullscreen false]).Size = (800, 600) :=
  ⟨by simp [Action.sizeAtLeastOne],
    (C12_Size_at_least_one_when_requested _ (by simp [Action.sizeAtLeastOne])).1,
    by decide⟩

/-! ## Lifecycle -/

theorem lifecycle_apply_not_both (w : Window) (op : LifecycleOp)
    (h : ¬ (w.opened = true ∧ w.destroyed = true)) :
    ¬ ((op.apply w).opened = true ∧ (op.apply w).destroyed = true) := by
  cases op with
  | Open screen native =>
    simp only [LifecycleOp.apply, Window.Open]
    split
    · exact h
    · try dsimp only
      cases native with
      | none =>
        try dsimp only
        cases hd : w.destroyed
        · simp [hd]
        · simp
      | some nw =>
        try dsimp only
        cases hd : w.destroyed
        · simp [hd]
        · simp
  | Destroy now =>
    simp only [LifecycleOp.apply, Window.Destroy]
    split
    · exact h
    · simp [Window.send]

theorem lifecycle_not_both (ops : List LifecycleOp) :
    ∀ w : Window, ¬ (w.opened = true ∧ w.destroyed = true) →
      ¬ ((lifecycle w ops).opened = true ∧ (lifecycle w ops).destroyed = true) := by
  induction ops with
  | nil => intro w h; exact h
  | cons op rest ih =>
    intro w h
    exact ih (op.apply w) (lifecycle_apply_not_both w op h)

/-- C14. Starting from `NewWindow`, after every sequence of `Open` calls
(whether the native open succeeds or fails) and `Destroy` calls, the window is
never both opened and destroyed: whenever `Destroyed()` is true, `Opened()` is
false. -/
theorem C14_destroyed_implies_not_opened (ops : List LifecycleOp) :
    (lifecycle Window.NewWindow ops).Destroyed = true →
      (lifecycle Window.NewWindow ops).Opened = false := by
  intro hd
  have h := lifecycle_not_both ops Window.NewWindow (by decide)
  simp only [Window.Destroyed, Window.Opened] at hd ⊢
  cases ho : (lifecycle Window.NewWindow ops).opened
  · rfl
  · exact absurd ⟨ho, hd⟩ h

/-- C14 on a run that opens the window and destroys it. -/
theorem C14_destroyed_witness :
    (lifecycle Window.NewWindow
      [LifecycleOp.Open (some 0) (some sampleNative), LifecycleOp.Destroy 5]).Destroyed = true ∧
    (lifecycle Window.NewWindow
      [LifecycleOp.Open (some 0) (some sampleNative), LifecycleOp.Destroy 5]).Opened = false :=
  ⟨by decide, C14_destroyed_implies_not_opened _ (by decide)⟩

/-! ## Process lifecycle -/

/-- C15 as stated fails. After `Init()` and `Exit()` the library is not
initialized and the dispatcher queue holds the stop entry; a second `Exit()`
returns with a second stop entry appended, so the queue is not the one from
before the call. -/
theorem C15_Exit_uninitialized_counterexample :
    sampleInit.Exit =
      Outcome.returned
        { destroyCallbacks := [], isInit := false, initError := none,
          mainLoopFrames := some [Frame.stop],
          effects := [Effect.backendInit, Effect.backendDestroy] } ∧
    ({ destroyCallbacks := [], isInit := false, initError := none,
       mainLoopFrames := some [Frame.stop],
       effects := [Effect.backendInit, Effect.backendDestroy] } : Global).Exit =
      Outcome.returned
        { destroyCallbacks := [], isInit := false, initError := none,
          mainLoopFrames := some [Frame.stop, Frame.stop],
          effects := [Effect.backendInit, Effect.backendDestroy] } ∧
    ({ destroyCallbacks := [], isInit := false, initError := none,
       mainLoopFrames := some [Frame.stop],
       effects := [Effect.backendInit, Effect.backendDestroy] } : Global).Exit ≠
      Outcome.returned
        { destroyCallbacks := [], isInit := false, initError := none,
          mainLoopFrames := some [Frame.stop],
          effects := [Effect.backendInit, Effect.backendDestroy] } := by
  decide

/-- C15, amended. When the library is not initialized and the dispatcher queue
exists and has room, `Exit()` runs no destroy callback, does not tear down the
backend and leaves the lifecycle flags and the callback list as they were, but
it appends one stop entry to the dispatcher queue; calling it again appends a
further stop entry while there is room. -/
theorem C15_Exit_uninitialized_appends_stop (g : Global) (q : List Frame)
    (hinit : g.isInit = false) (hq : g.mainLoopFrames = some q)
    (hroom : q.length < mainLoopFramesCap) :
    g.Exit = Outcome.returned { g with mainLoopFrames := some (q ++ [Frame.stop]) } ∧
    (q.length + 1 < mainLoopFramesCap →
      ({ g with mainLoopFrames := some (q ++ [Frame.stop]) } : Global).Exit =
        Outcome.returned { g with mainLoopFrames := some (q ++ [Frame.stop, Frame.stop]) }) := by
  constructor
  · simp [Global.Exit, Global.sendFrame, hinit, hq, hroom]
  · intro h2
    simp [Global.Exit, Global.sendFrame, hinit, h2]

/-- C15 amended, on the state left by a failed `Init()`. -/
theorem C15_Exit_uninitialized_witness :
    (Global.start.Init (some 9)).1.isInit = false ∧
    (Global.start.Init (some 9)).1.mainLoopFrames = some [] ∧
    (Global.start.Init (some 9)).1.Exit =
      Outcome.returned
        { destroyCallbacks := [], isInit := false, initError := some 9,
          mainLoopFrames := some [Frame.stop], effects := [Effect.backendInit] } :=
  ⟨by decide, by decide,
    (C15_Exit_uninitialized_appends_stop (Global.start.Init (some 9)).1 [] (by decide)
      (by decide) (by decide)).1⟩

theorem addDestroyCallback_nodup (g : Global) (c : CallbackRef)
    (h : g.destroyCallbacks.Nodup) : (g.addDestroyCallback c).destroyCallbacks.Nodup := by
  simp only [Global.addDestroyCallback, Global.removeDestroyCallback]
  rw [List.nodup_append]
  refine ⟨h.erase c, List.nodup_singleton c, ?_⟩
  intro a ha hc
  rw [List.mem_singleton] at hc
  subst hc
  exact ((List.Nodup.mem_erase_iff h).mp ha).1 rfl

theorem registerAll_nodup (ops : List CallbackOp) :
    ∀ g : Global, g.destroyCallbacks.Nodup → (registerAll g ops).destroyCallbacks.Nodup := by
  induction ops with
  | nil => intro g h; exact h
  | cons op rest ih =>
    intro g h
    apply ih
    cases op with
    | add c => exact addDestroyCallback_nodup g c h
    | remove c => exact h.erase c

theorem registerAll_adds (cs : List CallbackRef) :
    ∀ g : Global, (g.destroyCallbacks ++ cs).Nodup →
      (registerAll g (cs.map CallbackOp.add)).destroyCallbacks = g.destroyCallbacks ++ cs := by
  induction cs with
  | nil => intro g _; simp [registerAll]
  | cons c rest ih =>
    intro g h
    have hc : c ∉ g.destroyCallbacks := by
      intro hm
      have := List.nodup_append.mp h
      exact this.2.2 hm (List.mem_cons_self _ _) 
    have h1 : (g.addDestroyCallback c).destroyCallbacks = g.destroyCallbacks ++ [c] := by
      simp [Global.addDestroyCallback, Global.removeDestroyCallback,
        List.erase_of_not_mem hc]
    have h2 := ih (g.addDestroyCallback c) (by rw [h1]; simpa using h)
    simp only [registerAll, List.map_cons, List.foldl_cons, CallbackOp.apply] at h2 ⊢
    rw [h2, h1]
    simp

/-- C16. When the library is initialized and the dispatcher queue has room,
`Exit()` invokes every registered destroy callback once, in the order of the
callback list, then tears down the backend, then appends one stop entry to the
dispatcher queue; afterwards `IsInit()` is false and the callback list is
empty. The callback list never holds a callback twice, and after registering
distinct callbacks with `addDestroyCallback` it holds them in registration
order. When the queue is full the call has done all of this except the append,
on which it is parked. -/
theorem C16_Exit_runs_callbacks_in_order (g : Global) (q : List Frame)
    (hinit : g.isInit = true) (hq : g.mainLoopFrames = some q) :
    (q.length < mainLoopFramesCap →
      g.Exit = Outcome.returned
        { destroyCallbacks := [], isInit := false, initError := none,
          mainLoopFrames := some (q ++ [Frame.stop]),
          effects := g.effects ++ g.destroyCallbacks.map Effect.callback ++
            [Effect.backendDestroy] }) ∧
    (¬ q.length < mainLoopFramesCap →
      g.Exit = Outcome.blocked
        { destroyCallbacks := [], isInit := false, initError := none,
          mainLoopFrames := some q,
          effects := g.effects ++ g.destroyCallbacks.map Effect.callback ++
            [Effect.backendDestroy] }) ∧
    (∀ ops : List CallbackOp,
      (registerAll { g with destroyCallbacks := [] } ops).destroyCallbacks.Nodup) ∧
    (∀ cs : List CallbackRef, cs.Nodup →
      (registerAll { g with destroyCallbacks := [] }
        (cs.map CallbackOp.add)).destroyCallbacks = cs) := by
  refine ⟨?_, ?_, ?_, ?_⟩
  · intro hroom
    simp [Global.Exit, Global.sendFrame, hinit, hq, hroom]
  · intro hfull
    simp [Global.Exit, Global.sendFrame, hinit, hq, hfull]
  · intro ops
    exact registerAll_nodup ops _ List.nodup_nil
  · intro cs hcs
    have h := registerAll_adds cs { g with destroyCallbacks := [] } (by simpa using hcs)
    simpa using h

/-- C16 on `sampleInit` with the callbacks 3, 5 and 8 registered in this
order. -/
theorem C16_Exit_witness :
    (registerAll sampleInit (([3, 5, 8] : List CallbackRef).map CallbackOp.add)).isInit = true ∧
    (registerAll sampleInit (([3, 5, 8] : List CallbackRef).map CallbackOp.add)).Exit =
      Outcome.returned
        { destroyCallbacks := [], isInit := false, initError := none,
          mainLoopFrames := some [Frame.stop],
          effects := [Effect.backendInit, Effect.callback 3, Effect.callback 5,
            Effect.callback 8, Effect.backendDestroy] } :=
  ⟨by decide,
    (C16_Exit_runs_callbacks_in_order
      (registerAll sampleInit (([3, 5, 8] : List CallbackRef).map CallbackOp.add)) []
      (by decide) (by decide)).1 (by decide)⟩

/-- C17 as stated fails. On program start, an `Init()` whose backend
initialization fails with error 9 returns that error and leaves `IsInit()`
false, but the state is not the one from before the call: the error is recorded
in `initError` and the nil dispatcher queue has been replaced by a new one. -/
theorem C17_Init_failure_counterexample :
    Global.start.Init (some 9) =
      ({ destroyCallbacks := [], isInit := false, initError := some 9,
         mainLoopFrames := some [], effects := [Effect.backendInit] }, some 9) ∧
    (Global.start.Init (some 9)).1.initError ≠ Global.start.initError ∧
    (Global.start.Init (some 9)).1.mainLoopFrames ≠ Global.start.mainLoopFrames := by
  decide

/-- C17, amended. If backend initialization fails, `Init()` returns that error,
`IsInit()` stays false and the destroy callbacks are as before, so that a later
`Init()` runs backend initialization again (and succeeds when the backend
does); the failed call has recorded the error in `initError` and replaced the
dispatcher queue by a new, empty one. -/
theorem C17_Init_failure_keeps_uninitialized (g : Global) (err : ErrorRef)
    (hinit : g.isInit = false) :
    (g.Init (some err)).2 = some err ∧
    (g.Init (some err)).1.IsInit = false ∧
    (g.Init (some err)).1.destroyCallbacks = g.destroyCallbacks ∧
    (g.Init (some err)).1.initError = some err ∧
    (g.Init (some err)).1.mainLoopFrames = some [] ∧
    (g.Init (some err)).1.effects = g.effects ++ [Effect.backendInit] ∧
    (∀ backend : Option ErrorRef,
      ((g.Init (some err)).1.Init backend).1.effects =
        g.effects ++ [Effect.backendInit, Effect.backendInit] ∧
      ((g.Init (some err)).1.Init backend).2 = backend) ∧
    ((g.Init (some err)).1.Init none).1.IsInit = true := by
  refine ⟨?_, ?_, ?_, ?_, ?_, ?_, ?_, ?_⟩ <;>
    first
    | (intro backend; cases backend <;> simp [Global.Init, Global.IsInit, hinit])
    | simp [Global.Init, Global.IsInit, hinit]

/-- C17 amended, on program start with the backend failing with error 9. -/
theorem C17_Init_failure_witness :
    Global.start.isInit = false ∧
    (Global.start.Init (some 9)).2 = some 9 ∧
    (Global.start.Init (some 9)).1.IsInit = false :=
  ⟨by decide, (C17_Init_failure_keeps_uninitialized Global.start 9 (by decide)).1,
    (C17_Init_failure_keeps_uninitialized Global.start 9 (by decide)).2.1⟩

/-! ## The main loop -/

theorem runFrames_until_false (pre : List Frame) :
    ∀ (g : Global) (e : Frame) (post : List Frame),
      (∀ f ∈ pre, f.result = true) → e.result = false →
      Global.runFrames g (pre ++ e :: post) =
        Outcome.returned { g with effects := g.effects ++ (pre ++ [e]).map Effect.frame,
                                  mainLoopFrames := some post } := by
  induction pre with
  | nil =>
    intro g e post _ he
    simp [Global.runFrames, he]
  | cons f rest ih =>
    intro g e post hpre he
    have hf : f.result = true := hpre f (List.mem_cons_self _ _)
    have hrest : ∀ x ∈ rest, x.result = true := fun x hx => hpre x (List.mem_cons_of_mem _ hx)
    rw [List.cons_append, Global.runFrames]
    simp only [hf, if_true]
    rw [ih _ e post hrest he]
    simp

theorem runFrames_all_true (q : List Frame) :
    ∀ g : Global, (∀ f ∈ q, f.result = true) →
      Global.runFrames g q =
        Outcome.blocked { g with effects := g.effects ++ q.map Effect.frame,
                                 mainLoopFrames := some [] } := by
  induction q with
  | nil =>
    intro g _
    simp [Global.runFrames]
  | cons f rest ih =>
    intro g hq
    have hf : f.result = true := hq f (List.mem_cons_self _ _)
    have hrest : ∀ x ∈ rest, x.result = true := fun x hx => hq x (List.mem_cons_of_mem _ hx)
    rw [Global.runFrames]
    simp only [hf, if_true]
    rw [ih _ hrest]
    simp

/-- C18. With the library initialized, `MainLoop()` runs the entries of the
dispatcher queue from the head, one after the other, and returns right after
the first entry that returns false, leaving the entries queued behind it in the
queue, not run; while every entry run so far returned true it does not return:
with only such entries in the queue it runs them all and parks on the empty
queue. -/
theorem C18_MainLoop_fifo_until_false (g : Global) (hinit : g.isInit = true) :
    (∀ (pre : List Frame) (e : Frame) (post : List Frame),
      g.mainLoopFrames = some (pre ++ e :: post) →
      (∀ f ∈ pre, f.result = true) → e.result = false →
      g.MainLoop =
        Outcome.returned { g with effects := g.effects ++ (pre ++ [e]).map Effect.frame,
                                  mainLoopFrames := some post }) ∧
    (∀ q : List Frame, g.mainLoopFrames = some q → (∀ f ∈ q, f.result = true) →
      g.MainLoop =
        Outcome.blocked { g with effects := g.effects ++ q.map Effect.frame,
                                 mainLoopFrames := some [] }) := by
  have hn : (!g.IsInit) = false := by simp [Global.IsInit, hinit]
  constructor
  · intro pre e post hq hpre he
    unfold Global.MainLoop
    rw [hn, hq]
    simp only [Bool.false_eq_true, if_false]
    exact runFrames_until_false pre g e post hpre he
  · intro q hq hall
    unfold Global.MainLoop
    rw [hn, hq]
    simp only [Bool.false_eq_true, if_false]
    exact runFrames_all_true q g hall

/-- C18 on `sampleLoop`, whose queue holds two entries returning true, the
stop entry and one more entry. -/
theorem C18_MainLoop_witness :
    sampleLoop.isInit = true ∧
    sampleLoop.MainLoop =
      Outcome.returned
        { destroyCallbacks := [], isInit := true, initError := none,
          mainLoopFrames := some [Frame.call 3 true],
          effects := [Effect.backendInit, Effect.frame (Frame.call 1 true),
            Effect.frame (Frame.call 2 true), Effect.frame Frame.stop] } :=
  ⟨by decide,
    (C18_MainLoop_fifo_until_false sampleLoop (by decide)).1
      [Frame.call 1 true, Frame.call 2 true] Frame.stop [Frame.call 3 true] rfl
      (by decide) (by decide)⟩

/-! ## Dispatch order -/

theorem step_idle_caller (total k : Nat) (h : k < total) :
    (Dispatcher.atStage total k Stage.idle).step Thread.caller =
      some (Dispatcher.atStage total k Stage.queued) := by
  simp [Dispatcher.atStage, Dispatcher.step, h, mainLoopFramesCap]

theorem step_idle_caller_last (total k : Nat) (h : ¬ k < total) :
    (Dispatcher.atStage total k Stage.idle).step Thread.caller = none := by
  simp [Dispatcher.atStage, Dispatcher.step, h]

theorem step_idle_mainLoop (total k : Nat) :
    (Dispatcher.atStage total k Stage.idle).step Thread.mainLoop = none := by
  simp [Dispatcher.atStage, Dispatcher.step]

theorem step_queued_caller (total k : Nat) :
    (Dispatcher.atStage total k Stage.queued).step Thread.caller = none := by
  simp [Dispatcher.atStage, Dispatcher.step]

theorem step_queued_mainLoop (total k : Nat) :
    (Dispatcher.atStage total k Stage.queued).step Thread.mainLoop =
      some (Dispatcher.atStage total k Stage.running) := by
  simp [Dispatcher.atStage, Dispatcher.step, List.range_succ]

theorem step_running_caller (total k : Nat) :
    (Dispatcher.atStage total k Stage.running).step Thread.caller = none := by
  simp [Dispatcher.atStage, Dispatcher.step]

theorem step_running_mainLoop (total k : Nat) :
    (Dispatcher.atStage total k Stage.running).step Thread.mainLoop =
      some (Dispatcher.atStage total k Stage.signalling) := by
  simp [Dispatcher.atStage, Dispatcher.step, List.range_succ]

theorem step_signalling_caller (total k : Nat) :
    (Dispatcher.atStage total k Stage.signalling).step Thread.caller = none := by
  simp [Dispatcher.atStage, Dispatcher.step]

theorem step_signalling_mainLoop (total k : Nat) :
    (Dispatcher.atStage total k Stage.signalling).step Thread.mainLoop =
      some (Dispatcher.atStage total k Stage.signalled) := by
  simp [Dispatcher.atStage, Dispatcher.step]

theorem step_signalled_caller (total k : Nat) (h : k < total) :
    (Dispatcher.atStage total k Stage.signalled).step Thread.caller =
      some (Dispatcher.atStage total (k + 1) Stage.idle) := by
  simp [Dispatcher.atStage, Dispatcher.step, h, List.range_succ]

theorem step_signalled_mainLoop (total k : Nat) :
    (Dispatcher.atStage total k Stage.signalled).step Thread.mainLoop = none := by
  simp [Dispatcher.atStage, Dispatcher.step]

theorem step_stays_atStage (total k : Nat) (stage : Stage) (t : Thread)
    (hv : Dispatcher.validStage total k stage) :
    ∃ (k2 : Nat) (stage2 : Stage), Dispatcher.validStage total k2 stage2 ∧
      ((Dispatcher.atStage total k stage).step t).getD (Dispatcher.atStage total k stage) =
        Dispatcher.atStage total k2 stage2 := by
  obtain ⟨hle, hlt⟩ := hv
  cases stage with
  | idle =>
    cases t with
    | caller =>
      by_cases h : k < total
      · exact ⟨k, Stage.queued, ⟨hle, fun _ => h⟩, by rw [step_idle_caller total k h]; rfl⟩
      · exact ⟨k, Stage.idle, ⟨hle, fun hc => absurd rfl hc⟩,
          by rw [step_idle_caller_last total k h]; rfl⟩
    | mainLoop =>
      exact ⟨k, Stage.idle, ⟨hle, fun hc => absurd rfl hc⟩, by rw [step_idle_mainLoop]; rfl⟩
  | queued =>
    have h : k < total := hlt (by decide)
    cases t with
    | caller => exact ⟨k, Stage.queued, ⟨hle, fun _ => h⟩, by rw [step_queued_caller]; rfl⟩
    | mainLoop => exact ⟨k, Stage.running, ⟨hle, fun _ => h⟩, by rw [step_queued_mainLoop]; rfl⟩
  | running =>
    have h : k < total := hlt (by decide)
    cases t with
    | caller => exact ⟨k, Stage.running, ⟨hle, fun _ => h⟩, by rw [step_running_caller]; rfl⟩
    | mainLoop =>
      exact ⟨k, Stage.signalling, ⟨hle, fun _ => h⟩, by rw [step_running_mainLoop]; rfl⟩
  | signalling =>
    have h : k < total := hlt (by decide)
    cases t with
    | caller =>
      exact ⟨k, Stage.signalling, ⟨hle, fun _ => h⟩, by rw [step_signalling_caller]; rfl⟩
    | mainLoop =>
      exact ⟨k, Stage.signalled, ⟨hle, fun _ => h⟩, by rw [step_signalling_mainLoop]; rfl⟩
  | signalled =>
    have h : k < total := hlt (by decide)
    cases t with
    | caller =>
      exact ⟨k + 1, Stage.idle, ⟨h, fun hc => absurd rfl hc⟩,
        by rw [step_signalled_caller total k h]; rfl⟩
    | mainLoop =>
      exact ⟨k, Stage.signalled, ⟨hle, fun _ => h⟩, by rw [step_signalled_mainLoop]; rfl⟩

theorem run_stays_atStage (schedule : List Thread) :
    ∀ (total k : Nat) (stage : Stage), Dispatcher.validStage total k stage →
      ∃ (k2 : Nat) (stage2 : Stage), Dispatcher.validStage total k2 stage2 ∧
        (Dispatcher.atStage total k stage).run schedule = Dispatcher.atStage total k2 stage2 := by
  induction schedule with
  | nil => intro total k stage hv; exact ⟨k, stage, hv, rfl⟩
  | cons t rest ih =>
    intro total k stage hv
    obtain ⟨k1, stage1, hv1, h1⟩ := step_stays_atStage total k stage t hv
    obtain ⟨k2, stage2, hv2, h2⟩ := ih total k1 stage1 hv1
    refine ⟨k2, stage2, hv2, ?_⟩
    simp only [Dispatcher.run, List.foldl_cons] at h2 ⊢
    rw [h1]
    exact h2

theorem run_append (s : Dispatcher) (a b : List Thread) :
    s.run (a ++ b) = (s.run a).run b := by
  simp [Dispatcher.run, List.foldl_append]

theorem run_oneDispatch (total k : Nat) (h : k < total) :
    (Dispatcher.atStage total k Stage.idle).run oneDispatch =
      Dispatcher.atStage total (k + 1) Stage.idle := by
  simp only [Dispatcher.run, oneDispatch, List.foldl_cons, List.foldl_nil]
  rw [step_idle_caller total k h, Option.getD_some, step_queued_mainLoop, Option.getD_some,
    step_running_mainLoop, Option.getD_some, step_signalling_mainLoop, Option.getD_some,
    step_signalled_caller total k h, Option.getD_some]

theorem run_dispatches (total : Nat) :
    ∀ n : Nat, n ≤ total →
      (Dispatcher.init total).run (dispatches n) = Dispatcher.atStage total n Stage.idle := by
  intro n
  induction n with
  | zero => intro _; rfl
  | succ m ih =>
    intro h
    rw [dispatches, run_append, ih (by omega), run_oneDispatch total m (by omega)]

/-- C19. One goroutine calls `dispatch` `total` times in a row while the main
loop runs, under any interleaving of the two threads. At every moment the
closures the main loop has started, and those it has finished, are the first
ones in call order (closure 0, 1, 2, ...: same order, each once); the calls
that have returned are the first ones too, every returned call's closure has
finished, and no closure of a later call has started before the call in
progress returns. While a call is left, one of the two threads can move, and
the schedule that gives each thread its turn lets all `total` calls return
with all closures run in order. -/
theorem C19_dispatch_order (total : Nat) (schedule : List Thread) :
    ((Dispatcher.init total).run schedule).started =
      List.range ((Dispatcher.init total).run schedule).started.length ∧
    ((Dispatcher.init total).run schedule).finished =
      List.range ((Dispatcher.init total).run schedule).finished.length ∧
    ((Dispatcher.init total).run schedule).returned =
      List.range ((Dispatcher.init total).run schedule).returned.length ∧
    ((Dispatcher.init total).run schedule).returned.length ≤
      ((Dispatcher.init total).run schedule).finished.length ∧
    ((Dispatcher.init total).run schedule).started.length ≤
      ((Dispatcher.init total).run schedule).returned.length + 1 ∧
    ((Dispatcher.init total).run schedule).started.length ≤ total ∧
    (((Dispatcher.init total).run schedule).returned.length < total →
      ∃ t : Thread, ((Dispatcher.init total).run schedule).step t ≠ none) ∧
    ((Dispatcher.init total).run (dispatches total)).returned = List.range total ∧
    ((Dispatcher.init total).run (dispatches total)).finished = List.range total := by
  have h0 : Dispatcher.init total = Dispatcher.atStage total 0 Stage.idle := rfl
  obtain ⟨k, stage, hv, hs⟩ :=
    run_stays_atStage schedule total 0 Stage.idle ⟨Nat.zero_le _, fun hc => absurd rfl hc⟩
  rw [← h0] at hs
  have hfin := run_dispatches total total (Nat.le_refl _)
  rw [hs, hfin]
  obtain ⟨hle, hlt⟩ := hv
  cases stage with
  | idle =>
    refine ⟨?_, ?_, ?_, ?_, ?_, ?_, ?_, ?_, ?_⟩ <;>
      simp only [Dispatcher.atStage, List.length_range] <;> try omega
    intro h
    exact ⟨Thread.caller, by simp [Dispatcher.step, mainLoopFramesCap, h]⟩
  | queued =>
    have h : k < total := hlt (by decide)
    refine ⟨?_, ?_, ?_, ?_, ?_, ?_, ?_, ?_, ?_⟩ <;>
      simp only [Dispatcher.atStage, List.length_range] <;> try omega
    intro _
    exact ⟨Thread.mainLoop, by simp [Dispatcher.step, mainLoopFramesCap, h]⟩
  | running =>
    have h : k < total := hlt (by decide)
    refine ⟨?_, ?_, ?_, ?_, ?_, ?_, ?_, ?_, ?_⟩ <;>
      simp only [Dispatcher.atStage, List.length_range] <;> try omega
    intro _
    exact ⟨Thread.mainLoop, by simp [Dispatcher.step, mainLoopFramesCap, h]⟩
  | signalling =>
    have h : k < total := hlt (by decide)
    refine ⟨?_, ?_, ?_, ?_, ?_, ?_, ?_, ?_, ?_⟩ <;>
      simp only [Dispatcher.atStage, List.length_range] <;> try omega
    intro _
    exact ⟨Thread.mainLoop, by simp [Dispatcher.step, mainLoopFramesCap, h]⟩
  | signalled =>
    have h : k < total := hlt (by decide)
    refine ⟨?_, ?_, ?_, ?_, ?_, ?_, ?_, ?_, ?_⟩ <;>
      simp only [Dispatcher.atStage, List.length_range] <;> try omega
    intro _
    exact ⟨Thread.caller, by simp [Dispatcher.step, mainLoopFramesCap, h]⟩

/-- C19 with two calls, on a schedule that gives the main loop and the caller
extra turns: the first call has returned, the second is queued. -/
theorem C19_dispatch_witness :
    ((Dispatcher.init 2).run
      [Thread.mainLoop, Thread.caller, Thread.caller, Thread.mainLoop, Thread.caller,
        Thread.mainLoop, Thread.mainLoop, Thread.caller, Thread.caller]).returned.length < 2 ∧
    (∃ t : Thread, ((Dispatcher.init 2).run
      [Thread.mainLoop, Thread.caller, Thread.caller, Thread.mainLoop, Thread.caller,
        Thread.mainLoop, Thread.mainLoop, Thread.caller, Thread.caller]).step t ≠ none) :=
  ⟨by decide, (C19_dispatch_order 2 _).2.2.2.2.2.2.1 (by decide)⟩

/-! ## Cached frame extents -/

theorem goCopy_length (dst src : List Int) : (goCopy dst src).length = dst.length := by
  simp only [goCopy, List.length_append, List.length_take, List.length_drop]
  omega

theorem goCopy_nil (src : List Int) : goCopy [] src = [] := by
  simp [goCopy]

theorem fetchExtents_selects (st : X11Extents) (reply : Option (List Int)) :
    (st.fetchExtents reply).selects = st.selects := by
  unfold X11Extents.fetchExtents
  cases reply with
  | none => rfl
  | some values =>
    dsimp only
    split
    · split <;> rfl
    · rfl

theorem fetchExtents_cached_length (st : X11Extents) (reply : Option (List Int)) :
    (st.fetchExtents reply).cachedExtents.length = st.cachedExtents.length := by
  unfold X11Extents.fetchExtents
  cases reply with
  | none => rfl
  | some values =>
    dsimp only
    split
    · split
      · exact goCopy_length _ _
      · rfl
    · rfl

/-- C20, the code at the failing input. `fetchExtents` stores the extents with
`copy(cachedExtents, w.extents)`, which never changes the length of
`cachedExtents`, a nil slice from program start: after an earlier window read
the extents [1, 1, 24, 1], `cachedExtents` is still empty. `doRebuildWindow`
reads the cache with `copy(cExtents, cachedExtents)` into a nil slice, so that
whatever `cachedExtents` holds it waits in at least one `select`. Building the
later window with both waits timing out and no property to read leaves its
extents empty, not [1, 1, 24, 1], even when the cache is made to hold them. -/
theorem C20_cached_extents_not_reused :
    (∀ (st : X11Extents) (reply : Option (List Int)),
      (st.fetchExtents reply).cachedExtents.length = st.cachedExtents.length) ∧
    X11Extents.start.fetchExtents (some [1, 1, 24, 1]) =
      { cachedExtents := [], extents := [1, 1, 24, 1], selects := 0, timeouts := 0,
        shown := false } ∧
    (∀ (st : X11Extents) (w : Window) (first second : WaitResult)
        (onTimeout : Option (List Int)),
      st.selects + 1 ≤ (st.doRebuildWindow w first onTimeout second).1.selects) ∧
    ((X11Extents.start.fetchExtents (some [1, 1, 24, 1])).newWindow.doRebuildWindow sampleClosed
        WaitResult.timeout none WaitResult.timeout).1 =
      { cachedExtents := [], extents := [], selects := 2, timeouts := 2, shown := true } ∧
    (({ cachedExtents := [1, 1, 24, 1], extents := [], selects := 0, timeouts := 0,
        shown := false } : X11Extents).doRebuildWindow sampleClosed
        WaitResult.timeout none WaitResult.timeout).1 =
      { cachedExtents := [1, 1, 24, 1], extents := [], selects := 2, timeouts := 2,
        shown := true } := by
  refine ⟨fetchExtents_cached_length, by decide, ?_, by decide, by decide⟩
  intro st w first second onTimeout
  have h1 : ∀ s : X11Extents, ∀ r : WaitResult, ∀ o : Option (List Int),
      s.selects + 1 ≤
        (match r with
          | WaitResult.timeout =>
            ({ s with selects := s.selects + 1, timeouts := s.timeouts + 1 } :
              X11Extents).fetchExtents o
          | WaitResult.notified reply =>
            ({ s with selects := s.selects + 1 } : X11Extents).fetchExtents reply).selects := by
    intro s r o
    cases r with
    | timeout => simp [fetchExtents_selects]
    | notified reply => simp [fetchExtents_selects]
  simp only [X11Extents.doRebuildWindow, goCopy_nil, List.length_nil]
  have hf : decide ((0 : Nat) = 4) = false := by decide
  simp only [hf, Bool.false_and, Bool.not_false, Bool.and_true, Bool.false_eq_true, if_false]
  split
  · rename_i hcond
    cases second with
    | timeout =>
      have := h1 st first onTimeout
      simp only []
      omega
    | notified reply =>
      have := h1 st first onTimeout
      simp only [fetchExtents_selects]
      omega
  · exact h1 st first onTimeout

/-! ## Frame extents when no notification arrives -/

/-- C21 as stated fails. A new window is built, both waits on
`waitForFrameExtents` time out, and the property read made after the first
timeout returns [1, 1, 24, 1]: the native window's extents are [1, 1, 24, 1],
and once opened the window reports `Extents()` = (1, 1, 1, 24) (left, right,
bottom, top), not zeros. -/
theorem C21_extents_timeout_counterexample :
    (X11Extents.start.doRebuildWindow Window.NewWindow WaitResult.timeout (some [1, 1, 24, 1])
        WaitResult.timeout).1.extents = [1, 1, 24, 1] ∧
    (((X11Extents.start.doRebuildWindow Window.NewWindow WaitResult.timeout (some [1, 1, 24, 1])
        WaitResult.timeout).2.Open (some 0) (some sampleNative)).1).Extents = (1, 1, 1, 24) ∧
    (((X11Extents.start.doRebuildWindow Window.NewWindow WaitResult.timeout (some [1, 1, 24, 1])
        WaitResult.timeout).2.Open (some 0) (some sampleNative)).1).Extents ≠ (0, 0, 0, 0) := by
  decide

/-- C21, amended. A new native window is built and no frame-extents
notification arrives before the timeouts fire. Building completes, and the
extents depend on the property read made after the first timeout: when it
fails or does not return four values the native extents stay empty and the
window is left as it was (extents [0, 0, 0, 0] for a window from `NewWindow`);
when it returns four values these are the native extents and the window's
extents. -/
theorem C21_extents_timeout_uses_property_read (st : X11Extents) (w : Window)
    (hnew : st.extents = []) :
    (st.doRebuildWindow w WaitResult.timeout none WaitResult.timeout).1.extents = [] ∧
    (st.doRebuildWindow w WaitResult.timeout none WaitResult.timeout).2 = w ∧
    (∀ values : List Int, values.length ≠ 4 →
      (st.doRebuildWindow w WaitResult.timeout (some values) WaitResult.timeout).1.extents = [] ∧
      (st.doRebuildWindow w WaitResult.timeout (some values) WaitResult.timeout).2 = w) ∧
    (∀ l r t b : Int,
      (st.doRebuildWindow w WaitResult.timeout (some [l, r, t, b]) WaitResult.timeout).1.extents =
        [l, r, t, b] ∧
      (st.doRebuildWindow w WaitResult.timeout (some [l, r, t, b]) WaitResult.timeout).2 =
        w.trySetExtents l r b t) ∧
    (X11Extents.start.doRebuildWindow Window.NewWindow WaitResult.timeout none
        WaitResult.timeout).2.extentLeft = 0 ∧
    (X11Extents.start.doRebuildWindow Window.NewWindow WaitResult.timeout none
        WaitResult.timeout).2.extentRight = 0 ∧
    (X11Extents.start.doRebuildWindow Window.NewWindow WaitResult.timeout none
        WaitResult.timeout).2.extentBottom = 0 ∧
    (X11Extents.start.doRebuildWindow Window.NewWindow WaitResult.timeout none
        WaitResult.timeout).2.extentTop = 0 := by
  refine ⟨?_, ?_, ?_, ?_, by decide, by decide, by decide, by decide⟩
  · simp [X11Extents.doRebuildWindow, X11Extents.fetchExtents, goCopy_nil, hnew]
  · simp [X11Extents.doRebuildWindow, X11Extents.fetchExtents, goCopy_nil, hnew]
  · intro values hv
    simp [X11Extents.doRebuildWindow, X11Extents.fetchExtents, goCopy_nil, hnew, hv]
  · intro l r t b
    have hcopy : goCopy [0, 0, 0, 0] [l, r, t, b] = [l, r, t, b] := by
      simp [goCopy]
    by_cases hz : allZero4 [l, r, t, b] = true
    · simp [X11Extents.doRebuildWindow, X11Extents.fetchExtents, goCopy_nil, hcopy, hz,
        goCopy_length]
    · simp [X11Extents.doRebuildWindow, X11Extents.fetchExtents, goCopy_nil, hcopy, hz,
        goCopy_length]

/-- C21 amended, on a new window and native window, with the property read
returning [1, 1, 24, 1]. -/
theorem C21_extents_timeout_witness :
    X11Extents.start.extents = [] ∧
    (X11Extents.start.doRebuildWindow Window.NewWindow WaitResult.timeout (some [1, 1, 24, 1])
        WaitResult.timeout).1.extents = [1, 1, 24, 1] :=
  ⟨by decide,
    ((C21_extents_timeout_uses_property_read X11Extents.start Window.NewWindow
      (by decide)).2.2.2.1 1 1 24 1).1⟩

/-! ## Relative motion after the pointer re-enters -/

/-- C22 as stated fails. A valid X11 context that is already destroyed: the
second `GLDestroyContext` returns normally, with the context and the native
calls unchanged, and does not panic. The same holds on Windows. -/
theorem C22_GLDestroyContext_twice_counterexample :
    ({ valid := true, destroyed := true, glxContext := 7 } : X11GLContext).GLDestroyContext [] =
      Panics.ok ({ valid := true, destroyed := true, glxContext := 7 }, []) ∧
    ({ valid := true, destroyed := true, hglrc := 7 } : W32GLContext).GLDestroyContext [] =
      Panics.ok ({ valid := true, destroyed := true, hglrc := 7 }, []) := by
  decide

/-- C22, amended. For every valid GL context that has already been destroyed,
calling `GLDestroyContext` on it again returns normally and does nothing: the
context stays destroyed and no native destroy call is made. Destroying a valid
context twice in a row makes exactly one native destroy call. On X11 the call
panics exactly when the context is not valid. -/
theorem C22_GLDestroyContext_twice_is_noop (c : X11GLContext) (calls : List GLNativeCall)
    (hvalid : c.valid = true) :
    (c.destroyed = true → c.GLDestroyContext calls = Panics.ok (c, calls)) ∧
    (c.destroyed = false →
      c.GLDestroyContext calls =
        Panics.ok ({ c with destroyed := true },
          calls ++ [GLNativeCall.GLXDestroyContext c.glxContext]) ∧
      ({ c with destroyed := true } : X11GLContext).GLDestroyContext
          (calls ++ [GLNativeCall.GLXDestroyContext c.glxContext]) =
        Panics.ok ({ c with destroyed := true },
          calls ++ [GLNativeCall.GLXDestroyContext c.glxContext])) ∧
    (∀ (w : W32GLContext) (wcalls : List GLNativeCall), w.destroyed = true →
      w.GLDestroyContext wcalls = Panics.ok (w, wcalls)) ∧
    (∀ (d : X11GLContext) (dcalls : List GLNativeCall), d.valid = false →
      d.GLDestroyContext dcalls =
        Panics.panic "Invalid GLContext; did you attempt to create it yourself?") := by
  refine ⟨?_, ?_, ?_, ?_⟩
  · intro hd
    simp [X11GLContext.GLDestroyContext, X11GLContext.panicUnlessValid, hvalid, hd]
  · intro hd
    simp [X11GLContext.GLDestroyContext, X11GLContext.panicUnlessValid, hvalid, hd]
  · intro w wcalls hd
    simp [W32GLContext.GLDestroyContext, hd]
  · intro d dcalls hv
    simp [X11GLContext.GLDestroyContext, X11GLContext.panicUnlessValid, hv]

/-- C22 amended, on a valid context destroyed before. -/
theorem C22_GLDestroyContext_witness :
    ({ valid := true, destroyed := true, glxContext := 7 } : X11GLContext).valid = true ∧
    ({ valid := true, destroyed := true, glxContext := 7 } : X11GLContext).destroyed = true ∧
    ({ valid := true, destroyed := true, glxContext := 7 } : X11GLContext).GLDestroyContext
        [GLNativeCall.GLXDestroyContext 7] =
      Panics.ok ({ valid := true, destroyed := true, glxContext := 7 },
        [GLNativeCall.GLXDestroyContext 7]) :=
  ⟨by decide, by decide,
    (C22_GLDestroyContext_twice_is_noop { valid := true, destroyed := true, glxContext := 7 }
      [GLNativeCall.GLXDestroyContext 7] (by decide)).1 (by decide)⟩

theorem land_core_le_compat (flags : Nat) :
    flags &&& GLCoreProfile ≤ flags &&& GLCompatibilityProfile := by
  have h : flags &&& GLCoreProfile = (flags &&& GLCompatibilityProfile) &&& GLCoreProfile := by
    rw [Nat.land_assoc]
    rfl
  rw [h]
  exact Nat.and_le_left

/-- C25, the code at the failing input. The flag constants are numbered by
`iota` (`GLCoreProfile` = 2, `GLCompatibilityProfile` = 3) and tested with `&`,
so a flags value that has the bit of `GLCoreProfile` also passes the test for
`GLCompatibilityProfile`. For OpenGL 3.2 with flags `GLCoreProfile` alone the
attribute list selects the compatibility profile; no version and no flags value
ever select the core profile; and for OpenGL 4.0 and 4.1 (minor version below
2) no profile is selected at all. -/
theorem C25_core_profile_never_selected :
    contextAttribs 3 2 GLCoreProfile =
      [GLAttrib.majorVersion 3, GLAttrib.minorVersion 2,
       GLAttrib.profileMask GLProfile.compatibility] ∧
    (∀ (glVersionMajor glVersionMinor : Nat) (flags : GLContextFlags),
      GLAttrib.profileMask GLProfile.core ∉ contextAttribs glVersionMajor glVersionMinor flags) ∧
    contextAttribs 4 0 GLCoreProfile = [GLAttrib.majorVersion 4, GLAttrib.minorVersion 0] ∧
    contextAttribs 4 1 GLCompatibilityProfile =
      [GLAttrib.majorVersion 4, GLAttrib.minorVersion 1,
       GLAttrib.contextFlags true false] := by
  refine ⟨by decide, ?_, by decide, by decide⟩
  intro major minor flags
  have hle := land_core_le_compat flags
  have hnot : (decide ((flags &&& GLCoreProfile) > 0) &&
      !decide ((flags &&& GLCompatibilityProfile) > 0)) = false := by
    by_cases h : (flags &&& GLCoreProfile) > 0
    · have h2 : (flags &&& GLCompatibilityProfile) > 0 := Nat.lt_of_lt_of_le h hle
      simp [h, h2]
    · simp [h]
  simp only [contextAttribs, hnot]
  split <;> split <;> simp

/-! ## Screens -/

theorem equalsLoop_longer (l : List ScreenMode) (m : ScreenMode) :
    Screen.equalsLoop (l ++ [m]) l = Panics.panic "runtime error: index out of range" ∧
    Screen.equalsLoop l (l ++ [m]) = Panics.ok true := by
  induction l with
  | nil => exact ⟨rfl, rfl⟩
  | cons a rest ih =>
    have ha : a.Equals a = true := by simp [ScreenMode.Equals]
    constructor
    · simp only [List.cons_append, Screen.equalsLoop, ha, Bool.not_true, Bool.false_eq_true,
        if_false]
      exact ih.1
    · simp only [List.cons_append, Screen.equalsLoop, ha, Bool.not_true, Bool.false_eq_true,
        if_false]
      exact ih.2

/-- C28, the code at the failing input. `sampleScreenTwo` and `sampleScreenOne`
have the same name and physical size; the first has two modes, the second only
the first of them. `sampleScreenTwo.Equals(sampleScreenOne)` indexes the shorter
mode list at position 1 and panics, while `sampleScreenOne.Equals(sampleScreenTwo)`
returns true. In general a screen with one more mode at the end of its list
panics when compared with the screen without it, and the comparison the other
way round returns true. -/
theorem C28_Screen_Equals_panics_on_shorter_list :
    sampleScreenTwo.Equals sampleScreenOne =
      Panics.panic "runtime error: index out of range" ∧
    sampleScreenOne.Equals sampleScreenTwo = Panics.ok true ∧
    (∀ (s : Screen) (m : ScreenMode),
      ({ s with modes := s.modes ++ [m] } : Screen).Equals s =
        Panics.panic "runtime error: index out of range" ∧
      s.Equals { s with modes := s.modes ++ [m] } = Panics.ok true) := by
  refine ⟨?_, ?_, ?_⟩
  · simp [sampleScreenTwo, sampleScreenOne, newScreen, goSort, Screen.Equals, Screen.String,
      Screen.Name, Screen.PhysicalSize, Screen.Modes, Screen.equalsLoop, ScreenMode.Less,
      ScreenMode.Resolution, ScreenMode.BytesPerPixel, ScreenMode.RefreshRate,
      ScreenMode.Equals, List.insertionSort, List.orderedInsert, wrapInt]
  · simp [sampleScreenTwo, sampleScreenOne, newScreen, goSort, Screen.Equals, Screen.String,
      Screen.Name, Screen.PhysicalSize, Screen.Modes, Screen.equalsLoop, ScreenMode.Less,
      ScreenMode.Resolution, ScreenMode.BytesPerPixel, ScreenMode.RefreshRate,
      ScreenMode.Equals, List.insertionSort, List.orderedInsert, wrapInt]
  · intro s m
    have h := equalsLoop_longer s.modes m
    simp only [Screen.Equals, Screen.String, Screen.Name, Screen.PhysicalSize, Screen.Modes,
      if_true]
    exact h

theorem subUint8_lt (a t : Uint8) : subUint8 a t < 256 := Nat.mod_lt _ (by decide)

theorem rankDist_inj (a b t : Uint8) : rankDist a t = rankDist b t ↔ a = b := by
  constructor
  · intro h
    apply Fin.ext
    have ha := a.isLt
    have hb := b.isLt
    have ht := t.isLt
    simp only [rankDist, subUint8] at h
    omega
  · intro h
    rw [h]

theorem rankBool_inj (a b t : Bool) : rankBool a t = rankBool b t ↔ a = b := by
  cases a <;> cases b <;> cases t <;> simp [rankBool]

theorem distCmp_eq (a b t : Uint8) :
    sortedConfigs.distCmp a b t = decide (rankDist a t < rankDist b t) := by
  have ha := subUint8_lt a t
  have hb := subUint8_lt b t
  simp only [sortedConfigs.distCmp, rankDist]
  apply decide_eq_decide.mpr
  omega

theorem lexLt_stepB (a b t : Bool) (rest : Bool) (xs ys : List Nat) (h : rest = lexLt xs ys) :
    (if (a != b) = true then sortedConfigs.boolCmp a b t else rest) =
      lexLt (rankBool a t :: xs) (rankBool b t :: ys) := by
  cases a <;> cases b <;> cases t <;> simp [lexLt, rankBool, sortedConfigs.boolCmp, h]

theorem lexLt_stepN (a b t : Uint8) (rest : Bool) (xs ys : List Nat) (h : rest = lexLt xs ys) :
    (if (a != b) = true then sortedConfigs.distCmp a b t else rest) =
      lexLt (rankDist a t :: xs) (rankDist b t :: ys) := by
  by_cases hab : a = b
  · subst hab
    simp [lexLt, h]
  · simp [lexLt, hab, rankDist_inj, distCmp_eq]

theorem lexLt_last (a b t : Uint8) :
    sortedConfigs.distCmp a b t = lexLt [rankDist a t] [rankDist b t] := by
  by_cases hab : a = b
  · subst hab
    simp [lexLt, distCmp_eq]
  · simp [lexLt, hab, rankDist_inj, distCmp_eq]

theorem Less_eq_lexLt (max a b : GLConfig) :
    sortedConfigs.Less max a b = lexLt (ranks max a) (ranks max b) := by
  unfold sortedConfigs.Less ranks
  refine lexLt_stepB _ _ _ _ _ _ ?_
  refine lexLt_stepN _ _ _ _ _ _ ?_
  refine lexLt_stepN _ _ _ _ _ _ ?_
  refine lexLt_stepN _ _ _ _ _ _ ?_
  refine lexLt_stepN _ _ _ _ _ _ ?_
  refine lexLt_stepB _ _ _ _ _ _ ?_
  refine lexLt_stepN _ _ _ _ _ _ ?_
  refine lexLt_stepN _ _ _ _ _ _ ?_
  refine lexLt_stepN _ _ _ _ _ _ ?_
  refine lexLt_stepB _ _ _ _ _ _ ?_
  refine lexLt_stepB _ _ _ _ _ _ ?_
  refine lexLt_stepN _ _ _ _ _ _ ?_
  refine lexLt_stepN _ _ _ _ _ _ ?_
  refine lexLt_stepN _ _ _ _ _ _ ?_
  refine lexLt_stepN _ _ _ _ _ _ ?_
  exact lexLt_last _ _ _

theorem lexLt_irrefl (l : List Nat) : lexLt l l = false := by
  induction l with
  | nil => rfl
  | cons x xs ih => simp [lexLt, ih]

theorem lexLt_asymm (a : List Nat) : ∀ b : List Nat, lexLt a b = true → lexLt b a = false := by
  induction a with
  | nil => intro b _; cases b <;> rfl
  | cons x xs ih =>
    intro b h
    cases b with
    | nil => rfl
    | cons y ys =>
      simp only [lexLt] at h ⊢
      by_cases hxy : x = y
      · subst hxy
        simp only [if_true] at h ⊢
        exact ih ys h
      · have hyx : ¬ y = x := fun e => hxy e.symm
        simp only [hxy, hyx, if_false, decide_eq_true_eq, decide_eq_false_iff_not] at h ⊢
        omega

theorem lexLt_le_trans (a : List Nat) : ∀ b c : List Nat, a.length = b.length →
    b.length = c.length → lexLt b a = false → lexLt c b = false → lexLt c a = false := by
  induction a with
  | nil => intro b c _ _ _ _; cases c <;> rfl
  | cons x xs ih =>
    intro b c hab hbc h1 h2
    cases b with
    | nil => simp at hab
    | cons y ys =>
      cases c with
      | nil => rfl
      | cons z zs =>
        simp only [List.length_cons, Nat.add_right_cancel_iff] at hab hbc
        simp only [lexLt] at h1 h2 ⊢
        by_cases hyx : y = x
        · subst hyx
          simp only [if_true] at h1
          by_cases hzy : z = y
          · subst hzy
            simp only [if_true] at h2 ⊢
            exact ih ys zs hab hbc h1 h2
          · simp only [hzy, if_false] at h2 ⊢
            exact h2
        · simp only [hyx, if_false, decide_eq_false_iff_not] at h1
          by_cases hzy : z = y
          · subst hzy
            simp only [hyx, if_false, decide_eq_false_iff_not]
            exact h1
          · simp only [hzy, if_false, decide_eq_false_iff_not] at h2
            have hzx : ¬ z = x := by omega
            simp only [hzx, if_false, decide_eq_false_iff_not]
            omega

theorem lexLt_antisymm (a : List Nat) : ∀ b : List Nat, a.length = b.length →
    lexLt a b = false → lexLt b a = false → a = b := by
  induction a with
  | nil =>
    intro b hab _ _
    cases b with
    | nil => rfl
    | cons y ys => simp at hab
  | cons x xs ih =>
    intro b hab h1 h2
    cases b with
    | nil => simp at hab
    | cons y ys =>
      simp only [List.length_cons, Nat.add_right_cancel_iff] at hab
      simp only [lexLt] at h1 h2
      by_cases hxy : x = y
      · subst hxy
        simp only [if_true] at h1 h2
        rw [ih ys hab h1 h2]
      · have hyx : ¬ y = x := fun e => hxy e.symm
        simp only [hxy, hyx, if_false, decide_eq_false_iff_not] at h1 h2
        omega

theorem Less_irrefl (max a : GLConfig) : sortedConfigs.Less max a a = false := by
  rw [Less_eq_lexLt]
  exact lexLt_irrefl _

theorem Less_total (max a b : GLConfig) :
    sortedConfigs.Less max b a = false ∨ sortedConfigs.Less max a b = false := by
  cases h : sortedConfigs.Less max b a with
  | false => exact Or.inl rfl
  | true =>
    right
    rw [Less_eq_lexLt] at h ⊢
    exact lexLt_asymm _ _ h

theorem Less_le_trans (max a b c : GLConfig) (h1 : sortedConfigs.Less max b a = false)
    (h2 : sortedConfigs.Less max c b = false) : sortedConfigs.Less max c a = false := by
  rw [Less_eq_lexLt] at h1 h2 ⊢
  exact lexLt_le_trans (ranks max a) (ranks max b) (ranks max c) rfl rfl h1 h2

theorem Less_tie_Equals (max a b : GLConfig) (h1 : sortedConfigs.Less max a b = false)
    (h2 : sortedConfigs.Less max b a = false) : a.Equals b = true := by
  rw [Less_eq_lexLt] at h1 h2
  have h := lexLt_antisymm (ranks max a) (ranks max b) rfl h1 h2
  simp only [ranks, List.cons.injEq, rankDist_inj, rankBool_inj, and_true] at h
  obtain ⟨e1, e2, e3, e4, e5, e6, e7, e8, e9, e10, e11, e12, e13, e14, e15, e16⟩ := h
  simp [GLConfig.Equals, e1, e2, e3, e4, e5, e6, e7, e8, e9, e10, e11, e12, e13, e14, e15, e16]

theorem goSort_Less_sorted (max : GLConfig) (l : List GLConfig) :
    (goSort (sortedConfigs.Less max) l).Perm l ∧
    List.Pairwise (fun a b => sortedConfigs.Less max b a = false)
      (goSort (sortedConfigs.Less max) l) := by
  haveI : IsTotal GLConfig (fun a b => sortedConfigs.Less max b a = false) :=
    ⟨fun a b => Less_total max a b⟩
  haveI : IsTrans GLConfig (fun a b => sortedConfigs.Less max b a = false) :=
    ⟨fun a b c hab hbc => Less_le_trans max a b c hab hbc⟩
  exact ⟨List.perm_insertionSort _ l,
    List.sorted_insertionSort (fun a b => sortedConfigs.Less max b a = false) l⟩

/-- The candidates that pass both loops of `GLChooseConfig`. -/
theorem GLChooseConfig_some (possible : List GLConfig) (min max r : GLConfig)
    (h : GLChooseConfig possible min max = some r) :
    (r ∈ possible ∧ r.notBelow min = true ∧ r.notAbove max = true) ∧
    ∀ x ∈ possible, x.notBelow min = true → x.notAbove max = true →
      sortedConfigs.Less max x r = false := by
  simp only [GLChooseConfig] at h
  split at h
  · exact absurd h (by simp)
  · obtain ⟨hperm, hsorted⟩ := goSort_Less_sorted max
      ((possible.filter (fun c => c.notBelow min)).filter (fun c => c.notAbove max))
    cases hs : goSort (sortedConfigs.Less max)
        ((possible.filter (fun c => c.notBelow min)).filter (fun c => c.notAbove max)) with
    | nil => rw [hs] at h; simp at h
    | cons c rest =>
      rw [hs] at h hperm hsorted
      simp only [List.head?_cons, Option.some.injEq] at h
      subst h
      have hmem : c ∈ (possible.filter (fun c => c.notBelow min)).filter
          (fun c => c.notAbove max) := hperm.subset (List.mem_cons_self _ _)
      simp only [List.mem_filter] at hmem
      refine ⟨⟨hmem.1.1, hmem.1.2, hmem.2⟩, ?_⟩
      intro x hx hxmin hxmax
      have hx2 : x ∈ c :: rest := hperm.symm.subset (by
        simp only [List.mem_filter]
        exact ⟨⟨hx, hxmin⟩, hxmax⟩)
      rcases List.mem_cons.mp hx2 with e | hrest
      · rw [e]
        exact Less_irrefl max c
      · exact (List.pairwise_cons.mp hsorted).1 x hrest

theorem GLChooseConfig_none (possible : List GLConfig) (min max : GLConfig) :
    GLChooseConfig possible min max = none ↔
      ∀ x ∈ possible, ¬ (x.notBelow min = true ∧ x.notAbove max = true) := by
  obtain ⟨hperm, _⟩ := goSort_Less_sorted max
    ((possible.filter (fun c => c.notBelow min)).filter (fun c => c.notAbove max))
  simp only [GLChooseConfig]
  constructor
  · intro h x hx hb
    have hmem : x ∈ (possible.filter (fun c => c.notBelow min)).filter
        (fun c => c.notAbove max) := by
      simp only [List.mem_filter]
      exact ⟨⟨hx, hb.1⟩, hb.2⟩
    split at h
    · rename_i hlen
      rw [List.length_eq_zero.mp hlen] at hmem
      simp at hmem
    · rw [List.head?_eq_none_iff] at h
      rw [h] at hperm
      have := hperm.symm.subset hmem
      simp at this
  · intro h
    have hnil : (possible.filter (fun c => c.notBelow min)).filter
        (fun c => c.notAbove max) = [] := by
      rw [List.eq_nil_iff_forall_not_mem]
      intro x hx
      simp only [List.mem_filter] at hx
      exact h x hx.1.1 ⟨hx.1.2, hx.2⟩
    simp [hnil]

theorem ite_false_eq_true_iff (p : Prop) [Decidable p] (r : Bool) :
    (if p then false else r) = true ↔ ¬ p ∧ r = true := by
  by_cases h : p <;> simp [h]

theorem and_not_eq_true_iff (m c : Bool) : ¬ ((m && !c) = true) ↔ (m = true → c = true) := by
  cases m <;> cases c <;> simp

theorem and_not_eq_true_iff_right (c m : Bool) :
    ¬ ((c && !m) = true) ↔ (m = false → c = false) := by
  cases m <;> cases c <;> simp

theorem notBelow_iff (c min : GLConfig) : c.notBelow min = true ↔
    (min.RedBits ≤ c.RedBits ∧ min.GreenBits ≤ c.GreenBits ∧ min.BlueBits ≤ c.BlueBits ∧
     min.AlphaBits ≤ c.AlphaBits ∧ min.AccumRedBits ≤ c.AccumRedBits ∧
     min.AccumGreenBits ≤ c.AccumGreenBits ∧ min.AccumBlueBits ≤ c.AccumBlueBits ∧
     min.AccumAlphaBits ≤ c.AccumAlphaBits ∧ min.Samples ≤ c.Samples ∧
     min.AuxBuffers ≤ c.AuxBuffers ∧ min.DepthBits ≤ c.DepthBits ∧
     min.StencilBits ≤ c.StencilBits ∧
     (min.Accelerated = true → c.Accelerated = true) ∧
     (min.Transparent = true → c.Transparent = true) ∧
     (min.DoubleBuffered = true → c.DoubleBuffered = true) ∧
     (min.StereoScopic = true → c.StereoScopic = true)) := by
  simp only [GLConfig.notBelow, ite_false_eq_true_iff, not_lt, and_not_eq_true_iff, and_true]

theorem notAbove_iff (c max : GLConfig) : c.notAbove max = true ↔
    (c.RedBits ≤ max.RedBits ∧ c.GreenBits ≤ max.GreenBits ∧ c.BlueBits ≤ max.BlueBits ∧
     c.AlphaBits ≤ max.AlphaBits ∧ c.AccumRedBits ≤ max.AccumRedBits ∧
     c.AccumGreenBits ≤ max.AccumGreenBits ∧ c.AccumBlueBits ≤ max.AccumBlueBits ∧
     c.AccumAlphaBits ≤ max.AccumAlphaBits ∧ c.Samples ≤ max.Samples ∧
     c.AuxBuffers ≤ max.AuxBuffers ∧ c.DepthBits ≤ max.DepthBits ∧
     c.StencilBits ≤ max.StencilBits ∧
     (max.Accelerated = false → c.Accelerated = false) ∧
     (max.Transparent = false → c.Transparent = false) ∧
     (max.DoubleBuffered = false → c.DoubleBuffered = false) ∧
     (max.StereoScopic = false → c.StereoScopic = false)) := by
  simp only [GLConfig.notAbove, ite_false_eq_true_iff, not_lt, gt_iff_lt,
    and_not_eq_true_iff_right, and_true]

theorem withinBounds_iff (c min max : GLConfig) :
    c.withinBounds min max ↔ (c.notBelow min = true ∧ c.notAbove max = true) := by
  rw [notBelow_iff, notAbove_iff]
  unfold GLConfig.withinBounds
  tauto

/-- C23. For every list `possible` and every `minConfig` and `maxConfig`,
`GLChooseConfig` returns nil exactly when no element of `possible` lies within
the bounds, and every configuration it returns is an element of `possible`
that lies within the bounds: every numeric attribute at least `minConfig`'s and
at most `maxConfig`'s, every boolean attribute true when `minConfig`'s is true
and false when `maxConfig`'s is false. -/
theorem C23_GLChooseConfig_within_bounds (possible : List GLConfig)
    (minConfig maxConfig : GLConfig) :
    (GLChooseConfig possible minConfig maxConfig = none ↔
      ∀ c ∈ possible, ¬ c.withinBounds minConfig maxConfig) ∧
    (∀ r : GLConfig, GLChooseConfig possible minConfig maxConfig = some r →
      r ∈ possible ∧ r.withinBounds minConfig maxConfig) := by
  constructor
  · rw [GLChooseConfig_none]
    constructor
    · intro h c hc hw
      exact h c hc ((withinBounds_iff c minConfig maxConfig).mp hw)
    · intro h c hc hw
      exact h c hc ((withinBounds_iff c minConfig maxConfig).mpr hw)
  · intro r hr
    obtain ⟨⟨hmem, h1, h2⟩, _⟩ := GLChooseConfig_some possible minConfig maxConfig r hr
    exact ⟨hmem, (withinBounds_iff r minConfig maxConfig).mpr ⟨h1, h2⟩⟩

/-- C24, the code at the failing input. With `maxConfig.RedBits = 8` and two
accelerated candidates within the bounds that differ only in `RedBits`, 5 and
8, `GLChooseConfig` returns the candidate with 5 red bits, in either order of
the input list: the `uint8` difference `a - target` wraps around, so the
candidate whose `RedBits` equals `maxConfig.RedBits` has distance 0 and every
other candidate a larger one, and `Less` puts the larger distances first. In
general a configuration whose `RedBits` differs from `maxConfig.RedBits` is
`Less` than the same configuration with `RedBits` equal to it. -/
theorem C24_GLChooseConfig_prefers_fewer_red_bits :
    sampleRed5.notBelow GLWorstConfig = true ∧ sampleRed5.notAbove sampleMaxRed8 = true ∧
    sampleRed8.notBelow GLWorstConfig = true ∧ sampleRed8.notAbove sampleMaxRed8 = true ∧
    sampleRed5.Accelerated = sampleRed8.Accelerated ∧
    sampleRed8.RedBits = sampleMaxRed8.RedBits ∧
    GLChooseConfig [sampleRed5, sampleRed8] GLWorstConfig sampleMaxRed8 = some sampleRed5 ∧
    GLChooseConfig [sampleRed8, sampleRed5] GLWorstConfig sampleMaxRed8 = some sampleRed5 ∧
    (∀ (max c : GLConfig) (r : Uint8),
      sortedConfigs.Less max { c with RedBits := r } { c with RedBits := max.RedBits } =
        decide (r ≠ max.RedBits)) := by
  refine ⟨by decide, by decide, by decide, by decide, by decide, by decide, by decide,
    by decide, ?_⟩
  intro max c r
  rw [Less_eq_lexLt]
  by_cases h : r = max.RedBits
  · subst h
    simp only [ne_eq, not_true_eq_false, decide_False]
    exact lexLt_irrefl _
  · have hr : rankDist r max.RedBits ≠ rankDist max.RedBits max.RedBits :=
      fun e => h ((rankDist_inj _ _ _).mp e)
    have hlt : rankDist r max.RedBits < rankDist max.RedBits max.RedBits := by
      have h0 : subUint8 max.RedBits max.RedBits = 0 := by
        have := max.RedBits.isLt
        simp only [subUint8]
        omega
      have h1 := subUint8_lt r max.RedBits
      simp only [rankDist, h0] at hr ⊢
      omega
    simp [ranks, lexLt, hr, hlt, h]

/-- C29. For every list `possible`, every permutation `p` of it and every
`minConfig` and `maxConfig`, `GLChooseConfig(p, minConfig, maxConfig)` and
`GLChooseConfig(possible, minConfig, maxConfig)` are both nil or are equal
under `GLConfig.Equals`. -/
theorem C29_GLChooseConfig_order_independent (possible p : List GLConfig)
    (minConfig maxConfig : GLConfig) (hp : p.Perm possible) :
    (GLChooseConfig p minConfig maxConfig = none ∧
      GLChooseConfig possible minConfig maxConfig = none) ∨
    (∃ a b : GLConfig, GLChooseConfig p minConfig maxConfig = some a ∧
      GLChooseConfig possible minConfig maxConfig = some b ∧ a.Equals b = true) := by
  cases h1 : GLChooseConfig p minConfig maxConfig with
  | none =>
    left
    refine ⟨rfl, ?_⟩
    rw [GLChooseConfig_none] at h1 ⊢
    intro x hx
    exact h1 x (hp.symm.subset hx)
  | some a =>
    cases h2 : GLChooseConfig possible minConfig maxConfig with
    | none =>
      exfalso
      rw [GLChooseConfig_none] at h2
      obtain ⟨⟨hmem, hb1, hb2⟩, _⟩ := GLChooseConfig_some p minConfig maxConfig a h1
      exact h2 a (hp.subset hmem) ⟨hb1, hb2⟩
    | some b =>
      right
      refine ⟨a, b, rfl, rfl, ?_⟩
      obtain ⟨⟨hma, ha1, ha2⟩, hmina⟩ := GLChooseConfig_some p minConfig maxConfig a h1
      obtain ⟨⟨hmb, hb1, hb2⟩, hminb⟩ :=
        GLChooseConfig_some possible minConfig maxConfig b h2
      exact Less_tie_Equals maxConfig a b (hminb a (hp.subset hma) ha1 ha2)
        (hmina b (hp.symm.subset hmb) hb1 hb2)

/-- A witness of C29: the list of the two sample candidates and its swap, with
`GLWorstConfig` and `GLBestConfig` as bounds. -/
theorem C29_GLChooseConfig_order_independent_witness :
    [sampleRed8, sampleRed5].Perm [sampleRed5, sampleRed8] ∧
    ((GLChooseConfig [sampleRed8, sampleRed5] GLWorstConfig GLBestConfig = none ∧
      GLChooseConfig [sampleRed5, sampleRed8] GLWorstConfig GLBestConfig = none) ∨
    (∃ a b : GLConfig, GLChooseConfig [sampleRed8, sampleRed5] GLWorstConfig GLBestConfig = some a ∧
      GLChooseConfig [sampleRed5, sampleRed8] GLWorstConfig GLBestConfig = some b ∧
      a.Equals b = true)) :=
  ⟨List.Perm.swap sampleRed5 sampleRed8 [],
    C29_GLChooseConfig_order_independent [sampleRed5, sampleRed8] [sampleRed8, sampleRed5]
      GLWorstConfig GLBestConfig (List.Perm.swap sampleRed5 sampleRed8 [])⟩

/-! ## OpenGL version strings -/

theorem digitValue_digitChar (d : Nat) (h : d < 10) : digitValue (digitChar d) = some d := by
  interval_cases d <;> rfl

theorem digitChar_ne (d : Nat) (h : d < 10) :
    digitChar d ≠ '.' ∧ digitChar d ≠ ' ' ∧ digitChar d ≠ '-' ∧ digitChar d ≠ '+' := by
  interval_cases d <;> decide

theorem decimal_digits (n : Nat) : ∀ c ∈ decimal n, ∃ d, d < 10 ∧ c = digitChar d := by
  intro c hc
  unfold decimal at hc
  split at hc
  · simp only [List.mem_singleton] at hc
    exact ⟨0, by decide, by rw [hc]; rfl⟩
  · simp only [List.mem_map, List.mem_reverse] at hc
    obtain ⟨d, hd, rfl⟩ := hc
    exact ⟨d, Nat.digits_lt_base (by decide) hd, rfl⟩

theorem decimal_ne_nil (n : Nat) : decimal n ≠ [] := by
  unfold decimal
  split
  · simp
  · rename_i h
    simp only [ne_eq, List.map_eq_nil_iff, List.reverse_eq_nil_iff]
    exact fun e => h (Nat.digits_eq_nil_iff_eq_zero.mp e)

theorem decimal_not_mem (n : Nat) :
    '.' ∉ decimal n ∧ ' ' ∉ decimal n := by
  constructor
  · intro h
    obtain ⟨d, hd, e⟩ := decimal_digits n _ h
    exact (digitChar_ne d hd).1 e.symm
  · intro h
    obtain ⟨d, hd, e⟩ := decimal_digits n _ h
    exact (digitChar_ne d hd).2.1 e.symm

theorem parseDigits_map (L : List Nat) : ∀ acc : Nat, (∀ d ∈ L, d < 10) →
    parseDigits (L.map digitChar) acc = some (L.foldl (fun a d => a * 10 + d) acc) := by
  induction L with
  | nil => intro acc _; rfl
  | cons d ds ih =>
    intro acc h
    simp only [List.map_cons, parseDigits, List.foldl_cons]
    rw [digitValue_digitChar d (h d (List.mem_cons_self _ _))]
    exact ih _ (fun x hx => h x (List.mem_cons_of_mem _ hx))

theorem parseDigits_decimal (n : Nat) : parseDigits (decimal n) 0 = some n := by
  unfold decimal
  split
  · rename_i h
    rw [h]
    rfl
  · rw [parseDigits_map _ 0 (fun d hd =>
      Nat.digits_lt_base (by decide) (List.mem_reverse.mp hd))]
    rw [List.foldl_reverse]
    have h := Nat.ofDigits_digits 10 n
    rw [Nat.ofDigits_eq_foldr] at h
    have hf : (fun (x y : Nat) => y * 10 + x) = (fun (x y : Nat) => ((x : Nat) : Nat) + 10 * y) := by
      funext x y
      omega
    simp only [Nat.cast_id] at h
    rw [hf, h]

theorem Atoi_decimal (n : Nat) (h : n < 2 ^ (intSize - 1)) : Atoi (decimal n) = some (n : Int) := by
  cases hd : decimal n with
  | nil => exact absurd hd (decimal_ne_nil n)
  | cons c rest =>
    have hc : c ∈ decimal n := by rw [hd]; exact List.mem_cons_self _ _
    obtain ⟨d, hd10, e⟩ := decimal_digits n c hc
    have hne := digitChar_ne d hd10
    rw [← e] at hne
    have hp := parseDigits_decimal n
    rw [hd] at hp
    simp only [Atoi, hne.2.2.1, hne.2.2.2, if_false, hp, h, if_true]

theorem stringsSplit_ne_nil (s : GoString) (sep : Char) : stringsSplit s sep ≠ [] := by
  induction s with
  | nil => simp [stringsSplit]
  | cons c cs ih =>
    simp only [stringsSplit]
    split
    · simp
    · split <;> simp

theorem stringsSplit_no_sep (s : GoString) (sep : Char) (h : sep ∉ s) :
    stringsSplit s sep = [s] := by
  induction s with
  | nil => rfl
  | cons c cs ih =>
    have hc : ¬ c = sep := fun e => h (by rw [e]; exact List.mem_cons_self _ _)
    have hcs : sep ∉ cs := fun e => h (List.mem_cons_of_mem _ e)
    simp only [stringsSplit, hc, if_false, ih hcs]

theorem stringsSplit_append (a b : GoString) (sep : Char) (h : sep ∉ a) :
    stringsSplit (a ++ sep :: b) sep = a :: stringsSplit b sep := by
  induction a with
  | nil => simp [stringsSplit]
  | cons c cs ih =>
    have hc : ¬ c = sep := fun e => h (by rw [e]; exact List.mem_cons_self _ _)
    have hcs : sep ∉ cs := fun e => h (List.mem_cons_of_mem _ e)
    show stringsSplit (c :: (cs ++ sep :: b)) sep = (c :: cs) :: stringsSplit b sep
    simp only [stringsSplit, hc, if_false, ih hcs]

theorem versionSupported_compare_eq (major minor wantedMajor wantedMinor : Int) :
    versionSupported_compare major minor wantedMajor wantedMinor =
      Panics.ok (atLeastVersion major minor wantedMajor wantedMinor) := by
  unfold versionSupported_compare atLeastVersion
  split_ifs <;> simp <;> omega

theorem versionSupported_parse_versionText (M m : Nat) (wantedMajor wantedMinor : Int)
    (hM : M < 2 ^ (intSize - 1)) (hm : m < 2 ^ (intSize - 1)) :
    versionSupported_parse (versionText M m) wantedMajor wantedMinor =
      Panics.ok (atLeastVersion M m wantedMajor wantedMinor) := by
  have hdots : stringsCount (versionText M m) '.' = 1 := by
    simp [stringsCount, versionText, List.count_append, List.count_cons,
      List.count_eq_zero.mpr (decimal_not_mem M).1, List.count_eq_zero.mpr (decimal_not_mem m).1]
  have hsplit : stringsSplit (versionText M m) '.' = [decimal M, decimal m] := by
    unfold versionText
    rw [stringsSplit_append _ _ _ (decimal_not_mem M).1,
      stringsSplit_no_sep _ _ (decimal_not_mem m).1]
  simp only [versionSupported_parse, hdots, hsplit, if_true, List.length_cons, List.length_nil,
    versionSupported_atoi, Atoi_decimal M hM, Atoi_decimal m hm]
  exact versionSupported_compare_eq _ _ _ _

theorem versionSupported_parse_versionTextRelease (M m r : Nat) (wantedMajor wantedMinor : Int)
    (hM : M < 2 ^ (intSize - 1)) (hm : m < 2 ^ (intSize - 1)) :
    versionSupported_parse (versionTextRelease M m r) wantedMajor wantedMinor =
      Panics.ok (atLeastVersion M m wantedMajor wantedMinor) := by
  have hdots : stringsCount (versionTextRelease M m r) '.' = 2 := by
    simp [stringsCount, versionTextRelease, List.count_append, List.count_cons,
      List.count_eq_zero.mpr (decimal_not_mem M).1, List.count_eq_zero.mpr (decimal_not_mem m).1,
      List.count_eq_zero.mpr (decimal_not_mem r).1]
  have hsplit : stringsSplit (versionTextRelease M m r) '.' =
      [decimal M, decimal m, decimal r] := by
    unfold versionTextRelease
    rw [stringsSplit_append _ _ _ (decimal_not_mem M).1,
      stringsSplit_append _ _ _ (decimal_not_mem m).1,
      stringsSplit_no_sep _ _ (decimal_not_mem r).1]
  have h21 : ¬ (2 : Nat) = 1 := by decide
  simp only [versionSupported_parse, hdots, hsplit, h21, if_false, if_true, List.length_cons,
    List.length_nil, versionSupported_atoi, Atoi_decimal M hM, Atoi_decimal m hm]
  exact versionSupported_compare_eq _ _ _ _

theorem versionText_no_space (M m : Nat) : ' ' ∉ versionText M m := by
  unfold versionText
  simp only [List.mem_append, List.mem_cons, not_or]
  exact ⟨(decimal_not_mem M).2, by decide, (decimal_not_mem m).2⟩

theorem versionTextRelease_no_space (M m r : Nat) : ' ' ∉ versionTextRelease M m r := by
  unfold versionTextRelease
  simp only [List.mem_append, List.mem_cons, not_or]
  exact ⟨(decimal_not_mem M).2, by decide, (decimal_not_mem m).2, by decide,
    (decimal_not_mem r).2⟩

theorem versionSupported_plain (s : GoString) (wantedMajor wantedMinor : Int)
    (hs : s ≠ []) (hsp : ' ' ∉ s) :
    versionSupported s wantedMajor wantedMinor =
      versionSupported_parse s wantedMajor wantedMinor := by
  have hlen : s.length > 0 := List.length_pos.mpr hs
  have hc : stringsContains s ' ' = false := by
    simp [stringsContains, hsp]
  simp only [versionSupported, hlen, if_true, hc, Bool.false_eq_true, if_false]

theorem versionSupported_vendor (s vendor : GoString) (wantedMajor wantedMinor : Int)
    (hsp : ' ' ∉ s) :
    versionSupported (s ++ ' ' :: vendor) wantedMajor wantedMinor =
      versionSupported_parse s wantedMajor wantedMinor := by
  have hlen : (s ++ ' ' :: vendor).length > 0 := by simp
  have hc : stringsContains (s ++ ' ' :: vendor) ' ' = true := by
    simp [stringsContains]
  simp only [versionSupported, hlen, if_true, hc, stringsSplit_append s vendor ' ' hsp]

theorem versionText_ne_nil (M m : Nat) : versionText M m ≠ [] := by
  simp [versionText]

theorem versionTextRelease_ne_nil (M m r : Nat) : versionTextRelease M m r ≠ [] := by
  simp [versionTextRelease]

/-- C30. For all natural numbers `M` and `m` that fit in an `int` and all
integers `wantedMajor` and `wantedMinor`, `versionSupported` applied to the
string `"M.m"` or `"M.m.r"`, as it is or followed by a space and any vendor
text, returns without a panic the result of
`atLeastVersion(M, m, wantedMajor, wantedMinor)`, which is true exactly when
`(M, m) >= (wantedMajor, wantedMinor)` in lexicographic order; and
`versionSupported` returns false for the empty string. -/
theorem C30_versionSupported_agrees_with_atLeastVersion (M m r : Nat) (vendor : GoString)
    (wantedMajor wantedMinor : Int)
    (hM : M < 2 ^ (intSize - 1)) (hm : m < 2 ^ (intSize - 1)) :
    versionSupported (versionText M m) wantedMajor wantedMinor =
      Panics.ok (atLeastVersion M m wantedMajor wantedMinor) ∧
    versionSupported (versionTextRelease M m r) wantedMajor wantedMinor =
      Panics.ok (atLeastVersion M m wantedMajor wantedMinor) ∧
    versionSupported (versionText M m ++ ' ' :: vendor) wantedMajor wantedMinor =
      Panics.ok (atLeastVersion M m wantedMajor wantedMinor) ∧
    versionSupported (versionTextRelease M m r ++ ' ' :: vendor) wantedMajor wantedMinor =
      Panics.ok (atLeastVersion M m wantedMajor wantedMinor) ∧
    (atLeastVersion M m wantedMajor wantedMinor = true ↔
      ((M : Int) > wantedMajor ∨ ((M : Int) = wantedMajor ∧ (m : Int) ≥ wantedMinor))) ∧
    versionSupported [] wantedMajor wantedMinor = Panics.ok false := by
  refine ⟨?_, ?_, ?_, ?_, ?_, rfl⟩
  · rw [versionSupported_plain _ _ _ (versionText_ne_nil M m) (versionText_no_space M m)]
    exact versionSupported_parse_versionText M m _ _ hM hm
  · rw [versionSupported_plain _ _ _ (versionTextRelease_ne_nil M m r)
      (versionTextRelease_no_space M m r)]
    exact versionSupported_parse_versionTextRelease M m r _ _ hM hm
  · rw [versionSupported_vendor _ _ _ _ (versionText_no_space M m)]
    exact versionSupported_parse_versionText M m _ _ hM hm
  · rw [versionSupported_vendor _ _ _ _ (versionTextRelease_no_space M m r)]
    exact versionSupported_parse_versionTextRelease M m r _ _ hM hm
  · unfold atLeastVersion
    split_ifs <;> simp <;> omega

/-- A witness of C30: the version 3.2 with release 0 and the vendor text
`NV`, asked for at least 3.1. -/
theorem C30_versionSupported_witness :
    (3 < 2 ^ (intSize - 1) ∧ 2 < 2 ^ (intSize - 1)) ∧
    (versionSupported (versionText 3 2) 3 1 = Panics.ok (atLeastVersion (3 : Nat) (2 : Nat) 3 1) ∧
    versionSupported (versionTextRelease 3 2 0) 3 1 =
      Panics.ok (atLeastVersion (3 : Nat) (2 : Nat) 3 1) ∧
    versionSupported (versionText 3 2 ++ ' ' :: ['N', 'V']) 3 1 =
      Panics.ok (atLeastVersion (3 : Nat) (2 : Nat) 3 1) ∧
    versionSupported (versionTextRelease 3 2 0 ++ ' ' :: ['N', 'V']) 3 1 =
      Panics.ok (atLeastVersion (3 : Nat) (2 : Nat) 3 1) ∧
    (atLeastVersion (3 : Nat) (2 : Nat) 3 1 = true ↔
      (((3 : Nat) : Int) > 3 ∨ (((3 : Nat) : Int) = 3 ∧ ((2 : Nat) : Int) ≥ 1))) ∧
    versionSupported [] 3 1 = Panics.ok false) :=
  ⟨⟨by decide, by decide⟩,
    C30_versionSupported_agrees_with_atLeastVersion 3 2 0 ['N', 'V'] 3 1 (by decide) (by decide)⟩

/-- A witness of C23: the two sample candidates between `GLWorstConfig` and
`GLBestConfig`, where the candidate with 8 red bits is returned, and between
`GLBestConfig` and `GLBestConfig`, where nothing lies within the bounds. -/
theorem C23_GLChooseConfig_witness :
    GLChooseConfig [sampleRed5, sampleRed8] GLWorstConfig GLBestConfig = some sampleRed8 ∧
    GLChooseConfig [sampleRed5, sampleRed8] GLBestConfig GLBestConfig = none ∧
    ((GLChooseConfig [sampleRed5, sampleRed8] GLWorstConfig GLBestConfig = none ↔
      ∀ c ∈ [sampleRed5, sampleRed8], ¬ c.withinBounds GLWorstConfig GLBestConfig) ∧
    (∀ r : GLConfig, GLChooseConfig [sampleRed5, sampleRed8] GLWorstConfig GLBestConfig = some r →
      r ∈ [sampleRed5, sampleRed8] ∧ r.withinBounds GLWorstConfig GLBestConfig)) :=
  ⟨by decide, by decide,
    C23_GLChooseConfig_within_bounds [sampleRed5, sampleRed8] GLWorstConfig GLBestConfig⟩

end Chippy
